import Mathlib

/-!
Verification development for the hax-ai-interface intent-resolution and
command-synthesis engine.  The JavaScript sources (`src/lib/ai-processorORIG.js`
and the enhanced variant in `src/unnamed/part_001`) are shallowly embedded as
executable Lean functions over `Str := List Char`.  Strings from the source are
transcribed verbatim; braces are written with `\x7b`/`\x7d` escapes and
apostrophes with `\x27`.  Character-level operations model the ASCII fragment
of the JavaScript string primitives (the inputs exercised by the theorems are
ASCII).
-/

set_option maxRecDepth 1000000

namespace HaxAI

abbrev Str := List Char

/-- Conversion from Lean string literals to the character-list model. -/
def str (s : String) : Str := s.data

/-- Model of the JavaScript `\s` whitespace class (ASCII fragment). -/
def jsSpace (c : Char) : Bool :=
  c == ' ' || c == '\t' || c == '\n' || c == '\r' || c == '\x0b' || c == '\x0c'

def isDigitC (c : Char) : Bool := '0' ≤ c && c ≤ '9'

def isAlphaC (c : Char) : Bool := ('a' ≤ c && c ≤ 'z') || ('A' ≤ c && c ≤ 'Z')

def isAlnumC (c : Char) : Bool := isAlphaC c || isDigitC c

/-- Model of the JavaScript `\w` word class. -/
def isWordC (c : Char) : Bool := isAlnumC c || c == '_'

/-- ASCII lower-casing of one character, as `String.prototype.toLowerCase`. -/
def lowerChar (c : Char) : Char :=
  if 'A' ≤ c && c ≤ 'Z' then Char.ofNat (c.toNat + 32) else c

/-- ASCII upper-casing of one character, as `String.prototype.toUpperCase`. -/
def upperChar (c : Char) : Char :=
  if 'a' ≤ c && c ≤ 'z' then Char.ofNat (c.toNat - 32) else c

def toLowerS (s : Str) : Str := s.map lowerChar

/-- `String.prototype.trim` (ASCII whitespace fragment). -/
def trimL (s : Str) : Str := s.dropWhile jsSpace

def trimR (s : Str) : Str := (s.reverse.dropWhile jsSpace).reverse

def trimS (s : Str) : Str := trimR (trimL s)

/-- Worker for `collapseWs`: the flag records whether the scanner is inside a
whitespace run whose single replacement character was already emitted. -/
def collapseA : Bool → Str → Str
  | _, [] => []
  | inRun, c :: t =>
    if jsSpace c then
      (if inRun then collapseA true t else ' ' :: collapseA true t)
    else c :: collapseA false t

/-- Each maximal whitespace run collapses to a single space: the effect of
`replace(/\s+/g, ' ')` in the sources. -/
def collapseWs (s : Str) : Str := collapseA false s

/-- Worker for `collapseWsDash`. -/
def collapseDashA : Bool → Str → Str
  | _, [] => []
  | inRun, c :: t =>
    if jsSpace c then
      (if inRun then collapseDashA true t else '-' :: collapseDashA true t)
    else c :: collapseDashA false t

/-- Each maximal whitespace run becomes a single dash: the effect of
`replace(/\s+/g, '-')` in the sources. -/
def collapseWsDash (s : Str) : Str := collapseDashA false s

/-- Is `pat` a prefix of `s`? -/
def isPre : Str → Str → Bool
  | [], _ => true
  | _ :: _, [] => false
  | p :: ps, c :: cs => p == c && isPre ps cs

/-- Substring test, as `String.prototype.includes`. -/
def hasSub : Str → Str → Bool
  | [], pat => isPre pat []
  | c :: t, pat => isPre pat (c :: t) || hasSub t pat

/-- Number of (possibly overlapping) occurrences of `pat` in `s`, counted by
start position.  Used to state counting facts about generated markup. -/
def countSub : Str → Str → Nat
  | [], _ => 0
  | c :: t, pat => (if isPre pat (c :: t) then 1 else 0) + countSub t pat

end HaxAI

namespace HaxAI

/-- Character class kept by `sanitizeSlideTitle`'s first `replace`
(`/[^a-zA-Z0-9\s]/g` removes everything else). -/
def keepSlideChar (c : Char) : Bool := isAlnumC c || jsSpace c

/-- `sanitizeSlideTitle` from `src/lib/ai-processorORIG.js` (lines 2519-2524):
strip characters outside letters/digits/whitespace, collapse whitespace runs
to single spaces, trim. -/
def sanitizeSlideTitle (s : Str) : Str :=
  trimS (collapseWs (s.filter keepSlideChar))

/-- The punctuation class replaced with spaces by `sanitizePageTitle`
(`/[;|\\\/?#\[\]@!$&'()*+,=%]/g`). -/
def pageJunk (c : Char) : Bool :=
  c == ';' || c == '|' || c == '\\' || c == '/' || c == '?' || c == '#' ||
  c == '[' || c == ']' || c == '@' || c == '!' || c == '$' || c == '&' ||
  c == '\x27' || c == '(' || c == ')' || c == '*' || c == '+' || c == ',' ||
  c == '=' || c == '%'

/-- `sanitizePageTitle` from `src/unnamed/part_001` (lines 496-507): colons
and a list of URL-breaking punctuation characters become spaces, whitespace
runs collapse, and the result is trimmed.  A falsy (empty) title is returned
unchanged. -/
def sanitizePageTitle (s : Str) : Str :=
  if s = [] then s else
  trimS (collapseWs
    ((s.map (fun c => if c = ':' then ' ' else c)).map
      (fun c => if pageJunk c then ' ' else c)))

/-- Adjacent characters are never both whitespace. -/
def NoWsPair (a b : Char) : Prop := ¬(jsSpace a = true ∧ jsSpace b = true)

/-- A string whose whitespace is normalized: every whitespace character is a
plain space and no two adjacent characters are both whitespace. -/
def Tidy (s : Str) : Prop :=
  (∀ c ∈ s, jsSpace c = true → c = ' ') ∧ s.Chain' NoWsPair

/-- The head of a string, if any, is not whitespace. -/
def HeadNonWs (s : Str) : Prop :=
  match s.head? with
  | some c => jsSpace c = false
  | none => True

theorem mem_collapseA (b : Bool) (s : Str) :
    ∀ c ∈ collapseA b s, c = ' ' ∨ (c ∈ s ∧ jsSpace c = false) := by
  induction s generalizing b with
  | nil => intro c h; simp [collapseA] at h
  | cons d t ih =>
    intro c h
    by_cases hd : jsSpace d = true
    · rcases b with _ | _
      · rw [collapseA, if_pos hd, if_neg (by simp)] at h
        rcases List.mem_cons.mp h with h | h
        · exact Or.inl h
        · rcases ih true c h with h | ⟨h1, h2⟩
          · exact Or.inl h
          · exact Or.inr ⟨List.mem_cons_of_mem _ h1, h2⟩
      · rw [collapseA, if_pos hd, if_pos rfl] at h
        rcases ih true c h with h | ⟨h1, h2⟩
        · exact Or.inl h
        · exact Or.inr ⟨List.mem_cons_of_mem _ h1, h2⟩
    · rw [collapseA, if_neg hd] at h
      rcases List.mem_cons.mp h with h | h
      · subst h
        exact Or.inr ⟨List.mem_cons_self _ _, by simpa using hd⟩
      · rcases ih false c h with h | ⟨h1, h2⟩
        · exact Or.inl h
        · exact Or.inr ⟨List.mem_cons_of_mem _ h1, h2⟩

theorem collapseA_true_head (t : Str) (c : Char) (rest : Str)
    (h : collapseA true t = c :: rest) : jsSpace c = false := by
  induction t generalizing c rest with
  | nil => simp [collapseA] at h
  | cons d t ih =>
    by_cases hd : jsSpace d = true
    · rw [collapseA, if_pos hd, if_pos rfl] at h
      exact ih c rest h
    · rw [collapseA, if_neg hd] at h
      cases h
      simpa using hd

theorem chain_collapseA (b : Bool) (s : Str) :
    (collapseA b s).Chain' NoWsPair := by
  induction s generalizing b with
  | nil => simp [collapseA]
  | cons d t ih =>
    by_cases hd : jsSpace d = true
    · rcases b with _ | _
      · rw [collapseA, if_pos hd, if_neg (by simp)]
        cases hrest : collapseA true t with
        | nil => simp
        | cons c rest =>
          rw [List.chain'_cons]
          refine ⟨fun hc => ?_, hrest ▸ ih true⟩
          rw [collapseA_true_head t c rest hrest] at hc
          simp at hc
      · rw [collapseA, if_pos hd, if_pos rfl]
        exact ih true
    · rw [collapseA, if_neg hd]
      cases hrest : collapseA false t with
      | nil => simp
      | cons c rest =>
        rw [List.chain'_cons]
        refine ⟨fun hc => ?_, hrest ▸ ih false⟩
        exact hd hc.1

theorem tidy_collapseWs (s : Str) : Tidy (collapseWs s) := by
  refine ⟨fun c hc hws => ?_, chain_collapseA false s⟩
  rcases mem_collapseA false s c hc with h | ⟨_, h2⟩
  · exact h
  · rw [hws] at h2; cases h2

theorem collapseA_eq_self (s : Str) :
    ∀ b : Bool, Tidy s → (b = true → HeadNonWs s) → collapseA b s = s := by
  induction s with
  | nil => intro b _ _; simp [collapseA]
  | cons d t ih =>
    intro b ⟨hmem, hch⟩ hb
    by_cases hd : jsSpace d = true
    · have hb' : b = false := by
        rcases b with _ | _
        · rfl
        · have := hb rfl
          unfold HeadNonWs at this
          simp at this
          rw [hd] at this; cases this
      subst hb'
      have hd' : d = ' ' := hmem d (List.mem_cons_self _ _) hd
      rw [collapseA, if_pos hd, if_neg (by simp)]
      have htail : collapseA true t = t := by
        refine ih true ⟨fun c hc hw => hmem c (List.mem_cons_of_mem _ hc) hw,
          (List.chain'_cons'.mp hch).2⟩ (fun _ => ?_)
        unfold HeadNonWs
        cases t with
        | nil => simp
        | cons e t' =>
          have := (List.chain'_cons.mp hch).1
          unfold NoWsPair at this
          simp only [List.head?]
          by_contra hne
          exact this ⟨hd, by simpa using hne⟩
      rw [htail, hd']
    · rw [collapseA, if_neg hd]
      have htail : collapseA false t = t :=
        ih false ⟨fun c hc hw => hmem c (List.mem_cons_of_mem _ hc) hw,
          (List.chain'_cons'.mp hch).2⟩ (by simp)
      rw [htail]

theorem collapseWs_eq_self (s : Str) (h : Tidy s) : collapseWs s = s :=
  collapseA_eq_self s false h (by simp)

theorem tidy_infx {s t : Str} (h : Tidy s) (hi : t <:+: s) : Tidy t :=
  ⟨fun c hc hw => h.1 c (hi.sublist.subset hc) hw, List.Chain'.infix h.2 hi⟩

theorem trimR_isPre (s : Str) : trimR s <+: s := by
  refine ⟨(s.reverse.takeWhile jsSpace).reverse, ?_⟩
  rw [trimR, ← List.reverse_append, List.takeWhile_append_dropWhile]
  exact List.reverse_reverse s

theorem trimS_infx (s : Str) : trimS s <:+: s := by
  have h1 : trimS s <+: trimL s := trimR_isPre (trimL s)
  have h2 : trimL s <:+ s := List.dropWhile_suffix jsSpace
  exact h1.isInfix.trans h2.isInfix

theorem trimL_headNonWs (s : Str) : HeadNonWs (trimL s) := by
  unfold HeadNonWs
  cases h : (trimL s).head? with
  | none => trivial
  | some c =>
    have := List.head?_dropWhile_not jsSpace s
    rw [trimL] at h
    rw [h] at this
    exact this

theorem trimS_headNonWs (s : Str) : HeadNonWs (trimS s) := by
  unfold HeadNonWs
  cases h : (trimS s).head? with
  | none => trivial
  | some c =>
    cases hs : trimS s with
    | nil => rw [hs] at h; simp at h
    | cons d rest =>
      rw [hs] at h
      simp only [List.head?] at h
      cases h
      have hp : trimS s <+: trimL s := trimR_isPre (trimL s)
      rw [hs] at hp
      rcases hp with ⟨u, hu⟩
      have := trimL_headNonWs s
      unfold HeadNonWs at this
      rw [← hu] at this
      simpa using this

theorem trimS_revHeadNonWs (s : Str) : HeadNonWs (trimS s).reverse := by
  unfold HeadNonWs
  cases h : (trimS s).reverse.head? with
  | none => trivial
  | some c =>
    have hrw : (trimS s).reverse = (trimL s).reverse.dropWhile jsSpace := by
      rw [trimS, trimR, List.reverse_reverse]
    rw [hrw] at h
    have := List.head?_dropWhile_not jsSpace (trimL s).reverse
    rw [h] at this
    exact this

theorem trimL_eq_self (s : Str) (h : HeadNonWs s) : trimL s = s := by
  unfold trimL
  cases s with
  | nil => simp
  | cons c t =>
    unfold HeadNonWs at h
    simp only [List.head?] at h
    rw [List.dropWhile_cons, h]
    simp

theorem trimR_eq_self (s : Str) (h : HeadNonWs s.reverse) : trimR s = s := by
  unfold trimR
  rw [show List.dropWhile jsSpace s.reverse = trimL s.reverse from rfl,
    trimL_eq_self s.reverse h, List.reverse_reverse]

theorem trimS_eq_self (s : Str) (h1 : HeadNonWs s) (h2 : HeadNonWs s.reverse) :
    trimS s = s := by
  rw [trimS, trimL_eq_self s h1, trimR_eq_self s h2]

end HaxAI

namespace HaxAI

theorem map_fixed {f : Char → Char} : ∀ l : Str, (∀ c ∈ l, f c = c) → l.map f = l := by
  intro l h
  induction l with
  | nil => rfl
  | cons c t ih =>
    simp only [List.map_cons]
    rw [h c (List.mem_cons_self _ _), ih (fun d hd => h d (List.mem_cons_of_mem _ hd))]

/-- The character policy stated by the specification for sanitized titles:
only letters, digits, and single interior spaces, with no leading or
trailing space. -/
def OnlySingleSpacedAlnum (s : Str) : Prop :=
  (∀ c ∈ s, isAlnumC c = true ∨ c = ' ') ∧
  s.Chain' (fun a b => ¬(a = ' ' ∧ b = ' ')) ∧
  s.head? ≠ some ' ' ∧ s.getLast? ≠ some ' '

theorem mem_sanitizeSlideTitle (s : Str) :
    ∀ c ∈ sanitizeSlideTitle s, (isAlnumC c = true ∨ c = ' ') ∧ keepSlideChar c = true := by
  intro c hc
  have hc2 : c ∈ collapseWs (s.filter keepSlideChar) :=
    (trimS_infx _).sublist.subset hc
  rcases mem_collapseA false _ c hc2 with h | ⟨h1, h2⟩
  · subst h
    exact ⟨Or.inr rfl, by simp [keepSlideChar, jsSpace]⟩
  · have hk : keepSlideChar c = true := List.of_mem_filter h1
    have : isAlnumC c = true := by
      rcases Bool.or_eq_true_iff.mp hk with h | h
      · exact h
      · rw [h2] at h; cases h
    exact ⟨Or.inl this, hk⟩

theorem tidy_sanitizeSlideTitle (s : Str) : Tidy (sanitizeSlideTitle s) :=
  tidy_infx (tidy_collapseWs _) (trimS_infx _)

theorem sanitizeSlideTitle_idem (s : Str) :
    sanitizeSlideTitle (sanitizeSlideTitle s) = sanitizeSlideTitle s := by
  have hfil : (sanitizeSlideTitle s).filter keepSlideChar = sanitizeSlideTitle s :=
    List.filter_eq_self.mpr (fun c hc => (mem_sanitizeSlideTitle s c hc).2)
  have hcol : collapseWs (sanitizeSlideTitle s) = sanitizeSlideTitle s :=
    collapseWs_eq_self _ (tidy_sanitizeSlideTitle s)
  have htr : trimS (sanitizeSlideTitle s) = sanitizeSlideTitle s :=
    trimS_eq_self _ (trimS_headNonWs _) (trimS_revHeadNonWs _)
  rw [sanitizeSlideTitle, hfil, hcol]
  exact htr

theorem sanitizeSlideTitle_good (s : Str) :
    OnlySingleSpacedAlnum (sanitizeSlideTitle s) := by
  have htidy := tidy_sanitizeSlideTitle s
  refine ⟨fun c hc => (mem_sanitizeSlideTitle s c hc).1, ?_, ?_, ?_⟩
  · refine List.Chain'.imp ?_ htidy.2
    intro a b hab hcon
    exact hab ⟨by simp [hcon.1, jsSpace], by simp [hcon.2, jsSpace]⟩
  · intro h
    have := trimS_headNonWs (collapseWs (s.filter keepSlideChar))
    unfold HeadNonWs at this
    rw [show trimS (collapseWs (s.filter keepSlideChar)) = sanitizeSlideTitle s from rfl, h] at this
    simp [jsSpace] at this
  · intro h
    have := trimS_revHeadNonWs (collapseWs (s.filter keepSlideChar))
    unfold HeadNonWs at this
    rw [show trimS (collapseWs (s.filter keepSlideChar)) = sanitizeSlideTitle s from rfl,
      List.head?_reverse, h] at this
    simp [jsSpace] at this

theorem mem_sanitizePageTitle (s : Str) :
    ∀ c ∈ sanitizePageTitle s, c = ' ' ∨ (c ≠ ':' ∧ pageJunk c = false) := by
  intro c hc
  by_cases hnil : s = []
  · rw [sanitizePageTitle, if_pos hnil] at hc
    rw [hnil] at hc
    cases hc
  · rw [sanitizePageTitle, if_neg hnil] at hc
    have hc2 := (trimS_infx _).sublist.subset hc
    rcases mem_collapseA false _ c hc2 with h | ⟨h1, _⟩
    · exact Or.inl h
    · rcases List.mem_map.mp h1 with ⟨z, hz, hzx⟩
      by_cases hj : pageJunk z = true
      · rw [if_pos hj] at hzx
        exact Or.inl hzx.symm
      · rw [if_neg hj] at hzx
        subst hzx
        by_cases hcolon : z = ':'
        · exfalso
          rcases List.mem_map.mp hz with ⟨y, _, hy⟩
          by_cases hyc : y = ':'
          · rw [if_pos hyc] at hy
            rw [← hy] at hcolon
            cases hcolon
          · rw [if_neg hyc] at hy
            rw [hy] at hyc
            exact hyc hcolon
        · exact Or.inr ⟨hcolon, by simpa using hj⟩

theorem sanitizePageTitle_idem (s : Str) :
    sanitizePageTitle (sanitizePageTitle s) = sanitizePageTitle s := by
  by_cases hout : sanitizePageTitle s = []
  · rw [sanitizePageTitle, if_pos hout]
  · rw [sanitizePageTitle, if_neg hout]
    have hm1 : (sanitizePageTitle s).map (fun c => if c = ':' then ' ' else c) =
        sanitizePageTitle s := by
      refine map_fixed _ (fun c hc => ?_)
      rcases mem_sanitizePageTitle s c hc with h | ⟨h, _⟩
      · rw [h]; simp
      · rw [if_neg h]
    have hm2 : (sanitizePageTitle s).map (fun c => if pageJunk c then ' ' else c) =
        sanitizePageTitle s := by
      refine map_fixed _ (fun c hc => ?_)
      rcases mem_sanitizePageTitle s c hc with h | ⟨_, h⟩
      · subst h; simp [pageJunk]
      · rw [h]; simp
    rw [hm1, hm2]
    by_cases hnil : s = []
    · exfalso; apply hout; rw [sanitizePageTitle, if_pos hnil, hnil]
    · have htidy : Tidy (sanitizePageTitle s) := by
        rw [sanitizePageTitle, if_neg hnil]
        exact tidy_infx (tidy_collapseWs _) (trimS_infx _)
      rw [collapseWs_eq_self _ htidy]
      rw [sanitizePageTitle, if_neg hnil]
      exact trimS_eq_self _ (trimS_headNonWs _) (trimS_revHeadNonWs _)

end HaxAI

namespace HaxAI

instance : DecidablePred OnlySingleSpacedAlnum := fun _ => by
  unfold OnlySingleSpacedAlnum; infer_instance

/-- C4: title sanitization is idempotent for both sanitizers in the sources,
and the output of `sanitizeSlideTitle` contains only letters, digits, and
single interior spaces.  The claim's full character constraint fails for
`sanitizePageTitle` (see the counterexample), which only replaces a fixed
punctuation list with spaces. -/
theorem c4_sanitize_idempotent_and_charset :
    (∀ s : Str, sanitizeSlideTitle (sanitizeSlideTitle s) = sanitizeSlideTitle s ∧
      OnlySingleSpacedAlnum (sanitizeSlideTitle s)) ∧
    (∀ s : Str, sanitizePageTitle (sanitizePageTitle s) = sanitizePageTitle s) :=
  ⟨fun s => ⟨sanitizeSlideTitle_idem s, sanitizeSlideTitle_good s⟩,
   fun s => sanitizePageTitle_idem s⟩

/-- C4 counterexample: `sanitizePageTitle` leaves the dot in `"a.b"` in
place, so its output is not restricted to letters, digits, and spaces. -/
theorem c4_cex_pageTitle_keeps_dot :
    sanitizePageTitle (str "a.b") = str "a.b" ∧
    ¬ OnlySingleSpacedAlnum (sanitizePageTitle (str "a.b")) := by
  exact ⟨by decide, by decide⟩

end HaxAI

namespace HaxAI

theorem isPre_iff {p s : Str} : isPre p s = true ↔ p <+: s := by
  induction p generalizing s with
  | nil => simp [isPre]
  | cons a p ih =>
    cases s with
    | nil => simp [isPre]
    | cons c t =>
      rw [isPre, Bool.and_eq_true, ih]
      constructor
      · rintro ⟨h1, u, hu⟩
        exact ⟨u, by rw [← hu]; simp [beq_iff_eq.mp h1]⟩
      · rintro ⟨u, hu⟩
        cases hu
        exact ⟨beq_self_eq_true a, u, rfl⟩

theorem hasSub_iff {s pat : Str} : hasSub s pat = true ↔ pat <:+: s := by
  induction s with
  | nil =>
    rw [hasSub, isPre_iff]
    constructor
    · intro h; exact h.isInfix
    · rintro ⟨u, v, huv⟩
      rcases List.append_eq_nil.mp huv with ⟨h1, _⟩
      rcases List.append_eq_nil.mp h1 with ⟨_, h3⟩
      subst h3
      exact List.nil_prefix
  | cons c t ih =>
    rw [hasSub, Bool.or_eq_true, isPre_iff, ih]
    constructor
    · rintro (h | h)
      · exact h.isInfix
      · exact List.infix_cons h
    · rintro ⟨u, v, huv⟩
      cases u with
      | nil => exact Or.inl ⟨v, by simpa using huv⟩
      | cons d u2 =>
        right
        rw [List.cons_append, List.cons_append] at huv
        injection huv with h1 h2
        exact ⟨u2, v, h2⟩

theorem hasSub_of_infx {s pat : Str} (h : pat <:+: s) : hasSub s pat = true :=
  hasSub_iff.mpr h

/-- No occurrence of `pat` can straddle the boundary between `a` and `b`. -/
def NoCross (pat a b : Str) : Prop :=
  ∀ k < pat.length, 0 < k →
    ¬((pat.take k).isSuffixOf a = true ∧ isPre (pat.drop k) b = true)

theorem isPre_append_right {p s : Str} (u : Str) (h : isPre p s = true) :
    isPre p (s ++ u) = true :=
  isPre_iff.mpr ((isPre_iff.mp h).trans (List.prefix_append s u))

theorem isPre_split {p s b : Str} (h : isPre p (s ++ b) = true)
    (hn : isPre p s = false) :
    s.length < p.length ∧ p.take s.length = s ∧ isPre (p.drop s.length) b = true := by
  induction s generalizing p with
  | nil =>
    cases p with
    | nil => rw [isPre] at hn; cases hn
    | cons a q =>
      refine ⟨by simp, by simp, ?_⟩
      simpa using h
  | cons c t ih =>
    cases p with
    | nil => rw [isPre] at hn; cases hn
    | cons a q =>
      rw [List.cons_append, isPre, Bool.and_eq_true] at h
      rw [isPre] at hn
      have hac : (a == c) = true := h.1
      rw [hac, Bool.true_and] at hn
      rcases ih h.2 hn with ⟨h1, h2, h3⟩
      refine ⟨by simpa using Nat.succ_lt_succ h1, ?_, h3⟩
      simp only [List.length_cons, List.take_succ_cons, h2]
      rw [beq_iff_eq.mp hac]

theorem noCross_tail {pat a b : Str} (c : Char) (h : NoCross pat (c :: a) b) :
    NoCross pat a b := by
  intro k hk hk0 hand
  exact h k hk hk0 ⟨List.isSuffixOf_iff_suffix.mpr
    ((List.isSuffixOf_iff_suffix.mp hand.1).trans (List.suffix_cons c a)), hand.2⟩

theorem countSub_append {pat : Str} :
    ∀ a b : Str, NoCross pat a b →
      countSub (a ++ b) pat = countSub a pat + countSub b pat := by
  intro a
  induction a with
  | nil => intro b _; simp [countSub]
  | cons c t ih =>
    intro b hnc
    rw [List.cons_append, countSub, countSub, Nat.add_assoc,
      ← ih b (noCross_tail c hnc)]
    congr 1
    rw [show c :: (t ++ b) = (c :: t) ++ b from (List.cons_append c t b).symm]
    cases hb : isPre pat (c :: t) with
    | true => rw [isPre_append_right b hb]
    | false =>
      cases hb2 : isPre pat ((c :: t) ++ b) with
      | false => rfl
      | true =>
        exfalso
        rcases isPre_split hb2 hb with ⟨h1, htake, hdrop⟩
        refine hnc (c :: t).length h1 (by simp) ⟨?_, hdrop⟩
        rw [htake]
        exact List.isSuffixOf_iff_suffix.mpr (List.suffix_refl _)

theorem mem_of_isPre {p s : Str} (h : isPre p s = true) : ∀ c ∈ p, c ∈ s :=
  fun _ hc => (isPre_iff.mp h).sublist.subset hc

theorem countSub_zero_of_char {s pat : Str} (c : Char) (hc : c ∈ pat)
    (hs : c ∉ s) : countSub s pat = 0 := by
  induction s with
  | nil => rfl
  | cons d t ih =>
    rw [countSub]
    have h1 : isPre pat (d :: t) ≠ true := by
      intro h
      exact hs (mem_of_isPre h c hc)
    rw [if_neg h1, ih (fun hm => hs (List.mem_cons_of_mem _ hm))]

/-- Discharge `NoCross` when no nonempty proper prefix of the pattern is a
suffix of the left part (checkable by `decide` for concrete left parts). -/
theorem noCross_of_left {pat a : Str} (b : Str)
    (h : ∀ k < pat.length, 0 < k → (pat.take k).isSuffixOf a = false) :
    NoCross pat a b := by
  intro k hk hk0 ⟨hs, _⟩
  rw [h k hk hk0] at hs
  cases hs

/-- Discharge `NoCross` for a variable left part `a` known to avoid a
character `c`, against a right part whose first `pat.length` characters are
the concrete list `t`. -/
theorem noCross_of_char {pat a b : Str} (c : Char) (t : Str)
    (hbt : b.take pat.length = t) (hc : c ∉ a)
    (h : ∀ k < pat.length, 0 < k → c ∈ pat.take k ∨ isPre (pat.drop k) t = false) :
    NoCross pat a b := by
  intro k hk hk0 ⟨hs, hp⟩
  rcases h k hk hk0 with hmem | hfalse
  · exact hc (((List.isSuffixOf_iff_suffix.mp hs).sublist.subset) hmem)
  · have : isPre (pat.drop k) t = true := by
      rw [← hbt]
      exact isPre_iff.mpr (List.prefix_take_iff.mpr
        ⟨isPre_iff.mp hp, by simp [Nat.le_of_lt hk]⟩)
    rw [hfalse] at this
    cases this

end HaxAI

namespace HaxAI

def isPunct (c : Char) : Bool := c == '.' || c == '!' || c == '?'

def headWs : Str → Bool
  | [] => false
  | d :: _ => jsSpace d

/-- Worker for `splitSentences`, the model of
`baseContent.split(/(?<=[.!?])\s+/)`: a split point is a whitespace run
immediately preceded by `.`, `!` or `?`.  Mode `true` is skipping the
whitespace run after an emitted piece; fuel makes the recursion structural. -/
def splitSenM : Nat → Bool → Str → Str → List Str
  | 0, _, acc, rest => [acc.reverse ++ rest]
  | _ + 1, false, acc, [] => [acc.reverse]
  | f + 1, false, acc, c :: t =>
    if isPunct c && headWs t then (c :: acc).reverse :: splitSenM f true [] t
    else splitSenM f false (c :: acc) t
  | _ + 1, true, _, [] => [[]]
  | f + 1, true, acc, c :: t =>
    if jsSpace c then splitSenM f true acc t
    else splitSenM f false acc (c :: t)

/-- `split(/(?<=[.!?])\s+/).filter(Boolean)` from
`generateThreeParagraphsContent` (ai-processorORIG.js line 1641). -/
def splitSentences (s : Str) : List Str :=
  (splitSenM (2 * s.length + 2) false [] s).filter (fun p => !p.isEmpty)

theorem splitSenM_infx :
    ∀ (f : Nat) (mode : Bool) (acc rest : Str), (mode = true → acc = []) →
      ∀ p ∈ splitSenM f mode acc rest, p <:+: (acc.reverse ++ rest) := by
  intro f
  induction f with
  | zero =>
    intro mode acc rest _ p hp
    rw [splitSenM] at hp
    rcases List.mem_singleton.mp hp with h
    exact h ▸ List.infix_refl _
  | succ f ih =>
    intro mode acc rest hma p hp
    cases mode with
    | false =>
      cases rest with
      | nil =>
        rw [splitSenM] at hp
        rcases List.mem_singleton.mp hp with h
        subst h
        exact (List.prefix_append _ _).isInfix
      | cons c t =>
        rw [splitSenM] at hp
        by_cases hsep : (isPunct c && headWs t) = true
        · rw [if_pos hsep] at hp
          rcases List.mem_cons.mp hp with h | h
          · subst h
            refine ⟨[], t, ?_⟩
            simp
          · have := ih true [] t (fun _ => rfl) p h
            simp only [List.reverse_nil, List.nil_append] at this
            refine this.trans ?_
            exact ⟨acc.reverse ++ [c], [], by simp⟩
        · rw [if_neg hsep] at hp
          have := ih false (c :: acc) t (by simp) p hp
          simpa using this
    | true =>
      have hacc : acc = [] := hma rfl
      subst hacc
      cases rest with
      | nil =>
        rw [splitSenM] at hp
        rcases List.mem_singleton.mp hp with h
        subst h
        exact ⟨[], [], by simp⟩
      | cons c t =>
        rw [splitSenM] at hp
        by_cases hws : jsSpace c = true
        · rw [if_pos hws] at hp
          have := ih true [] t (fun _ => rfl) p hp
          simp only [List.reverse_nil, List.nil_append] at this ⊢
          exact this.trans ⟨[c], [], by simp⟩

        · rw [if_neg hws] at hp
          exact ih false [] (c :: t) (by simp) p hp

theorem splitSentences_infx (s : Str) : ∀ p ∈ splitSentences s, p <:+: s := by
  intro p hp
  have hm := List.mem_of_mem_filter hp
  have := splitSenM_infx (2 * s.length + 2) false [] s (by simp) p hm
  simpa using this

/-- `generateThreeParagraphsContent` from ai-processorORIG.js (lines
1637-1647): content already containing `<p>` is returned unchanged; otherwise
the topic text is split at sentence boundaries and the first three sentences
(each falling back to the whole topic text when missing) are wrapped in
`<p>...</p>`. -/
def generateThreeParagraphsContent (_pageTitle baseContent : Str) : Str :=
  if hasSub baseContent (str "<p>") then baseContent
  else
    let sentences := splitSentences baseContent
    (str "<p>" ++ sentences.getD 0 baseContent ++ str "</p>") ++
    (str "<p>" ++ sentences.getD 1 baseContent ++ str "</p>") ++
    (str "<p>" ++ sentences.getD 2 baseContent ++ str "</p>")

end HaxAI

namespace HaxAI

theorem hasSub_mono {s t pat : Str} (hts : t <:+: s) (h : hasSub t pat = true) :
    hasSub s pat = true :=
  hasSub_of_infx ((hasSub_iff.mp h).trans hts)

theorem getD_cases (l : List Str) (i : Nat) (d : Str) :
    l.getD i d ∈ l ∨ l.getD i d = d := by
  by_cases hi : i < l.length
  · left
    rw [List.getD_eq_getElem l d hi]
    exact List.getElem_mem hi
  · right
    exact List.getD_eq_default l d (Nat.le_of_not_lt hi)

/-- C6 (amended): for every page title and every topic text that does not
already contain the substring `<p>`, the fallback content generator returns
the concatenation of exactly three `<p>...</p>` segments whose interiors are
free of `<p>`; a topic text containing `<p>` is returned unchanged (see the
counterexample). -/
theorem c6_three_paragraph_segments (title base : Str)
    (h : hasSub base (str "<p>") = false) :
    ∃ ps : List Str,
      generateThreeParagraphsContent title base =
        (ps.map (fun p => str "<p>" ++ p ++ str "</p>")).flatten ∧
      ps.length = 3 ∧ ∀ p ∈ ps, hasSub p (str "<p>") = false := by
  refine ⟨[(splitSentences base).getD 0 base, (splitSentences base).getD 1 base,
    (splitSentences base).getD 2 base], ?_, rfl, ?_⟩
  · rw [generateThreeParagraphsContent, if_neg (by simp [h])]
    simp [List.append_assoc]
  · intro p hp
    have hpick : p ∈ splitSentences base ∨ p = base := by
      rcases List.mem_cons.mp hp with h1 | h1
      · exact h1 ▸ getD_cases _ 0 base
      rcases List.mem_cons.mp h1 with h2 | h2
      · exact h2 ▸ getD_cases _ 1 base
      rcases List.mem_cons.mp h2 with h3 | h3
      · exact h3 ▸ getD_cases _ 2 base
      · cases h3
    have hinf : p <:+: base := by
      rcases hpick with h1 | h1
      · exact splitSentences_infx base p h1
      · exact h1 ▸ List.infix_refl base
    cases hps : hasSub p (str "<p>") with
    | false => rfl
    | true =>
      rw [hasSub_mono hinf hps] at h
      cases h

/-- C6 witness: the amended statement instantiated at the concrete topic
text `"one. two."`, which splits into two sentences and is padded. -/
theorem c6_three_paragraph_segments_witness :
    ∃ ps : List Str,
      generateThreeParagraphsContent (str "T") (str "one. two.") =
        (ps.map (fun p => str "<p>" ++ p ++ str "</p>")).flatten ∧
      ps.length = 3 ∧ ∀ p ∈ ps, hasSub p (str "<p>") = false :=
  c6_three_paragraph_segments (str "T") (str "one. two.") (by decide)

/-- C6 counterexample: a topic text that already contains `<p>` is returned
unchanged, with a single `<p>` occurrence instead of three segments. -/
theorem c6_cex_passthrough :
    generateThreeParagraphsContent (str "T") (str "<p>hi</p>") = str "<p>hi</p>" ∧
    countSub (str "<p>hi</p>") (str "<p>") = 1 :=
  ⟨by decide, by decide⟩

end HaxAI

namespace HaxAI

/-- `generateTemplateQuiz` from ai-processorORIG.js (lines 1814-1822): the
deterministic fallback quiz.  Topics mentioning penn state get a dedicated
four-question template; all other topics get the generic three-question
template with the topic interpolated. -/
def generateTemplateQuiz (topic : Str) : Str :=
  if hasSub (toLowerS topic) (str "penn state") then
    str "<h2>Quiz: Penn State University</h2><p>Test your knowledge about Penn State University with this interactive quiz!</p><multiple-choice single-option=\"\" randomize=\"\" max-attempts=\"0\" question=\"Where is the main campus of Penn State University located?\"><input type=\"checkbox\" value=\"Pittsburgh, Pennsylvania\"><input type=\"checkbox\" value=\"Harrisburg, Pennsylvania\"><input type=\"checkbox\" value=\"University Park, Pennsylvania\" correct=\"correct\"><input type=\"checkbox\" value=\"Philadelphia, Pennsylvania\"></multiple-choice><multiple-choice single-option=\"\" randomize=\"\" max-attempts=\"0\" question=\"What year was Penn State University founded?\"><input type=\"checkbox\" value=\"1855\" correct=\"correct\"><input type=\"checkbox\" value=\"1865\"><input type=\"checkbox\" value=\"1875\"><input type=\"checkbox\" value=\"1885\"></multiple-choice><multiple-choice single-option=\"\" randomize=\"\" max-attempts=\"0\" question=\"What is Penn State\x27s mascot?\"><input type=\"checkbox\" value=\"Eagles\"><input type=\"checkbox\" value=\"Nittany Lion\" correct=\"correct\"><input type=\"checkbox\" value=\"Panthers\"><input type=\"checkbox\" value=\"Tigers\"></multiple-choice><multiple-choice single-option=\"\" randomize=\"\" max-attempts=\"0\" question=\"Penn State is known for excellence in which field?\"><input type=\"checkbox\" value=\"Only Liberal Arts\"><input type=\"checkbox\" value=\"Only Engineering\"><input type=\"checkbox\" value=\"Only Business\"><input type=\"checkbox\" value=\"Multiple fields including Engineering, Business, and Liberal Arts\" correct=\"correct\"></multiple-choice><p><em>Note: You can customize these questions and add more by editing this page. Each &lt;multiple-choice&gt; element creates an interactive quiz question with immediate feedback.</em></p>"
  else
    str "<h2>Quiz: " ++ (topic ++ (str "</h2><p>Test your knowledge about " ++ (topic ++ (str " with this interactive quiz!</p><multiple-choice single-option=\"\" randomize=\"\" max-attempts=\"0\" question=\"What is the main topic of this quiz?\"><input type=\"checkbox\" value=\"Random information\"><input type=\"checkbox\" value=\"" ++ (topic ++ (str "\" correct=\"correct\"><input type=\"checkbox\" value=\"General knowledge\"><input type=\"checkbox\" value=\"None of the above\"></multiple-choice><multiple-choice single-option=\"\" randomize=\"\" max-attempts=\"0\" question=\"Which statement best describes " ++ (topic ++ (str "?\"><input type=\"checkbox\" value=\"It\x27s not relevant\"><input type=\"checkbox\" value=\"It\x27s an important subject to learn about\" correct=\"correct\"><input type=\"checkbox\" value=\"It\x27s too complex to understand\"><input type=\"checkbox\" value=\"It\x27s outdated information\"></multiple-choice><multiple-choice single-option=\"\" randomize=\"\" max-attempts=\"0\" question=\"How can you learn more about " ++ (topic ++ (str "?\"><input type=\"checkbox\" value=\"Ignore it completely\"><input type=\"checkbox\" value=\"Only read one source\"><input type=\"checkbox\" value=\"Study multiple sources and practice\" correct=\"correct\"><input type=\"checkbox\" value=\"Memorize random facts\"></multiple-choice><p><em>Note: You can customize these questions and add more by editing this page. Each &lt;multiple-choice&gt; element creates an interactive quiz question with immediate feedback.</em></p>"))))))))))

end HaxAI

namespace HaxAI

theorem countSub_block {pat : Str} (c : Char) (hc : c ∈ pat) {topic : Str}
    (htop : c ∉ topic) (l rest : Str)
    (hleft : ∀ k < pat.length, 0 < k → (pat.take k).isSuffixOf l = false)
    (hchar : ∀ k < pat.length, 0 < k →
      c ∈ pat.take k ∨ isPre (pat.drop k) (rest.take pat.length) = false) :
    countSub (l ++ (topic ++ rest)) pat = countSub l pat + countSub rest pat := by
  rw [countSub_append _ _ (noCross_of_left _ hleft),
    countSub_append _ _ (noCross_of_char c (rest.take pat.length) rfl htop hchar),
    countSub_zero_of_char c hc htop, Nat.zero_add]

end HaxAI

namespace HaxAI

theorem countSub_five_blocks (pat : Str) (c : Char) (topic l1 l2 l3 l4 l5 l6 : Str)
    (hc : c ∈ pat) (htop : c ∉ topic)
    (h1 : ∀ k < pat.length, 0 < k → (pat.take k).isSuffixOf l1 = false)
    (h2 : ∀ k < pat.length, 0 < k → (pat.take k).isSuffixOf l2 = false)
    (h3 : ∀ k < pat.length, 0 < k → (pat.take k).isSuffixOf l3 = false)
    (h4 : ∀ k < pat.length, 0 < k → (pat.take k).isSuffixOf l4 = false)
    (h5 : ∀ k < pat.length, 0 < k → (pat.take k).isSuffixOf l5 = false)
    (e2 : pat.length ≤ l2.length) (e3 : pat.length ≤ l3.length)
    (e4 : pat.length ≤ l4.length) (e5 : pat.length ≤ l5.length)
    (g2 : ∀ k < pat.length, 0 < k →
      c ∈ pat.take k ∨ isPre (pat.drop k) (l2.take pat.length) = false)
    (g3 : ∀ k < pat.length, 0 < k →
      c ∈ pat.take k ∨ isPre (pat.drop k) (l3.take pat.length) = false)
    (g4 : ∀ k < pat.length, 0 < k →
      c ∈ pat.take k ∨ isPre (pat.drop k) (l4.take pat.length) = false)
    (g5 : ∀ k < pat.length, 0 < k →
      c ∈ pat.take k ∨ isPre (pat.drop k) (l5.take pat.length) = false)
    (g6 : ∀ k < pat.length, 0 < k →
      c ∈ pat.take k ∨ isPre (pat.drop k) (l6.take pat.length) = false) :
    countSub (l1 ++ (topic ++ (l2 ++ (topic ++ (l3 ++ (topic ++
        (l4 ++ (topic ++ (l5 ++ (topic ++ l6)))))))))) pat =
      countSub l1 pat + (countSub l2 pat + (countSub l3 pat +
        (countSub l4 pat + (countSub l5 pat + countSub l6 pat)))) := by
  rw [countSub_append l1 _ (noCross_of_left _ h1),
    countSub_append topic _
      (noCross_of_char c _ (List.take_append_of_le_length e2) htop g2),
    countSub_append l2 _ (noCross_of_left _ h2),
    countSub_append topic _
      (noCross_of_char c _ (List.take_append_of_le_length e3) htop g3),
    countSub_append l3 _ (noCross_of_left _ h3),
    countSub_append topic _
      (noCross_of_char c _ (List.take_append_of_le_length e4) htop g4),
    countSub_append l4 _ (noCross_of_left _ h4),
    countSub_append topic _
      (noCross_of_char c _ (List.take_append_of_le_length e5) htop g5),
    countSub_append l5 _ (noCross_of_left _ h5),
    countSub_append topic l6 (noCross_of_char c _ rfl htop g6),
    countSub_zero_of_char c hc htop]
  omega

end HaxAI

namespace HaxAI

/-- C5 (amended): for every topic free of quote and angle-bracket
characters and not mentioning penn state, the template quiz generator
produces three question blocks containing twelve answer choices in total,
of which exactly three (one per question) carry the correct marker; the
penn state template contains four question blocks.  The claim as stated
(one question, four choices, one marker) fails: see the counterexample. -/
theorem c5_template_quiz_counts :
    (∀ topic : Str, '"' ∉ topic → '<' ∉ topic →
      hasSub (toLowerS topic) (str "penn state") = false →
      countSub (generateTemplateQuiz topic) (str "<multiple-choice") = 3 ∧
      countSub (generateTemplateQuiz topic) (str "<input") = 12 ∧
      countSub (generateTemplateQuiz topic) (str "correct=\"correct\"") = 3) ∧
    countSub (generateTemplateQuiz (str "penn state"))
      (str "<multiple-choice") = 4 := by
  constructor
  · intro topic hq hlt hps
    rw [generateTemplateQuiz, if_neg (by simp [hps])]
    refine ⟨?_, ?_, ?_⟩
    · rw [countSub_five_blocks (str "<multiple-choice")
      '<'
      topic
      (str "<h2>Quiz: ")
      (str "</h2><p>Test your knowledge about ")
      (str " with this interactive quiz!</p><multiple-choice single-option=\"\" randomize=\"\" max-attempts=\"0\" question=\"What is the main topic of this quiz?\"><input type=\"checkbox\" value=\"Random information\"><input type=\"checkbox\" value=\"")
      (str "\" correct=\"correct\"><input type=\"checkbox\" value=\"General knowledge\"><input type=\"checkbox\" value=\"None of the above\"></multiple-choice><multiple-choice single-option=\"\" randomize=\"\" max-attempts=\"0\" question=\"Which statement best describes ")
      (str "?\"><input type=\"checkbox\" value=\"It\x27s not relevant\"><input type=\"checkbox\" value=\"It\x27s an important subject to learn about\" correct=\"correct\"><input type=\"checkbox\" value=\"It\x27s too complex to understand\"><input type=\"checkbox\" value=\"It\x27s outdated information\"></multiple-choice><multiple-choice single-option=\"\" randomize=\"\" max-attempts=\"0\" question=\"How can you learn more about ")
      (str "?\"><input type=\"checkbox\" value=\"Ignore it completely\"><input type=\"checkbox\" value=\"Only read one source\"><input type=\"checkbox\" value=\"Study multiple sources and practice\" correct=\"correct\"><input type=\"checkbox\" value=\"Memorize random facts\"></multiple-choice><p><em>Note: You can customize these questions and add more by editing this page. Each &lt;multiple-choice&gt; element creates an interactive quiz question with immediate feedback.</em></p>")
      (by decide)
      hlt
      (by decide)
      (by decide)
      (by decide)
      (by decide)
      (by decide)
      (by decide)
      (by decide)
      (by decide)
      (by decide)
      (by decide)
      (by decide)
      (by decide)
      (by decide)
      (by decide)]
      decide
    · rw [countSub_five_blocks (str "<input")
      '<'
      topic
      (str "<h2>Quiz: ")
      (str "</h2><p>Test your knowledge about ")
      (str " with this interactive quiz!</p><multiple-choice single-option=\"\" randomize=\"\" max-attempts=\"0\" question=\"What is the main topic of this quiz?\"><input type=\"checkbox\" value=\"Random information\"><input type=\"checkbox\" value=\"")
      (str "\" correct=\"correct\"><input type=\"checkbox\" value=\"General knowledge\"><input type=\"checkbox\" value=\"None of the above\"></multiple-choice><multiple-choice single-option=\"\" randomize=\"\" max-attempts=\"0\" question=\"Which statement best describes ")
      (str "?\"><input type=\"checkbox\" value=\"It\x27s not relevant\"><input type=\"checkbox\" value=\"It\x27s an important subject to learn about\" correct=\"correct\"><input type=\"checkbox\" value=\"It\x27s too complex to understand\"><input type=\"checkbox\" value=\"It\x27s outdated information\"></multiple-choice><multiple-choice single-option=\"\" randomize=\"\" max-attempts=\"0\" question=\"How can you learn more about ")
      (str "?\"><input type=\"checkbox\" value=\"Ignore it completely\"><input type=\"checkbox\" value=\"Only read one source\"><input type=\"checkbox\" value=\"Study multiple sources and practice\" correct=\"correct\"><input type=\"checkbox\" value=\"Memorize random facts\"></multiple-choice><p><em>Note: You can customize these questions and add more by editing this page. Each &lt;multiple-choice&gt; element creates an interactive quiz question with immediate feedback.</em></p>")
      (by decide)
      hlt
      (by decide)
      (by decide)
      (by decide)
      (by decide)
      (by decide)
      (by decide)
      (by decide)
      (by decide)
      (by decide)
      (by decide)
      (by decide)
      (by decide)
      (by decide)
      (by decide)]
      decide
    · rw [countSub_five_blocks (str "correct=\"correct\"")
      '"'
      topic
      (str "<h2>Quiz: ")
      (str "</h2><p>Test your knowledge about ")
      (str " with this interactive quiz!</p><multiple-choice single-option=\"\" randomize=\"\" max-attempts=\"0\" question=\"What is the main topic of this quiz?\"><input type=\"checkbox\" value=\"Random information\"><input type=\"checkbox\" value=\"")
      (str "\" correct=\"correct\"><input type=\"checkbox\" value=\"General knowledge\"><input type=\"checkbox\" value=\"None of the above\"></multiple-choice><multiple-choice single-option=\"\" randomize=\"\" max-attempts=\"0\" question=\"Which statement best describes ")
      (str "?\"><input type=\"checkbox\" value=\"It\x27s not relevant\"><input type=\"checkbox\" value=\"It\x27s an important subject to learn about\" correct=\"correct\"><input type=\"checkbox\" value=\"It\x27s too complex to understand\"><input type=\"checkbox\" value=\"It\x27s outdated information\"></multiple-choice><multiple-choice single-option=\"\" randomize=\"\" max-attempts=\"0\" question=\"How can you learn more about ")
      (str "?\"><input type=\"checkbox\" value=\"Ignore it completely\"><input type=\"checkbox\" value=\"Only read one source\"><input type=\"checkbox\" value=\"Study multiple sources and practice\" correct=\"correct\"><input type=\"checkbox\" value=\"Memorize random facts\"></multiple-choice><p><em>Note: You can customize these questions and add more by editing this page. Each &lt;multiple-choice&gt; element creates an interactive quiz question with immediate feedback.</em></p>")
      (by decide)
      hq
      (by decide)
      (by decide)
      (by decide)
      (by decide)
      (by decide)
      (by decide)
      (by decide)
      (by decide)
      (by decide)
      (by decide)
      (by decide)
      (by decide)
      (by decide)
      (by decide)]
      decide
  · decide

end HaxAI

namespace HaxAI

/-- C5 witness: the amended count statement instantiated at the topic
`"biology"`. -/
theorem c5_template_quiz_counts_witness :
    countSub (generateTemplateQuiz (str "biology")) (str "<multiple-choice") = 3 ∧
    countSub (generateTemplateQuiz (str "biology")) (str "<input") = 12 ∧
    countSub (generateTemplateQuiz (str "biology")) (str "correct=\"correct\"") = 3 :=
  c5_template_quiz_counts.1 (str "biology") (by decide) (by decide) (by decide)

/-- C5 counterexample: for a single-question request about biology the
template contains three correct markers among twelve answer choices, not one
marker among four. -/
theorem c5_cex_three_questions :
    countSub (generateTemplateQuiz (str "biology")) (str "correct=\"correct\"") ≠ 1 ∧
    countSub (generateTemplateQuiz (str "biology")) (str "<input") ≠ 4 :=
  ⟨by decide, by decide⟩

end HaxAI

namespace HaxAI

/-- JSON values, with `jundef` standing for the JavaScript `undefined`
produced by absent-property access. -/
inductive Json where
  | jnull
  | jbool (b : Bool)
  | jnum (lit : Str)
  | jstr (s : Str)
  | jarr (items : List Json)
  | jobj (fields : List (Str × Json))
  | jundef

/-- Property lookup in an object field list; a later duplicate key wins, as
with `JSON.parse`. -/
def jGetFields : List (Str × Json) → Str → Json
  | [], _ => .jundef
  | (k2, v) :: rest, k =>
    match jGetFields rest k with
    | .jundef => if k2 = k then v else .jundef
    | v2 => v2

/-- JavaScript property access `j[k]` on a parsed JSON value; non-objects
give `undefined`. -/
def jGet : Json → Str → Json
  | .jobj fs, k => jGetFields fs k
  | _, _ => .jundef

def slidesOf (j : Json) : List Json :=
  match jGet j (str "slides") with
  | .jarr l => l
  | _ => []

def slideTitleStr (j : Json) : Str :=
  match jGet j (str "title") with
  | .jstr s => s
  | _ => []

/-- `topic.charAt(0).toUpperCase() + topic.slice(1)`. -/
def capFirst : Str → Str
  | [] => []
  | c :: t => upperChar c :: t

/-- `getFallbackSlideStructure` from ai-processorORIG.js (lines 2745-2781):
the deterministic six-slide outline used when the generative response cannot
be parsed as JSON. -/
def getFallbackSlideStructure (topic : Str) : Json :=
  .jobj [
    (str "title", .jstr (capFirst topic ++ str " Presentation")),
    (str "slides", .jarr [
      .jobj [(str "title", .jstr (str "Introduction to " ++ topic)),
             (str "subtitle", .jstr (str "Overview and key concepts")),
             (str "key_points", .jarr [.jstr (str "Definition"),
               .jstr (str "Importance"), .jstr (str "Overview")])],
      .jobj [(str "title", .jstr (str "Understanding " ++ topic)),
             (str "subtitle", .jstr (str "Core principles and fundamentals")),
             (str "key_points", .jarr [.jstr (str "Basic concepts"),
               .jstr (str "Key characteristics"), .jstr (str "Applications")])],
      .jobj [(str "title", .jstr (topic ++ str " in Practice")),
             (str "subtitle", .jstr (str "Real-world applications and examples")),
             (str "key_points", .jarr [.jstr (str "Case studies"),
               .jstr (str "Examples"), .jstr (str "Best practices")])],
      .jobj [(str "title", .jstr (str "Benefits and Challenges")),
             (str "subtitle", .jstr (str "Advantages and potential obstacles")),
             (str "key_points", .jarr [.jstr (str "Key benefits"),
               .jstr (str "Common challenges"), .jstr (str "Solutions")])],
      .jobj [(str "title", .jstr (str "Future of " ++ topic)),
             (str "subtitle", .jstr (str "Trends and developments")),
             (str "key_points", .jarr [.jstr (str "Emerging trends"),
               .jstr (str "Future possibilities"), .jstr (str "Implications")])],
      .jobj [(str "title", .jstr (topic ++ str " Conclusion")),
             (str "subtitle", .jstr (str "Key takeaways and next steps")),
             (str "key_points", .jarr [.jstr (str "Summary"),
               .jstr (str "Action items"), .jstr (str "Further learning")])]])]

/-- C7 (amended): the fallback outline always has exactly six slides (within
the 6..12 band); slide titles embed the raw topic, so they satisfy the
letters/digits/spaces constraint exactly when the topic does (the claim\x27s
unconditional constraint fails, see the counterexample). -/
theorem c7_fallback_slide_structure (topic : Str) :
    (6 ≤ (slidesOf (getFallbackSlideStructure topic)).length ∧
      (slidesOf (getFallbackSlideStructure topic)).length ≤ 12) ∧
    ((∀ c ∈ topic, isAlnumC c = true ∨ c = ' ') →
      ∀ sl ∈ slidesOf (getFallbackSlideStructure topic),
        ∀ c ∈ slideTitleStr sl, isAlnumC c = true ∨ c = ' ') := by
  have htitles : (slidesOf (getFallbackSlideStructure topic)).map slideTitleStr =
      [str "Introduction to " ++ topic, str "Understanding " ++ topic,
       topic ++ str " in Practice", str "Benefits and Challenges",
       str "Future of " ++ topic, topic ++ str " Conclusion"] := rfl
  have hlen : (slidesOf (getFallbackSlideStructure topic)).length = 6 := rfl
  refine ⟨⟨by rw [hlen], by rw [hlen]; decide⟩, ?_⟩
  intro htopic sl hsl c hc
  have hmem : slideTitleStr sl ∈
      [str "Introduction to " ++ topic, str "Understanding " ++ topic,
       topic ++ str " in Practice", str "Benefits and Challenges",
       str "Future of " ++ topic, topic ++ str " Conclusion"] := by
    rw [← htitles]
    exact List.mem_map_of_mem slideTitleStr hsl
  simp only [List.mem_cons, List.not_mem_nil, or_false] at hmem
  rcases hmem with h | h | h | h | h | h <;> rw [h] at hc
  · rcases List.mem_append.mp hc with hm | hm
    · exact (by decide : ∀ d ∈ str "Introduction to ", isAlnumC d = true ∨ d = ' ') c hm
    · exact htopic c hm
  · rcases List.mem_append.mp hc with hm | hm
    · exact (by decide : ∀ d ∈ str "Understanding ", isAlnumC d = true ∨ d = ' ') c hm
    · exact htopic c hm
  · rcases List.mem_append.mp hc with hm | hm
    · exact htopic c hm
    · exact (by decide : ∀ d ∈ str " in Practice", isAlnumC d = true ∨ d = ' ') c hm
  · exact (by decide : ∀ d ∈ str "Benefits and Challenges", isAlnumC d = true ∨ d = ' ') c hc
  · rcases List.mem_append.mp hc with hm | hm
    · exact (by decide : ∀ d ∈ str "Future of ", isAlnumC d = true ∨ d = ' ') c hm
    · exact htopic c hm
  · rcases List.mem_append.mp hc with hm | hm
    · exact htopic c hm
    · exact (by decide : ∀ d ∈ str " Conclusion", isAlnumC d = true ∨ d = ' ') c hm

/-- C7 witness: the amended statement instantiated at the topic `"eagles"`. -/
theorem c7_fallback_slide_structure_witness :
    (slidesOf (getFallbackSlideStructure (str "eagles"))).length = 6 ∧
    ∀ sl ∈ slidesOf (getFallbackSlideStructure (str "eagles")),
      ∀ c ∈ slideTitleStr sl, isAlnumC c = true ∨ c = ' ' := by
  exact ⟨rfl, (c7_fallback_slide_structure (str "eagles")).2 (by decide)⟩

/-- C7 counterexample: with topic `"u.s. history"` the fallback outline has
six slides but its first slide title `"Introduction to u.s. history"`
contains dots, violating the letters/digits/spaces constraint. -/
theorem c7_cex_topic_dots :
    (slidesOf (getFallbackSlideStructure (str "u.s. history"))).length = 6 ∧
    ¬ (∀ sl ∈ slidesOf (getFallbackSlideStructure (str "u.s. history")),
        ∀ c ∈ slideTitleStr sl, isAlnumC c = true ∨ c = ' ') :=
  ⟨rfl, by decide⟩

end HaxAI

namespace HaxAI

/-- Character-class atoms of the regex fragment used by the sources. -/
inductive CItem where
  | ch (c : Char)
  | range (a b : Char)
  | digit
  | word
  | space

/-- Abstract syntax of the JavaScript regex fragment used by the sources.
Groups carry their capture index; `look` is a zero-width lookahead; `eos`
is `$`. -/
inductive RE where
  | eps
  | cls (neg : Bool) (items : List CItem)
  | dot
  | anyc
  | seq (a b : RE)
  | alt (a b : RE)
  | star (greedy : Bool) (r : RE)
  | plus (greedy : Bool) (r : RE)
  | opt (greedy : Bool) (r : RE)
  | grp (n : Nat) (r : RE)
  | look (r : RE)
  | eos

def citemMatch (ci : Bool) (it : CItem) (c : Char) : Bool :=
  match it with
  | .ch d => if ci then lowerChar d == lowerChar c else d == c
  | .range a b =>
    (a ≤ c && c ≤ b) ||
    (ci && ((a ≤ lowerChar c && lowerChar c ≤ b) ||
            (a ≤ upperChar c && upperChar c ≤ b)))
  | .digit => isDigitC c
  | .word => isWordC c
  | .space => jsSpace c

def clsMatch (ci neg : Bool) (items : List CItem) (c : Char) : Bool :=
  let m := items.any (fun it => citemMatch ci it c)
  if neg then !m else m

abbrev Caps := List (Nat × Str)

def setCap (caps : Caps) (n : Nat) (v : Str) : Caps := (n, v) :: caps

def getCap (caps : Caps) (n : Nat) : Option Str :=
  (caps.find? (fun p => p.1 == n)).map (fun p => p.2)

/-- Backtracking matcher in continuation-passing style, following the
JavaScript (leftmost, first-alternative, greedy-first) semantics.  Fuel
makes the recursion structural; the wrappers supply enough fuel for the
patterns and inputs of this development. -/
def reM : Nat → Bool → RE → Str → Caps → (Str → Caps → Option Caps) → Option Caps
  | 0, _, _, _, _, _ => none
  | fuel + 1, ci, r, s, caps, k =>
    match r with
    | .eps => k s caps
    | .cls neg items =>
      match s with
      | [] => none
      | c :: rest => if clsMatch ci neg items c then k rest caps else none
    | .dot =>
      match s with
      | [] => none
      | c :: rest => if c == '\n' || c == '\r' then none else k rest caps
    | .anyc =>
      match s with
      | [] => none
      | _ :: rest => k rest caps
    | .seq a b => reM fuel ci a s caps (fun s2 c2 => reM fuel ci b s2 c2 k)
    | .alt a b =>
      match reM fuel ci a s caps k with
      | some r2 => some r2
      | none => reM fuel ci b s caps k
    | .star g r2 =>
      let once := reM fuel ci r2 s caps (fun s2 c2 =>
        if s2.length == s.length then none
        else reM fuel ci (.star g r2) s2 c2 k)
      if g then
        match once with
        | some r3 => some r3
        | none => k s caps
      else
        match k s caps with
        | some r3 => some r3
        | none => once
    | .plus g r2 => reM fuel ci (.seq r2 (.star g r2)) s caps k
    | .opt g r2 =>
      if g then
        match reM fuel ci r2 s caps k with
        | some r3 => some r3
        | none => k s caps
      else
        match k s caps with
        | some r3 => some r3
        | none => reM fuel ci r2 s caps k
    | .grp n r2 =>
      reM fuel ci r2 s caps (fun s2 c2 =>
        k s2 (setCap c2 n (s.take (s.length - s2.length))))
    | .look r2 =>
      match reM fuel ci r2 s caps (fun _ c2 => some c2) with
      | some c2 => k s c2
      | none => none
    | .eos =>
      match s with
      | [] => k s caps
      | _ :: _ => none

def reSize : RE → Nat
  | .eps => 1
  | .cls _ _ => 1
  | .dot => 1
  | .anyc => 1
  | .seq a b => reSize a + reSize b + 1
  | .alt a b => reSize a + reSize b + 1
  | .star _ r => reSize r + 2
  | .plus _ r => 2 * reSize r + 4
  | .opt _ r => reSize r + 1
  | .grp _ r => reSize r + 1
  | .look r => reSize r + 1
  | .eos => 1

def reFuel (r : RE) (s : Str) : Nat := (s.length + 2) * (reSize r + 2) * 2 + 64

/-- Match `r` at the start of `s`; group 0 records the matched text. -/
def reRun (ci : Bool) (r : RE) (s : Str) : Option Caps :=
  reM (reFuel r s) ci r s []
    (fun rest caps => some (setCap caps 0 (s.take (s.length - rest.length))))

/-- Leftmost search, as `RegExp.prototype.exec`: returns the match position
and the capture list. -/
def reSearchAux (ci : Bool) (r : RE) : Nat → Str → Option (Nat × Caps)
  | idx, s =>
    match reRun ci r s with
    | some caps => some (idx, caps)
    | none =>
      match s with
      | [] => none
      | _ :: t => reSearchAux ci r (idx + 1) t

def reSearch (ci : Bool) (r : RE) (s : Str) : Option (Nat × Caps) :=
  reSearchAux ci r 0 s

/-- `regex.test(input)`. -/
def reTest (ci : Bool) (r : RE) (s : Str) : Bool := (reSearch ci r s).isSome

/-- `input.match(regex)` followed by reading capture group `n`. -/
def reCap (ci : Bool) (r : RE) (s : Str) (n : Nat) : Option Str :=
  match reSearch ci r s with
  | some (_, caps) => getCap caps n
  | none => none

/-- Convenience constructors used to transliterate the regex literals. -/
def rch (c : Char) : RE := .cls false [.ch c]

def rstr (s : String) : RE := (s.data.map rch).foldr RE.seq RE.eps

def rseq (l : List RE) : RE := l.foldr RE.seq RE.eps

def ralt2 (a b : RE) : RE := .alt a b

def raltL : List RE → RE
  | [] => .eps
  | [r] => r
  | r :: rest => .alt r (raltL rest)

def wsP : RE := .plus true (.cls false [.space])

def wsS : RE := .star true (.cls false [.space])

def wordP : RE := .plus true (.cls false [.word])

def dotStar : RE := .star true .dot

def dotStarL : RE := .star false .dot

def dotPlus : RE := .plus true .dot

def ropt (r : RE) : RE := .opt true r

end HaxAI

namespace HaxAI

def jWsChar (c : Char) : Bool := c == ' ' || c == '\t' || c == '\n' || c == '\r'

def jskipWs (s : Str) : Str := s.dropWhile jWsChar

def hexVal (c : Char) : Option Nat :=
  if isDigitC c then some (c.toNat - 48)
  else if 'a' ≤ c && c ≤ 'f' then some (c.toNat - 87)
  else if 'A' ≤ c && c ≤ 'F' then some (c.toNat - 55)
  else none

/-- Parse the body of a JSON string after the opening quote. -/
def jstrParse : Nat → Str → Option (Str × Str)
  | 0, _ => none
  | f + 1, s =>
    match s with
    | [] => none
    | '"' :: t => some ([], t)
    | '\\' :: e :: t =>
      let cont (c : Char) (rest : Str) : Option (Str × Str) :=
        match jstrParse f rest with
        | some (body, r2) => some (c :: body, r2)
        | none => none
      match e with
      | '"' => cont '"' t
      | '\\' => cont '\\' t
      | '/' => cont '/' t
      | 'b' => cont '\x08' t
      | 'f' => cont '\x0c' t
      | 'n' => cont '\n' t
      | 'r' => cont '\r' t
      | 't' => cont '\t' t
      | 'u' =>
        match t with
        | h1 :: h2 :: h3 :: h4 :: t2 =>
          match hexVal h1, hexVal h2, hexVal h3, hexVal h4 with
          | some v1, some v2, some v3, some v4 =>
            cont (Char.ofNat (((v1 * 16 + v2) * 16 + v3) * 16 + v4)) t2
          | _, _, _, _ => none
        | _ => none
      | _ => none
    | c :: t =>
      if c.toNat < 32 then none
      else
        match jstrParse f t with
        | some (body, r2) => some (c :: body, r2)
        | none => none

/-- Parse a JSON number lexeme. -/
def jnumParse (s : Str) : Option (Str × Str) :=
  let (sign, s1) := match s with
    | '-' :: t => (['-'], t)
    | _ => (([] : Str), s)
  let intPart := s1.takeWhile isDigitC
  let s2 := s1.dropWhile isDigitC
  if intPart.isEmpty then none
  else if intPart.length > 1 && intPart.headD '0' == '0' then none
  else
    let (fracPart, s3) := match s2 with
      | '.' :: t =>
        let d := t.takeWhile isDigitC
        if d.isEmpty then (([] : Str), s2) else ('.' :: d, t.dropWhile isDigitC)
      | _ => (([] : Str), s2)
    let (expPart, s4) := match s3 with
      | e :: t =>
        if e == 'e' || e == 'E' then
          let (es, t2) := match t with
            | '+' :: t3 => ((['+'] : Str), t3)
            | '-' :: t3 => ((['-'] : Str), t3)
            | _ => (([] : Str), t)
          let d := t2.takeWhile isDigitC
          if d.isEmpty then (([] : Str), s3)
          else (e :: (es ++ d), t2.dropWhile isDigitC)
        else (([] : Str), s3)
      | _ => (([] : Str), s3)
    some (sign ++ intPart ++ fracPart ++ expPart, s4)

mutual

/-- Recursive-descent JSON value parser (the model of `JSON.parse`). -/
def jparse : Nat → Str → Option (Json × Str)
  | 0, _ => none
  | f + 1, s =>
    match jskipWs s with
    | [] => none
    | 'n' :: 'u' :: 'l' :: 'l' :: t => some (.jnull, t)
    | 't' :: 'r' :: 'u' :: 'e' :: t => some (.jbool true, t)
    | 'f' :: 'a' :: 'l' :: 's' :: 'e' :: t => some (.jbool false, t)
    | '"' :: t =>
      match jstrParse (f + 1) t with
      | some (body, rest) => some (.jstr body, rest)
      | none => none
    | '[' :: t =>
      (match jskipWs t with
      | ']' :: t2 => some (.jarr [], t2)
      | _ =>
        match jparse f t with
        | some (v, rest) => jarrLoop f [v] rest
        | none => none)
    | '\x7b' :: t =>
      (match jskipWs t with
      | '\x7d' :: t2 => some (.jobj [], t2)
      | _ => jobjLoop f [] t)
    | s2 =>
      match jnumParse s2 with
      | some (lit, rest) => some (.jnum lit, rest)
      | none => none

def jarrLoop : Nat → List Json → Str → Option (Json × Str)
  | 0, _, _ => none
  | f + 1, acc, s =>
    match jskipWs s with
    | ',' :: t =>
      (match jparse f t with
      | some (v, rest) => jarrLoop f (acc ++ [v]) rest
      | none => none)
    | ']' :: t => some (.jarr acc, t)
    | _ => none

def jobjLoop : Nat → List (Str × Json) → Str → Option (Json × Str)
  | 0, _, _ => none
  | f + 1, acc, s =>
    match jskipWs s with
    | '"' :: t =>
      (match jstrParse f t with
      | some (key, rest) =>
        (match jskipWs rest with
        | ':' :: t2 =>
          (match jparse f t2 with
          | some (v, rest2) =>
            (match jskipWs rest2 with
            | ',' :: t3 => jobjLoop f (acc ++ [(key, v)]) t3
            | '\x7d' :: t3 => some (.jobj (acc ++ [(key, v)]), t3)
            | _ => none)
          | none => none)
        | _ => none)
      | none => none)
    | _ => none

end

/-- `JSON.parse`: parse one value and require only whitespace after it. -/
def jsonParse (s : Str) : Option Json :=
  match jparse (2 * s.length + 8) s with
  | some (v, rest) => if (jskipWs rest).isEmpty then some v else none
  | none => none

end HaxAI

namespace HaxAI

def findSubAux (pat : Str) : Str → Nat → Option Nat
  | [], i => if pat.isEmpty then some i else none
  | c :: t, i => if isPre pat (c :: t) then some i else findSubAux pat t (i + 1)

/-- `String.prototype.indexOf` for a substring. -/
def findSub (s pat : Str) : Option Nat := findSubAux pat s 0

/-- `String.prototype.split` with a single-character separator. -/
def splitOnChar (sep : Char) : Str → List Str
  | [] => [[]]
  | c :: t =>
    if c == sep then [] :: splitOnChar sep t
    else
      match splitOnChar sep t with
      | [] => [[c]]
      | p :: rest => (c :: p) :: rest

/-- JavaScript truthiness of a JSON value. -/
def jsTruthy : Json → Bool
  | .jnull => false
  | .jundef => false
  | .jbool b => b
  | .jnum lit => lit.any (fun c => '1' ≤ c && c ≤ '9')
  | .jstr s => !s.isEmpty
  | .jarr _ => true
  | .jobj _ => true

/-- The JavaScript `x || y` on JSON values. -/
def jsOr (x y : Json) : Json := if jsTruthy x then x else y

/-- The result shape of the enhanced variant's `parseAIResponse`
(`src/unnamed/part_001`, lines 374-424).  Fields keep their JavaScript
dynamic values: the JSON paths copy them verbatim from the parsed model
response. -/
structure PlanJS where
  explanation : Json
  commands : Json
  success : Json
  error : Json

/-- Property access on `null` throws a TypeError in JavaScript; on any other
`JSON.parse` result it succeeds (primitives give `undefined` fields). -/
def jAccessOk : Json → Bool
  | .jnull => false
  | _ => true

def planOfParsed (parsed : Json) : PlanJS :=
  { explanation := jsOr (jGet parsed (str "explanation")) (.jstr []),
    commands := jsOr (jGet parsed (str "commands")) (.jarr []),
    success := jsOr (jGet parsed (str "success")) (.jbool false),
    error := jsOr (jGet parsed (str "error")) .jundef }

/-- The final fallback of the enhanced `parseAIResponse`: scan the response
for lines whose trimmed form starts with `hax `. -/
def v2FallbackLines (response : Str) : PlanJS :=
  let lines := splitOnChar '\n' response
  let commands := lines.filter (fun l => isPre (str "hax ") (trimS l))
  { explanation := jsOr (.jstr (lines.headD [])) (.jstr (str "Processed with AI")),
    commands := .jarr (commands.map Json.jstr),
    success := .jbool (commands.length > 0),
    error := if commands.length == 0 then .jstr (str "No valid commands generated")
             else .jundef }

/-- The middle fallback: extract `/\{[\s\S]*\}/` (first `\x7b` to last
`\x7d`) and parse that. -/
def v2ExtractBraces (response : Str) : PlanJS :=
  match findSub response (str "\x7b"), findSub response.reverse (str "\x7d") with
  | some i, some jr =>
    let j := response.length - 1 - jr
    if i ≤ j then
      match jsonParse ((response.drop i).take (j - i + 1)) with
      | some parsed =>
        if jAccessOk parsed then planOfParsed parsed else v2FallbackLines response
      | none => v2FallbackLines response
    else v2FallbackLines response
  | _, _ => v2FallbackLines response

/-- `parseAIResponse` from `src/unnamed/part_001` (lines 374-424): strict
JSON parse of the whole response, then brace-extraction, then a text scan
for `hax ` lines. -/
def parseAIRespV2 (response : Str) : PlanJS :=
  match jsonParse response with
  | some parsed =>
    if jAccessOk parsed then planOfParsed parsed else v2ExtractBraces response
  | none => v2ExtractBraces response

end HaxAI

namespace HaxAI

/-- The CommandPlan record returned by the ORIG engine: the union of the
fields appearing across its return sites, with JavaScript-absent fields as
defaults. -/
structure Plan where
  explanation : Str := []
  commands : List Str := []
  success : Bool := false
  error : Option Str := none
  action : Option Str := none
  nextSteps : Option Str := none
  suggestions : List Str := []
  examples : List Str := []
  suggestion : Option Str := none
  autoSelect : Option Str := none
  availSites : List Str := []
  needsSiteSelection : Bool := false
  siteName : Option Str := none
  pageTitle : Option Str := none
  pageTitles : List Str := []
  domain : Option Str := none
  runFromSiteDir : Option Str := none
  aiGenerated : Bool := false
  isHelp : Bool := false
  dataSites : List Str := []
  deploymentUrl : Option Str := none
  slidedeckTitle : Option Str := none
  slideCount : Option Nat := none
  pageModified : Option Str := none
  filePath : Option Str := none
  sourcePage : Option Str := none
  customizationF : Option Str := none
  newTitle : Option Str := none
  parentId : Option Str := none
  postCommands : List (Str × Str) := []
  sourceUrl : Option Str := none
  aiProcessed : Bool := false
  rawResponse : Option Str := none

/-- Externally visible effects of one `process` call: file reads, file
writes, and spawned external programs. -/
inductive Effect where
  | fileRead (path : Str)
  | fileWrite (path : Str) (content : Str)
  | spawn (cmd : Str) (args : List Str)

/-- The collaborator-owned state visible to the engine: the file system, the
`surge whoami` authentication probe result (`none` = not logged in or spawn
failure), the `SURGE_DOMAIN` environment variable, and `Date.now()`. -/
structure World where
  files : List (Str × Str) := []
  surgeWhoami : Option Str := none
  surgeDomainEnv : Option Str := none
  nowMs : Nat := 0

/-- The generative capability: `none` means no API key is configured; the
oracle maps a prompt to the model text, `none` modelling a thrown provider
error.  Both concrete providers are modelled by the one capability since the
code treats their responses identically. -/
structure Env where
  ai : Option (Str → Option Str) := none

def Env.hasAPIKey (env : Env) : Bool := env.ai.isSome

/-- Computation with JavaScript exceptions (`Except`) and an effect trace. -/
def EM (α : Type) : Type := Except Str α × List Effect

instance : Monad EM where
  pure a := (.ok a, [])
  bind x f :=
    match x.1 with
    | .error e => (.error e, x.2)
    | .ok a =>
      let y := f a
      (y.1, x.2 ++ y.2)

def EM.catchE {α : Type} (x : EM α) (h : Str → EM α) : EM α :=
  match x.1 with
  | .ok _ => x
  | .error e =>
    let y := h e
    (y.1, x.2 ++ y.2)

def throwE {α : Type} (msg : Str) : EM α := (.error msg, [])

def lookupFile : List (Str × Str) → Str → Option Str
  | [], _ => none
  | (p, c) :: rest, path => if p = path then some c else lookupFile rest path

/-- `fs.readFile` / `fs.readFileSync`. -/
def emRead (w : World) (path : Str) : EM Str :=
  match lookupFile w.files path with
  | some c => (.ok c, [.fileRead path])
  | none => (.error (str "ENOENT: no such file " ++ path), [.fileRead path])

/-- `fs.writeFile` / `fs.writeFileSync`. -/
def emWrite (path content : Str) : EM Unit := (.ok (), [.fileWrite path content])

/-- The `spawn('surge', ['whoami'])` probe in `handleDeployment`. -/
def emSurgeWhoami (w : World) : EM Str :=
  match w.surgeWhoami with
  | some user => (.ok user, [.spawn (str "surge") [str "whoami"]])
  | none => (.error (str "Not logged in"), [.spawn (str "surge") [str "whoami"]])

/-- One generative round trip; a missing provider or provider failure is a
thrown error, caught by the calling handler. -/
def emAI (env : Env) (prompt : Str) : EM Str :=
  match env.ai with
  | none => (.error (str "No AI provider available"), [])
  | some f =>
    match f prompt with
    | some text => (.ok text, [])
    | none => (.error (str "AI call failed"), [])

/-- The request context assembled by the collaborator. -/
structure Context where
  availableSites : List Str := []
  currentSite : Option Str := none
  sitesDir : Str := []

/-- Worker for the `replace(/\n\s*/g, ' ')` step of `escapeQuotes`: flag set
while skipping the `\s*` tail of a matched newline. -/
def escNlA : Bool → Str → Str
  | _, [] => []
  | true, c :: t => if jsSpace c then escNlA true t else c :: escNlA false t
  | false, c :: t => if c == '\n' then ' ' :: escNlA true t else c :: escNlA false t

def replQuote : Str → Str
  | [] => []
  | c :: t => if c == '\x27' then str "\x27\"\x27\"\x27" ++ replQuote t else c :: replQuote t

/-- `escapeQuotes` from ai-processorORIG.js (lines 2511-2516). -/
def escapeQuotes (content : Str) : Str :=
  replQuote (trimS (collapseWs (escNlA false content)))

/-- `capitalizeWords`: `replace(/\b\w/g, upper)` — uppercase word characters
not preceded by a word character. -/
def capWordsA : Bool → Str → Str
  | _, [] => []
  | prevWord, c :: t =>
    (if isWordC c && !prevWord then upperChar c else c) :: capWordsA (isWordC c) t

def capitalizeWords (s : Str) : Str := capWordsA false s

def natToStr (n : Nat) : Str := (Nat.repr n).data

/-- JavaScript string `includes`. -/
def includesS (s sub : Str) : Bool := hasSub s sub

end HaxAI

namespace HaxAI

def rstrL (s : Str) : RE := (s.map rch).foldr RE.seq RE.eps

/-- `String.prototype.split(/\s+/)` (leading/trailing separators produce
empty pieces, as in JavaScript). -/
def splitWsM : Bool → Str → Str → List Str
  | false, acc, [] => [acc.reverse]
  | false, acc, c :: t =>
    if jsSpace c then acc.reverse :: splitWsM true [] t
    else splitWsM false (c :: acc) t
  | true, _, [] => [[]]
  | true, _, c :: t =>
    if jsSpace c then splitWsM true [] t
    else splitWsM false [c] t

def splitWsJS (s : Str) : List Str := splitWsM false [] s

/-- `String.prototype.split` with a regex separator. -/
def reSplit : Nat → Bool → RE → Str → List Str
  | 0, _, _, s => [s]
  | f + 1, ci, r, s =>
    match reSearch ci r s with
    | none => [s]
    | some (idx, caps) =>
      let m0 := (getCap caps 0).getD []
      if m0.isEmpty then [s]
      else s.take idx :: reSplit f ci r (s.drop (idx + m0.length))

/-- A global `exec` loop: the capture lists of all matches, left to right. -/
def reExecAll : Nat → Bool → RE → Str → List Caps
  | 0, _, _, _ => []
  | f + 1, ci, r, s =>
    match reSearch ci r s with
    | none => []
    | some (idx, caps) =>
      let m0 := (getCap caps 0).getD []
      if m0.isEmpty then []
      else caps :: reExecAll f ci r (s.drop (idx + m0.length))

/-- Global `replace` with a constant replacement. -/
def reReplaceAll : Nat → Bool → RE → Str → Str → Str
  | 0, _, _, _, s => s
  | f + 1, ci, r, repl, s =>
    match reSearch ci r s with
    | none => s
    | some (idx, caps) =>
      let m0 := (getCap caps 0).getD []
      if m0.isEmpty then s
      else s.take idx ++ repl ++ reReplaceAll f ci r repl (s.drop (idx + m0.length))

/-- Global `replace` with a `pre$1post` replacement. -/
def reReplaceAllCap1 : Nat → Bool → RE → Str → Str → Str → Str
  | 0, _, _, _, _, s => s
  | f + 1, ci, r, pre, post, s =>
    match reSearch ci r s with
    | none => s
    | some (idx, caps) =>
      let m0 := (getCap caps 0).getD []
      let m1 := (getCap caps 1).getD []
      if m0.isEmpty then s
      else s.take idx ++ pre ++ m1 ++ post ++
        reReplaceAllCap1 f ci r pre post (s.drop (idx + m0.length))

/-- `replace` of only the first match, with a constant replacement. -/
def reReplaceFirst (ci : Bool) (r : RE) (repl : Str) (s : Str) : Str :=
  match reSearch ci r s with
  | none => s
  | some (idx, caps) =>
    let m0 := (getCap caps 0).getD []
    s.take idx ++ repl ++ s.drop (idx + m0.length)

def clAZ09 : List CItem := [.range 'a' 'z', .range 'A' 'Z', .range '0' '9']

/-- `[a-zA-Z0-9-_]+` and friends. -/
def pCls (extra : List CItem) : RE := .plus true (.cls false (clAZ09 ++ extra))

/-- Try the regexes in order and return the requested capture of the first
that matches, as the `for (const pattern of patterns)` loops do. -/
def firstCap (pats : List (Bool × RE)) (input : Str) (n : Nat) : Option Str :=
  match pats with
  | [] => none
  | (ci, r) :: rest =>
    match reSearch ci r input with
    | some (_, caps) => getCap caps n
    | none => firstCap rest input n

end HaxAI

namespace HaxAI

/-- `matchesPattern` (ai-processorORIG.js line 259). -/
def matchesPattern (input : Str) (actionWords objectWords : List Str) : Bool :=
  (actionWords.any (fun w => includesS input w)) &&
  (objectWords.isEmpty || objectWords.any (fun w => includesS input w))

/-- The regex list of `matchesWebComponent` (line 266). -/
def webComponentPatterns : List RE :=
  [rseq [rstr "add", wsP, ropt (rch 'a'), wsS,
    .grp 1 (raltL [rseq [rstr "multiple", wsS, rstr "choice"], rstr "quiz", rstr "assessment"])],
   rseq [rstr "create", wsP, ropt (rch 'a'), wsS,
    .grp 1 (raltL [rseq [rstr "multiple", wsS, rstr "choice"], rstr "quiz", rstr "assessment"])],
   rseq [rstr "make", wsP, ropt (rch 'a'), wsS,
    .grp 1 (raltL [rseq [rstr "multiple", wsS, rstr "choice"], rstr "quiz", rstr "assessment"])],
   rseq [rstr "add", wsP, ropt (rch 'a'), wsS,
    .grp 1 (raltL [rstr "matching", rseq [rstr "true", dotStar, rstr "false"],
      rseq [rstr "fill", dotStar, rstr "in", dotStar, rstr "blank"],
      rseq [rstr "flash", dotStar, rstr "card"]])],
   rseq [rstr "create", wsP, ropt (rch 'a'), wsS,
    .grp 1 (raltL [rstr "matching", rseq [rstr "true", dotStar, rstr "false"],
      rseq [rstr "fill", dotStar, rstr "in", dotStar, rstr "blank"],
      rseq [rstr "flash", dotStar, rstr "card"]])],
   rseq [rstr "add", wsP, ropt (rch 'a'), wsS,
    .grp 1 (raltL [rstr "carousel", rstr "timeline",
      rseq [rstr "image", dotStar, rstr "map"], rstr "lesson"])],
   rseq [rstr "create", wsP, ropt (rch 'a'), wsS,
    .grp 1 (raltL [rstr "carousel", rstr "timeline",
      rseq [rstr "image", dotStar, rstr "map"], rstr "lesson"])],
   rseq [rstr "add", wsP, ropt (rch 'a'), wsS,
    .grp 1 (raltL [rseq [rstr "code", wsS, rstr "sample"],
      rseq [rstr "media", wsS, rstr "quote"], rstr "citation"])],
   rseq [rstr "create", wsP, ropt (rch 'a'), wsS,
    .grp 1 (raltL [rseq [rstr "code", wsS, rstr "sample"],
      rseq [rstr "media", wsS, rstr "quote"], rstr "citation"])],
   rseq [rstr "add", dotStar, rstr "element"],
   rseq [rstr "create", dotStar, rstr "element"]]

def matchesWebComponent (input : Str) : Bool :=
  webComponentPatterns.any (fun r => reTest true r input)

/-- `matchesMultiplePages` (line 285). -/
def multiplePagePatterns : List RE :=
  [rseq [rstr "add", wsP, dotStar, rstr "page", dotStar, wsP, rstr "and", wsP, dotStar, rstr "page"],
   rseq [rstr "create", wsP, dotStar, rstr "page", dotStar, wsP, rstr "and", wsP, dotStar, rstr "page"],
   rseq [rstr "add", wsP, rch 'a', wsP, wordP, wsP, rstr "page", wsP, rstr "and", wsP,
     ropt (rch 'a'), wsS, wordP, wsP, rstr "page"],
   rseq [rstr "add", wsP, wordP, wsP, rstr "and", wsP, wordP, wsP, rstr "page", ropt (rch 's')],
   rseq [rstr "create", wsP, wordP, wsP, rstr "and", wsP, wordP, wsP, rstr "page", ropt (rch 's')]]

def matchesMultiplePages (input : Str) : Bool :=
  multiplePagePatterns.any (fun r => reTest true r input)

/-- `matchesSlidedeck` (line 299). -/
def slidedeckPatterns : List RE :=
  [rseq [rstr "make", wsP, rch 'a', wsP, rstr "slidedeck"],
   rseq [rstr "create", wsP, rch 'a', wsP, rstr "slidedeck"],
   rseq [rstr "build", wsP, rch 'a', wsP, rstr "slidedeck"],
   rseq [rstr "generate", wsP, rch 'a', wsP, rstr "slidedeck"],
   rseq [rstr "make", wsP, rstr "slides"],
   rseq [rstr "create", wsP, rstr "slides"],
   rseq [rstr "build", wsP, rstr "slides"],
   rseq [rstr "generate", wsP, rstr "slides"],
   rseq [rstr "slidedeck", wsP, rstr "about"],
   rseq [rstr "slides", wsP, rstr "about"],
   rseq [rstr "slides", wsP, rstr "for"],
   rseq [rstr "presentation", wsP, rstr "about"],
   rseq [rstr "make", wsP, rch 'a', wsP, rstr "presentation"],
   rseq [rstr "create", wsP, rch 'a', wsP, rstr "presentation"]]

def matchesSlidedeck (input : Str) : Bool :=
  slidedeckPatterns.any (fun r => reTest true r input)

/-- `matchesDeployment` (line 321). -/
def deploymentPatterns : List RE :=
  [rseq [rstr "deploy", wsP, rstr "site"],
   rseq [rstr "deploy", wsP, rstr "website"],
   rseq [rstr "deploy", wsP, wordP],
   rseq [rstr "publish", wsP, rstr "site"],
   rseq [rstr "publish", wsP, rstr "website"],
   rseq [rstr "publish", wsP, wordP],
   rseq [rstr "make", wsP, rstr "site", wsP, rstr "live"],
   rseq [rstr "make", wsP, rstr "website", wsP, rstr "live"],
   rseq [rstr "go", wsP, rstr "live"],
   rseq [rstr "deploy", wsP, rstr "to", wsP, rstr "surge"],
   rseq [rstr "surge", wsP, rstr "deploy"]]

def matchesDeployment (input : Str) : Bool :=
  deploymentPatterns.any (fun r => reTest true r input)

/-- `matchesCustomization` (line 339). -/
def customizationPatterns : List RE :=
  [rseq [rstr "customize", wsP, dotStarL, wsP, rstr "page"],
   rseq [rstr "customize", wsP, dotStarL, wsP, rstr "and", wsP, rstr "make", wsP,
     rstr "it", wsP, rstr "about"],
   rseq [rstr "customize", wsP, dotStarL, wsP, rstr "for"],
   rseq [rstr "adapt", wsP, dotStarL, wsP, rstr "page"],
   rseq [rstr "modify", wsP, dotStarL, wsP, rstr "page", dotStarL, wsP, rstr "for"],
   rseq [rstr "change", wsP, dotStarL, wsP, rstr "page", dotStarL, wsP, rstr "to", wsP,
     rstr "be", wsP, rstr "about"]]

def matchesCustomization (input : Str) : Bool :=
  customizationPatterns.any (fun r => reTest true r input)

def httpRe : RE := rseq [rstr "http", ropt (rch 's'), rstr "://"]

/-- `matchesSiteCloning` (line 352). -/
def cloningPatterns : List RE :=
  [rseq [raltL [rstr "create", rstr "make", rstr "build"], wsP, ropt (rseq [rch 'a', wsP]),
    ropt (rseq [rstr "new", wsP]), rstr "site", wsP, ropt (rseq [rstr "copying", wsP]),
    rstr "from", wsP, httpRe],
   rseq [raltL [rstr "copy", rstr "clone"], wsP, ropt (rseq [rstr "the", wsP]),
    rstr "site", wsP, rstr "from", wsP, httpRe],
   rseq [raltL [rstr "copy", rstr "clone"], wsP, httpRe, dotStarL,
    rseq [wsP, raltL [rstr "as", rstr "into", rstr "to"], wsP]],
   rseq [raltL [rstr "import", rstr "duplicate"], wsP,
    ropt (rseq [rstr "site", wsP, rstr "from", wsP]), httpRe],
   rseq [raltL [rstr "create", rstr "make"], wsP, ropt (rseq [rch 'a', wsP]),
    ropt (rseq [rstr "local", wsP]), rstr "copy", wsP, rstr "of", wsP, httpRe]]

def matchesSiteCloning (input : Str) : Bool :=
  cloningPatterns.any (fun r => reTest true r input)

end HaxAI

namespace HaxAI

/-- `extractSiteName` (line 2002); a match is normalized by
`replace(/\s+/g, '-').toLowerCase()`. -/
def extractSiteName (input : Str) : Option Str :=
  (firstCap
    [(true, rseq [rstr "called", wsP, .grp 1 (pCls [.ch '-', .ch '_'])]),
     (true, rseq [rstr "named", wsP, .grp 1 (pCls [.ch '-', .ch '_'])]),
     (true, rseq [rstr "site", wsP, .grp 1 (pCls [.ch '-', .ch '_'])]),
     (false, rseq [rch '"', .grp 1 (pCls [.ch '-', .ch '_', .space]), rch '"']),
     (false, rseq [rch '\x27', .grp 1 (pCls [.ch '-', .ch '_', .space]), rch '\x27'])]
    input 1).map (fun m => toLowerS (collapseWsDash m))

/-- The lookahead `(?=\s+with|\s+about|\s+containing|\s+that|\s+under|\s+beneath|$)`. -/
def titleStopLook : RE :=
  .look (raltL [rseq [wsP, rstr "with"], rseq [wsP, rstr "about"],
    rseq [wsP, rstr "containing"], rseq [wsP, rstr "that"], rseq [wsP, rstr "under"],
    rseq [wsP, rstr "beneath"], .eos])

/-- The same lookahead with `\s+to` added (used by the `add ... page` form). -/
def titleStopLookTo : RE :=
  .look (raltL [rseq [wsP, rstr "with"], rseq [wsP, rstr "about"],
    rseq [wsP, rstr "containing"], rseq [wsP, rstr "that"], rseq [wsP, rstr "under"],
    rseq [wsP, rstr "beneath"], rseq [wsP, rstr "to"], .eos])

/-- `extractPageTitle` (line 2020), a first-match-wins pattern sequence. -/
def extractPageTitle (input : Str) : Option Str :=
  (firstCap
    [(true, rseq [raltL [rstr "child", rstr "sub"], .star true (.cls false [.space, .ch '-']),
       rstr "page called", wsP, .grp 1 (pCls [.ch '_', .ch '-']),
       raltL [rseq [wsP, rstr "under"], rseq [wsP, rstr "beneath"], rseq [wsP, rstr "of"], .eos]]),
     (true, rseq [rstr "page called", wsP, .grp 1 (pCls [.ch '_', .ch '-']), titleStopLook]),
     (true, rseq [rstr "called", wsP, .grp 1 (pCls [.ch '_', .ch '-']), titleStopLook]),
     (true, rseq [rstr "page named", wsP, .grp 1 (pCls [.ch '_', .ch '-']), titleStopLook]),
     (true, rseq [rstr "add ", ropt (raltL [rstr "a", rstr "an"]), ropt (rch ' '),
       ropt (rstr "new"), ropt (rch ' '), ropt (rseq [rstr "child", wsP]), rstr "page ",
       ropt (raltL [rstr "called", rstr "named"]), ropt (rch ' '),
       .grp 1 (pCls [.ch '_', .ch '-']), titleStopLookTo]),
     (true, rseq [rch '"', .grp 1 (.plus true (.cls true [.ch '"'])), rch '"', wsS, rstr "page"]),
     (true, rseq [rch '\x27', .grp 1 (.plus true (.cls true [.ch '\x27'])), rch '\x27', wsS,
       rstr "page"]),
     (true, rseq [raltL [rstr "edit", rstr "change", rstr "update"], wsP,
       ropt (rseq [rstr "the", wsP]), .grp 1 (pCls [.ch '_', .ch '-', .ch ' '])]),
     (true, rseq [raltL [rstr "the", rch 'a'], wsP, .grp 1 (pCls [.ch '_', .ch '-', .ch ' ']),
       wsP, rstr "page"])]
    input 1).map trimS

/-- `extractSiteFromInput` (line 2059).  The fallback regex is built with an
unescaped template `\b`, so it contains literal backspace characters and in
practice never matches. -/
def extractSiteFromInput (input : Str) (availableSites : List Str) : Option Str :=
  let ignoreList := [str "is", str "node:add", str "add", str "page", str "called",
    str "to", str "with", str "new"]
  let validSites := availableSites.filter
    (fun site => !site.isEmpty && !ignoreList.contains (toLowerS site))
  let words := splitWsJS input
  match words.find? (fun w => validSites.contains w) with
  | some w => some w
  | none =>
    validSites.find? (fun site =>
      reTest true (rseq [rch '\x08', rstrL site, rch '\x08']) input)

/-- `extractContent` (line 2082). -/
def extractContent (input : Str) : Option Str :=
  match reCap true (rseq [rstr "with content", wsP, .grp 1 dotPlus]) input 1 with
  | some m => some (trimS m)
  | none =>
    let quizTry : Option Str :=
      if includesS input (str "quiz") || includesS input (str "element") ||
          includesS input (str "component") then
        firstCap
          [(true, rseq [rstr "about", wsP, .grp 1 (.plus false .dot), wsP, rstr "to", wsP,
             rstr "the", wsP, wordP, wsP, rstr "page"]),
           (true, rseq [rstr "about", wsP, .grp 1 (.plus false .dot), wsP, rstr "to", wsP,
             rstr "page", wsP, wordP]),
           (true, rseq [rstr "about", wsP, .grp 1 (.plus false .dot), wsP,
             raltL [rstr "on", rstr "for", rstr "in"], wsP, rstr "page"])]
          input 1
      else none
    match quizTry with
    | some m => some (trimS m)
    | none =>
      (firstCap
        [(true, rseq [rstr "about", wsP, .grp 1 dotPlus]),
         (true, rseq [rstr "containing", wsP, .grp 1 dotPlus]),
         (true, rseq [rstr "that says", wsP, .grp 1 dotPlus]),
         (true, rseq [rstr "page called ", pCls [.ch '_', .ch '-', .ch ' '],
           rstr " with content ", .grp 1 dotPlus])]
        input 1).map trimS

/-- The keyword table of `extractComponentType` (line 2117), in source
order. -/
def componentTypeMap : List (Str × Str) :=
  [(str "multiple choice", str "multiple-choice"),
   (str "multiple-choice", str "multiple-choice"),
   (str "quiz", str "quiz"),
   (str "assessment", str "quiz"),
   (str "matching", str "matching-question"),
   (str "true false", str "true-false-question"),
   (str "fill in", str "fill-in-the-blanks"),
   (str "flash card", str "flash-card"),
   (str "carousel", str "a11y-carousel"),
   (str "timeline", str "lrndesign-timeline"),
   (str "image map", str "lrndesign-imagemap"),
   (str "lesson", str "lesson-overview"),
   (str "code sample", str "code-sample"),
   (str "quote", str "media-quote"),
   (str "citation", str "citation-element")]

def extractComponentType (input : Str) : Option Str :=
  let lower := toLowerS input
  match componentTypeMap.find? (fun kv => includesS lower kv.1) with
  | some kv => some kv.2
  | none => if includesS lower (str "element") then some (str "generic-element") else none

/-- `extractPageSource` (line 2154). -/
def extractPageSource (input : Str) : Option Str :=
  (firstCap
    [(true, rseq [rstr "about", wsP, rstr "the", wsP, rstr "content", wsP, rstr "on", wsP,
       rstr "page", wsP, .grp 1 (pCls [.ch '_', .ch '-', .space])]),
     (true, rseq [rstr "from", wsP, rstr "page", wsP, .grp 1 (pCls [.ch '_', .ch '-', .space])]),
     (true, rseq [rstr "using", wsP, rstr "page", wsP, .grp 1 (pCls [.ch '_', .ch '-', .space])]),
     (true, rseq [rstr "based", wsP, rstr "on", wsP, rstr "page", wsP,
       .grp 1 (pCls [.ch '_', .ch '-', .space])]),
     (true, rseq [rstr "on", wsP, rstr "page", wsP, .grp 1 (pCls [.ch '_', .ch '-', .space])]),
     (true, rseq [rstr "to", wsP, rstr "the", wsP, .grp 1 (pCls [.ch '_', .ch '-', .space]),
       wsP, rstr "page"]),
     (true, rseq [rstr "to", wsP, rstr "page", wsP, .grp 1 (pCls [.ch '_', .ch '-', .space])]),
     (true, rseq [rstr "add", dotStar, rstr "to", wsP, .grp 1 (pCls [.ch '_', .ch '-', .space]),
       .eos])]
    input 1).map trimS

/-- `extractDomain` (line 2176). -/
def extractDomain (input : Str) : Option Str :=
  firstCap
    [(true, rseq [raltL [rstr "at", rstr "to"], wsP,
       .grp 1 (rseq [pCls [.ch '-'], rstr ".surge.sh"])]),
     (true, rseq [rstr "domain", wsP, .grp 1 (rseq [pCls [.ch '-'], rstr ".surge.sh"])]),
     (true, rseq [rstr "url", wsP, .grp 1 (rseq [pCls [.ch '-'], rstr ".surge.sh"])])]
    input 1

/-- `extractParentPage` (line 2192). -/
def extractParentPage (input : Str) : Option Str :=
  (firstCap
    [(true, rseq [rstr "under", wsP, ropt (rseq [rstr "the", wsP]),
       .grp 1 (pCls [.ch '_', .ch '-', .ch ' ']), wsP, rstr "page"]),
     (true, rseq [raltL [rstr "child", rseq [rstr "sub", ropt (rch '-'), rstr "page"]], wsP,
       rstr "of", wsP, ropt (rseq [rstr "the", wsP]), .grp 1 (pCls [.ch '_', .ch '-', .ch ' ']),
       ropt (rseq [wsP, rstr "page"])]),
     (true, rseq [rstr "beneath", wsP, ropt (rseq [rstr "the", wsP]),
       .grp 1 (pCls [.ch '_', .ch '-', .ch ' ']), wsP, rstr "page"]),
     (true, rseq [rstr "inside", wsP, ropt (rseq [rstr "the", wsP]),
       .grp 1 (pCls [.ch '_', .ch '-', .ch ' ']), wsP, raltL [rstr "page", rstr "section"]]),
     (true, rseq [rstr "add", wsP, ropt (rseq [rch 'a', wsP]), ropt (rseq [rstr "page", wsP]),
       rstr "called", wsP, pCls [.ch '_', .ch '-', .ch ' '], wsP, rstr "to", wsP,
       .grp 1 (pCls [.ch '_', .ch '-', .ch ' '])])]
    input 1).map trimS

end HaxAI

namespace HaxAI

/-- `extractMultiplePageTitles` (line 527). -/
def extractMultiplePageTitles (input : Str) : List Str :=
  match reSearch true (rseq [rstr "add", wsP, rch 'a', wsP, .grp 1 wordP, wsP, rstr "page",
      wsP, rstr "and", wsP, ropt (rch 'a'), wsS, .grp 2 wordP, wsP, rstr "page"]) input with
  | some (_, caps) => [trimS ((getCap caps 1).getD []), trimS ((getCap caps 2).getD [])]
  | none =>
  match reSearch true (rseq [rstr "add", wsP, .grp 1 wordP, wsP, rstr "and", wsP, .grp 2 wordP,
      wsP, rstr "page", ropt (rch 's')]) input with
  | some (_, caps) => [trimS ((getCap caps 1).getD []), trimS ((getCap caps 2).getD [])]
  | none =>
  match reSearch true (rseq [rstr "create", wsP, .grp 1 wordP, wsP, rstr "and", wsP, .grp 2 wordP,
      wsP, rstr "page", ropt (rch 's')]) input with
  | some (_, caps) => [trimS ((getCap caps 1).getD []), trimS ((getCap caps 2).getD [])]
  | none =>
    let parts := reSplit (input.length + 2) true (rseq [wsP, rstr "and", wsP]) input
    if parts.length == 2 then
      parts.foldl (fun acc part =>
        match reCap true (rseq [ropt (raltL [rstr "add", rstr "create"]), wsS,
            ropt (rseq [rch 'a', wsP]), .grp 1 wordP, wsS, rstr "page"]) part 1 with
        | some m => acc ++ [trimS m]
        | none => acc) []
    else []

/-- `extractMultiplePageContents` (line 566): an `exec` loop over
`/(\w+)\s+page\s+about\s+([^a]+?)(?:\s+and\s+a?\s*|$)/gi`. -/
def extractMultiplePageContents (input : Str) : List (Str × Str) :=
  (reExecAll (input.length + 2) true
    (rseq [.grp 1 wordP, wsP, rstr "page", wsP, rstr "about", wsP,
      .grp 2 (.plus false (.cls true [.ch 'a'])),
      raltL [rseq [wsP, rstr "and", wsP, ropt (rch 'a'), wsS], .eos]]) input).map
    (fun caps => (trimS ((getCap caps 1).getD []), trimS ((getCap caps 2).getD [])))

/-- `extractSlidedeckTopic` (line 583). -/
def extractSlidedeckTopic (input : Str) : Option Str :=
  (firstCap
    [(true, rseq [raltL [rstr "make", rstr "create", rstr "build", rstr "generate"], wsP,
       ropt (rch 'a'), wsS, rstr "slidedeck", wsP, rstr "about", wsP, .grp 1 dotPlus]),
     (true, rseq [raltL [rstr "make", rstr "create", rstr "build", rstr "generate"], wsP,
       rstr "slides", wsP, rstr "about", wsP, .grp 1 dotPlus]),
     (true, rseq [raltL [rstr "make", rstr "create", rstr "build", rstr "generate"], wsP,
       rstr "slides", wsP, rstr "for", wsP, .grp 1 dotPlus]),
     (true, rseq [raltL [rstr "make", rstr "create", rstr "build", rstr "generate"], wsP,
       ropt (rch 'a'), wsS, rstr "presentation", wsP, rstr "about", wsP, .grp 1 dotPlus]),
     (true, rseq [rstr "slidedeck", wsP, rstr "about", wsP, .grp 1 dotPlus]),
     (true, rseq [rstr "slides", wsP, rstr "about", wsP, .grp 1 dotPlus]),
     (true, rseq [rstr "slides", wsP, rstr "for", wsP, .grp 1 dotPlus]),
     (true, rseq [rstr "presentation", wsP, rstr "about", wsP, .grp 1 dotPlus])]
    input 1).map trimS

/-- `extractCustomizationDetails` (line 606): page name and customization. -/
def customizationDetailPatterns : List RE :=
  [rseq [rstr "customize", wsP, ropt (rseq [rstr "the", wsP]), .grp 1 (.plus false .dot), wsP,
    rstr "page", wsP, ropt (rseq [rstr "and", wsP]), rstr "make", wsP, rstr "it", wsP,
    rstr "about", wsP, .grp 2 dotPlus],
   rseq [rstr "customize", wsP, ropt (rseq [rstr "the", wsP]), .grp 1 (.plus false .dot), wsP,
    rstr "page", wsP, rstr "for", wsP, .grp 2 dotPlus],
   rseq [rstr "adapt", wsP, ropt (rseq [rstr "the", wsP]), .grp 1 (.plus false .dot), wsP,
    rstr "page", wsP, rstr "for", wsP, .grp 2 dotPlus],
   rseq [rstr "modify", wsP, ropt (rseq [rstr "the", wsP]), .grp 1 (.plus false .dot), wsP,
    rstr "page", dotStarL, raltL [rstr "for", rstr "about", rseq [rstr "to", wsP, rstr "be",
      wsP, rstr "about"]], wsP, .grp 2 dotPlus],
   rseq [rstr "change", wsP, ropt (rseq [rstr "the", wsP]), .grp 1 (.plus false .dot), wsP,
    rstr "page", dotStarL, rstr "to", wsP, rstr "be", wsP, rstr "about", wsP, .grp 2 dotPlus],
   rseq [rstr "customize", wsP, ropt (rseq [rstr "the", wsP]), .grp 1 (.plus false .dot), wsP,
    ropt (rseq [rstr "and", wsP]), ropt (rseq [rstr "make", wsP, rstr "it", wsP]),
    ropt (rseq [rstr "about", wsP]), .grp 2 dotPlus]]

def extractCustomizationDetails (input : Str) : Option (Str × Str) :=
  match customizationDetailPatterns.find? (fun r => reTest true r input) with
  | some r =>
    match reSearch true r input with
    | some (_, caps) =>
      some (trimS ((getCap caps 1).getD []), trimS ((getCap caps 2).getD []))
    | none => none
  | none => none

/-- `extractCloneInfo` (line 680). -/
def cloneUrlGrp : RE := .grp 1 (rseq [httpRe, .plus true (.cls true [.space])])

def cloneNameTail (l : List RE) : RE :=
  ropt (rseq [wsP, raltL l, wsP, .grp 2 wordP])

def cloneInfoPatterns : List RE :=
  [rseq [raltL [rstr "create", rstr "make", rstr "build"], wsP, ropt (rseq [rch 'a', wsP]),
    ropt (rseq [rstr "new", wsP]), rstr "site", wsP, ropt (rseq [rstr "copying", wsP]),
    rstr "from", wsP, cloneUrlGrp,
    cloneNameTail [rstr "as", rseq [rstr "name", ropt (rch 'd')]]],
   rseq [raltL [rstr "copy", rstr "clone"], wsP, ropt (rseq [rstr "the", wsP]), rstr "site",
    wsP, rstr "from", wsP, cloneUrlGrp, cloneNameTail [rstr "as", rstr "into", rstr "to"]],
   rseq [raltL [rstr "copy", rstr "clone"], wsP, cloneUrlGrp,
    cloneNameTail [rstr "as", rstr "into", rstr "to"]],
   rseq [raltL [rstr "import", rstr "duplicate"], wsP,
    ropt (rseq [rstr "site", wsP, rstr "from", wsP]), cloneUrlGrp,
    cloneNameTail [rstr "as", rseq [rstr "name", ropt (rch 'd')]]],
   rseq [raltL [rstr "create", rstr "make"], wsP, ropt (rseq [rch 'a', wsP]),
    ropt (rseq [rstr "local", wsP]), rstr "copy", wsP, rstr "of", wsP, cloneUrlGrp,
    cloneNameTail [rstr "as", rseq [rstr "name", ropt (rch 'd')]]]]

def extractCloneInfo (input : Str) : Option (Str × Option Str) :=
  match cloneInfoPatterns.find? (fun r => reTest true r input) with
  | some r =>
    match reSearch true r input with
    | some (_, caps) =>
      some (trimS ((getCap caps 1).getD []), (getCap caps 2).map trimS)
    | none => none
  | none => none

/-- `generateSiteNameFromUrl` (line 703): hostname of the URL, normalized,
plus a `Date.now()`-based suffix; an unparsable URL falls back to
`cloned-site-<now>`. -/
def generateSiteNameFromUrl (w : World) (url : Str) : Str :=
  match findSub url (str "://") with
  | some i =>
    let host := (url.drop (i + 3)).takeWhile
      (fun c => !(c == '/' || c == ':' || c == '?' || c == '#'))
    if host.isEmpty then str "cloned-site-" ++ natToStr w.nowMs
    else
      let h0 := toLowerS host
      let h1 := if isPre (str "www.") h0 then h0.drop 4 else h0
      let h2 := if isPre (str ".surge.sh").reverse h1.reverse then h1.take (h1.length - 9) else h1
      let h3 := h2.map (fun c => if c == '.' then '-' else c)
      let h4 := h3.filter (fun c => isAlnumC c || c == '-')
      let ts := natToStr w.nowMs
      h4 ++ str "-clone-" ++ ts.drop (ts.length - 4)
  | none => str "cloned-site-" ++ natToStr w.nowMs

end HaxAI

namespace HaxAI

/-- The conditional lexical replacement rules of `generateCustomizedTitle`
(line 634): `(from-regex, to, when-condition)`. -/
def customizedTitleRules (customization : Str) : List (RE × Str × Bool) :=
  let kor := reTest true (rstr "korean") customization
  [(rstr "japanese", str "Korean", kor),
   (rstr "korean", str "Japanese", reTest true (rstr "japanese") customization),
   (rstr "chinese", str "Korean", kor),
   (rstr "american", str "Korean", kor),
   (rstr "french", str "Korean", kor),
   (rstr "italian", str "Korean", kor),
   (rstr "german", str "Korean", kor),
   (rstr "spanish", str "Korean", kor),
   (rseq [rstr "border collie", ropt (rch 's')], str "Dogs",
     reTest true (rseq [rstr "dog", ropt (rch 's')]) customization),
   (rseq [rstr "dog", ropt (rch 's')], str "Border Collies",
     reTest true (rseq [rstr "border", .dot, rstr "collie", ropt (rch 's')]) customization),
   (rseq [rstr "cat", ropt (rch 's')], str "Dogs",
     reTest true (rseq [rstr "dog", ropt (rch 's')]) customization),
   (rseq [rstr "dog", ropt (rch 's')], str "Cats",
     reTest true (rseq [rstr "cat", ropt (rch 's')]) customization)]

def firstEffectiveRule (originalTitle : Str) : List (RE × Str × Bool) → Option Str
  | [] => none
  | (re, t2, co) :: rest =>
    if co then
      let newTitle := reReplaceAll (originalTitle.length + 2) true re t2 originalTitle
      if newTitle ≠ originalTitle then some newTitle
      else firstEffectiveRule originalTitle rest
    else firstEffectiveRule originalTitle rest

/-- `generateCustomizedTitle` (line 634). -/
def generateCustomizedTitle (originalTitle customization : Str) : Str :=
  match firstEffectiveRule originalTitle (customizedTitleRules customization) with
  | some t => t
  | none =>
    let customizationWord := capitalizeWords ((splitWsJS customization).headD [])
    match reSearch true (rseq [
        .grp 1 (raltL [rstr "Traditional", rstr "Modern", rstr "Classic", rstr "Ancient"]), wsP,
        .grp 2 wordP, wsP,
        .grp 3 (raltL [rstr "House", rstr "Building", rstr "Architecture", rstr "Style",
          rstr "Design", rstr "Food", rstr "Cuisine", rstr "Culture"])]) originalTitle with
    | some (_, caps) =>
      ((getCap caps 1).getD []) ++ [' '] ++ customizationWord ++ [' '] ++
        ((getCap caps 3).getD [])
    | none => originalTitle ++ str " - " ++ capitalizeWords customization

/-- `cleanAIResponse` (line 2632). -/
def cleanAIResponse (content : Str) : Str :=
  let c1 := reReplaceAll (content.length + 2) true
    (rseq [rstr "<style>", .star false .anyc, rstr "</style>"]) [] content
  let c2 := reReplaceAll (c1.length + 2) false
    (rseq [rch '<', .star true (.cls true [.ch '>']), rch '>']) [] c1
  let lines := (splitOnChar '\n' c2).filter (fun line =>
    let t := trimS line
    !t.isEmpty && !isPre (str "Here is") t && !isPre (str "This slide") t &&
    !isPre (str "The content") t && !includesS t (str "HTML content") &&
    !includesS t (str "presentation on") && !includesS t (str "slide of the presentation"))
  let joined := List.intercalate (str "\n") lines
  let c3 := reReplaceAll (joined.length + 2) false
    (rseq [rch '\n', .plus true (rch '\n')]) (str "\n") joined
  let c4 := trimS c3
  let lines2 := splitOnChar '\n' c4
  let uniq := (lines2.foldl (fun (acc : List Str × List Str) line =>
    let t := trimS line
    if !t.isEmpty && !acc.1.contains t then (acc.1 ++ [t], acc.2 ++ [line]) else acc)
    ([], [])).2
  List.intercalate (str "\n") uniq

def boldRepl (s : Str) : Str :=
  reReplaceAllCap1 (s.length + 2) false (rseq [rstr "**", .grp 1 dotStarL, rstr "**"])
    (str "<strong style=\"color: #FFD700;\">") (str "</strong>") s

def bulletHead : Str → Bool
  | c :: _ => c == '-' || c == '*' || c == '•'
  | [] => false

def bulletHeadWs : Str → Bool
  | c :: d :: _ => (c == '-' || c == '*' || c == '•') && jsSpace d
  | _ => false

def dropBullet (t : Str) : Str := (t.drop 1).dropWhile jsSpace

def enhanceLines : Bool → List Str → List Str
  | _, [] => []
  | isFirst, line :: rest =>
    let t := trimS line
    if bulletHeadWs t then
      (str "<p style=\"margin: 10px 0; font-size: 1.2em;\">• " ++ boldRepl (dropBullet t) ++
        str "</p>") :: enhanceLines false rest
    else
      let enhanced := boldRepl t
      (if isFirst && !bulletHead t then
        str "<p style=\"margin: 20px 0 30px 0; font-size: 1.3em; font-style: italic; color: #E0E0E0;\">" ++
          enhanced ++ str "</p>"
      else
        str "<p style=\"margin: 15px 0; font-size: 1.1em;\">" ++ enhanced ++ str "</p>") ::
        enhanceLines false rest

/-- `enhanceSlideContent` (line 2679). -/
def enhanceSlideContent (content : Str) : Str :=
  let lines := (splitOnChar '\n' content).filter (fun l => !(trimS l).isEmpty)
  let rest := if lines.length > 1 && !(trimS (lines.headD [])).isEmpty &&
      !bulletHead (trimS (lines.headD [])) then lines.drop 1 else lines
  List.intercalate [] (enhanceLines true rest)

/-- `formatSlideContent` (line 2668). -/
def formatSlideContent (content title : Str) (slideNumber totalSlides : Nat) : Str :=
  str "<div style=\"padding: 40px; background: linear-gradient(135deg, #667eea 0%, #764ba2 100%); color: white; border-radius: 10px; font-family: Arial, sans-serif; min-height: 500px;\">\n<div style=\"text-align: right; font-size: 14px; margin-bottom: 20px;\">Slide " ++
  natToStr slideNumber ++ str " of " ++ natToStr totalSlides ++
  str "</div>\n<h1 style=\"font-size: 2.5em; margin-bottom: 20px; text-shadow: 1px 1px 2px rgba(0,0,0,0.5);\">" ++
  title ++ str "</h1>\n<div style=\"font-size: 1.3em; line-height: 1.6;\">\n" ++
  enhanceSlideContent content ++ str "\n</div>\n</div>"

/-- JavaScript template-literal stringification of a JSON value. -/
def jDisp : Json → Str
  | .jnull => str "null"
  | .jundef => str "undefined"
  | .jbool true => str "true"
  | .jbool false => str "false"
  | .jnum lit => lit
  | .jstr s => s
  | .jarr items => List.intercalate (str ",") (items.map jDispShallow)
  | .jobj _ => str "[object Object]"
where jDispShallow : Json → Str
  | .jnull => []
  | .jundef => []
  | .jbool true => str "true"
  | .jbool false => str "false"
  | .jnum lit => lit
  | .jstr s => s
  | .jarr _ => []
  | .jobj _ => str "[object Object]"

end HaxAI

namespace HaxAI

/-- JavaScript truthiness of a nullable string. -/
def jsSome : Option Str → Bool
  | some s => !s.isEmpty
  | none => false

/-- The JavaScript `a || b` on nullable strings. -/
def jsOrOptS (a b : Option Str) : Option Str :=
  match a with
  | some s => if s.isEmpty then b else some s
  | none => b

/-- The JavaScript `a || b` where the fallback is a plain string. -/
def jsOrS (a : Option Str) (b : Str) : Str :=
  match a with
  | some s => if s.isEmpty then b else s
  | none => b

/-- Template-literal interpolation of a nullable string: JavaScript prints
`null` as the text `null`. -/
def optDisp : Option Str → Str
  | some s => s
  | none => str "null"

/-- Model of `parentPage ? parentPage.toLowerCase() : ''` in the
parent-update command of `handleAddPage` (line 1366). -/
def optLowerOrEmpty : Option Str → Str
  | some s => if s.isEmpty then [] else toLowerS s
  | none => []

/-- Fueled `String.prototype.split` on a literal separator string. -/
def splitOnStr : Nat → Str → Str → List Str
  | 0, _, s => [s]
  | f + 1, sep, s =>
    match findSub s sep with
    | none => [s]
    | some i => s.take i :: splitOnStr f sep (s.drop (i + sep.length))

/-- Lookup after a sequence of `Map.set` calls: the last binding wins. -/
def mapGetLast (m : List (Str × Str)) (k : Str) : Option Str :=
  (m.reverse.find? (fun kv => kv.1 == k)).map (fun kv => kv.2)

/-- Monadic map over a list (the sequential `for` loops of the handlers). -/
def emMapM {α β : Type} (f : α → EM β) : List α → EM (List β)
  | [] => pure []
  | x :: rest => do
    let y ← f x
    let ys ← emMapM f rest
    pure (y :: ys)

/-- Monadic map with the element index, starting at `i`. -/
def emMapIdxFrom {α β : Type} (f : Nat → α → EM β) : Nat → List α → EM (List β)
  | _, [] => pure []
  | i, x :: rest => do
    let y ← f i x
    let ys ← emMapIdxFrom f (i + 1) rest
    pure (y :: ys)

def emMapIdx {α β : Type} (f : Nat → α → EM β) (l : List α) : EM (List β) :=
  emMapIdxFrom f 0 l

/-- Monadic iteration for effect only (the validation loops). -/
def emForUnit {α : Type} (f : α → EM Unit) : List α → EM Unit
  | [] => pure ()
  | x :: rest => do
    f x
    emForUnit f rest

/-- `Array.prototype.find` with a predicate that may throw. -/
def emFind {α : Type} (p : α → EM Bool) : List α → EM (Option α)
  | [] => pure none
  | x :: rest => do
    let b ← p x
    if b then pure (some x) else emFind p rest

/-- Reading `siteData.items` and calling an array method on it: property
access on `null`/`undefined` throws, and a method call on a non-array value
throws, so only a JSON array succeeds. -/
def jItemsE (siteData : Json) : EM (List Json) :=
  if jAccessOk siteData then
    match jGet siteData (str "items") with
    | .jarr l => pure l
    | _ => throwE (str "TypeError: siteData.items.find is not a function")
  else throwE (str "TypeError: Cannot read properties of null")

/-- Calling a string method (`toLowerCase`, `replace`, ...) on an object
field: throws unless the field holds a string. -/
def jStrME (item : Json) (k : Str) : EM Str :=
  if jAccessOk item then
    match jGet item k with
    | .jstr s => pure s
    | _ => throwE (str "TypeError: not a string")
  else throwE (str "TypeError: Cannot read properties of null")

/-- Elements under `Array.prototype.join`: `null` and `undefined` become
empty, other values stringify. -/
def joinElemDisp : Json → Str
  | .jnull => []
  | .jundef => []
  | j => jDisp j

/-- The exact-match find of `addComponentToExistingPage` (line 424): title
equal case-insensitively, or slug equal to the dashed lower-cased name;
the disjunction short-circuits as `||` does. -/
def pageMatchExact (pageName : Str) (item : Json) : EM Bool := do
  let t ← jStrME item (str "title")
  if toLowerS t == toLowerS pageName then pure true
  else do
    let sl ← jStrME item (str "slug")
    pure (toLowerS sl == collapseWsDash (toLowerS pageName))

/-- The `includes` fallback find of `addComponentToExistingPage` (line 428). -/
def pageMatchIncl (pageName : Str) (item : Json) : EM Bool := do
  let t ← jStrME item (str "title")
  pure (includesS (toLowerS t) (toLowerS pageName))

/-- Model of `/^[a-zA-Z0-9_]+$/.test(siteName)` (line 86), transcribed as
the anchored character-class test the regex denotes. -/
def testSiteNameRe (s : Str) : Bool :=
  !s.isEmpty && s.all (fun c => isAlnumC c || c == '_')

/-- Model of `/^[a-zA-Z0-9_\s\?\,\-]+$/.test(pageTitle)` (line 89). -/
def testPageTitleRe (s : Str) : Bool :=
  !s.isEmpty && s.all (fun c => isAlnumC c || c == '_' || jsSpace c ||
    c == '?' || c == ',' || c == '-')

/-- Model of `validateNames` (line 85): throws an `Error` on an invalid
name, which the `process` boundary later catches. -/
def validateNames (siteName pageTitle : Option Str) : EM Unit :=
  if jsSome siteName && !testSiteNameRe (siteName.getD []) then
    throwE (str "Invalid site name. Use only letters, numbers, and underscores.")
  else if jsSome pageTitle && !testPageTitleRe (pageTitle.getD []) then
    throwE (str "Invalid page title \x27" ++ pageTitle.getD [] ++
      str "\x27. Use only letters, numbers, spaces, underscores, hyphens, commas, and question marks.")
  else pure ()

/-- Model of `askForSiteSelection` (line 2240). -/
def askForSiteSelection (availableSites : List Str) (action : Str) : Plan :=
  if availableSites.isEmpty then
    { explanation := str "You don\x27t have any sites yet. Let\x27s create your first one!",
      commands := [], success := true,
      suggestion := some (str "Try: \"Create a site called my-first-site\"") }
  else if availableSites.length == 1 then
    { explanation := str "I\x27ll " ++ action ++ str " your " ++ availableSites.headD [] ++
        str " site.",
      commands := [], success := true,
      autoSelect := some (availableSites.headD []) }
  else
    { explanation := str "Which site would you like to " ++ action ++ str "? You have: " ++
        List.intercalate (str ", ") availableSites,
      commands := [], success := true, availSites := availableSites,
      needsSiteSelection := true }

end HaxAI

namespace HaxAI

/-- The three-paragraph generative prompt shared by `generateMultipleAIPages`, `generateAIContentForPage` and `generateAIContentForChildPage`. -/
def threeParaPrompt (pageTitle contentPrompt : Str) : Str :=
  str "Write exactly 3 paragraphs of engaging HTML content for a web page titled \"" ++
  (pageTitle) ++
  str "\" about " ++
  (contentPrompt) ++
  str ". Each paragraph should be wrapped in <p> tags. Make it informative, well-written, and appropriate for a website. Do not include any other HTML tags or explanatory text - just the 3 paragraphs."

/-- The prompt of `generateAIQuizFromContent` (line 1714). -/
def aiQuizContentPrompt (pageContent pageSource : Str) : Str :=
  str "TASK: Create exactly ONE quiz with ONE question that has 4 possible answers based on this content.\n\nContent: " ++
  (pageContent.take 1000) ++
  str "\n\nIMPORTANT: Generate ONLY one quiz section with one question - no extra questions.\n\nFormat:\n<h2>Quiz: " ++
  (pageSource) ++
  str "</h2>\n<p>Test your knowledge about the content from this page!</p>\n\n<multiple-choice single-option=\"\" randomize=\"\" max-attempts=\"0\" question=\"[One question based on content]\">\n  <input type=\"checkbox\" value=\"[Wrong answer choice]\">\n  <input type=\"checkbox\" value=\"[Correct answer from content]\" correct=\"correct\">\n  <input type=\"checkbox\" value=\"[Wrong answer choice]\">\n  <input type=\"checkbox\" value=\"[Wrong answer choice]\">\n</multiple-choice>\n\nREQUIREMENTS:\n- EXACTLY ONE quiz with ONE question only\n- The question has exactly 4 possible answer choices\n- Base question on actual content\n- Mark correct answer with correct=\"correct\"\n- NO additional questions or quiz sections"

/-- The prompt of `generateAIQuizFromTopic` (line 1766). -/
def aiQuizTopicPrompt (topic : Str) : Str :=
  str "TASK: Create exactly ONE quiz with ONE question that has 4 possible answers about \"" ++
  (topic) ++
  str "\".\n\nIMPORTANT: Generate ONLY one quiz section with one question - no extra questions.\n\nFormat:\n<h2>Quiz: " ++
  (topic) ++
  str "</h2>\n<p>Test your knowledge about " ++
  (topic) ++
  str " with this interactive quiz!</p>\n\n<multiple-choice single-option=\"\" randomize=\"\" max-attempts=\"0\" question=\"[One educational question about " ++
  (topic) ++
  str "]\">\n  <input type=\"checkbox\" value=\"[Wrong answer choice]\">\n  <input type=\"checkbox\" value=\"[Correct answer]\" correct=\"correct\">\n  <input type=\"checkbox\" value=\"[Wrong answer choice]\">\n  <input type=\"checkbox\" value=\"[Wrong answer choice]\">\n</multiple-choice>\n\nREQUIREMENTS:\n- EXACTLY ONE quiz with ONE question only\n- The question has exactly 4 possible answer choices\n- Educational question about " ++
  (topic) ++
  str "\n- Mark correct answer with correct=\"correct\"\n- NO additional questions or quiz sections"

/-- The prompt of `generateSlideStructure` (line 2526). -/
def slideStructurePrompt (topic : Str) : Str :=
  str "Create a comprehensive slide presentation structure about \"" ++
  (topic) ++
  str "\". Generate a JSON response with:\n    \n    \x7b\n      \"title\": \"Main presentation title using only letters numbers and spaces\",\n      \"slides\": [\n        \x7b\n          \"title\": \"Slide title 1 (only letters numbers and spaces)\",\n          \"subtitle\": \"Brief description of slide content\",\n          \"key_points\": [\"Point 1\", \"Point 2\", \"Point 3\"]\n        \x7d,\n        \x7b\n          \"title\": \"Slide title 2 (only letters numbers and spaces)\", \n          \"subtitle\": \"Brief description of slide content\",\n          \"key_points\": [\"Point 1\", \"Point 2\", \"Point 3\"]\n        \x7d\n      ]\n    \x7d\n    \n    CRITICAL: ALL titles (including the main presentation title) must only contain letters, numbers, and spaces. Do NOT use any special characters like colons (:), question marks (?), exclamation points (!), quotation marks, hyphens (-), or any punctuation in ANY titles. This is critical for navigation to work properly.\n    \n    Create 8-12 slides total. Make titles engaging and educational. Include introduction, main content slides, and conclusion. Focus on making this informative and well-structured for learning. Return only valid JSON."

/-- The prompt of `generateSlideContent` (line 2581). -/
def slideContentPrompt (topic titleS subtitleS keyPts : Str) (slideNumber totalSlides : Nat) : Str :=
  str "Create slide content for a presentation about \"" ++
  (topic) ++
  str "\". This is slide " ++
  (natToStr slideNumber) ++
  str " of " ++
  (natToStr totalSlides) ++
  str ".\n\n    Slide Title: \"" ++
  (titleS) ++
  str "\"\n    Slide Focus: " ++
  (subtitleS) ++
  str "\n    Key Points: " ++
  (keyPts) ++
  str "\n    \n    IMPORTANT: Generate ONLY plain text content. Do NOT include:\n    - HTML tags or CSS code\n    - Style blocks or formatting instructions\n    - Explanations about the slide or presentation\n    - Meta-commentary about the content\n    \n    Just write the actual slide content as plain text:\n    - One subtitle/description line\n    - 3-5 bullet points starting with - or •\n    - Use **bold** for important terms only\n    - Keep it educational and informative\n    \n    Example format:\n    A brief engaging description of the topic\n    - First key point with **important term**\n    - Second key point\n    - Third key point\n    \n    Generate content about " ++
  (topic) ++
  str " for the slide \"" ++
  (titleS) ++
  str "\"."

/-- The prompt of `generateCustomizedContent` (line 2804). -/
def customizedContentPrompt (originalTitle originalContent customization : Str) : Str :=
  str "You are helping to customize web page content. Take the original content and adapt it for a new specific purpose.\n\nOriginal Page Title: \"" ++
  (originalTitle) ++
  str "\"\nOriginal Content: \"" ++
  (originalContent) ++
  str "\"\n\nCustomization Request: \"" ++
  (customization) ++
  str "\"\n\nPlease create new content that:\n1. Keeps the same general structure and tone as the original\n2. Adapts all the information to be specifically about \"" ++
  (customization) ++
  str "\"\n3. Maintains the same level of detail and professionalism\n4. Uses HTML formatting similar to the original\n5. Ensures the content is relevant and accurate for the new topic\n\nReturn only the HTML content (no title, as that will be set separately). Make it engaging and informative."

/-- The explanation text of `getHelpResponse` (line 2268). -/
def helpExplanationStr : Str :=
  str "I can help you build websites with simple commands! Here\x27s what you can say:\n\n**🏗️ Creating Sites:**\n• \"Create a site called my-blog\"\n• \"Make a portfolio site called john-portfolio\"\n• \"Create a business site for my bakery\"\n\n**📄 Adding Content:**\n• \"Add a page called About\"\n• \"Add a page about my hobbies\"\n• \"Create a contact page with my email\"\n• \"Add a blog post called My First Adventure\"\n• \"Add a child page called Team under About\"\n• \"Create a sub-page called Services under Company\"\n• \"Add contact and about pages\" (multiple pages)\n• \"Create services and portfolio pages\" (multiple pages)\n• \"Add a contact page about our company and a services page about web development\" (multiple pages with AI content)\n\n**📋 Managing Sites:**\n• \"Show me all my sites\"\n• \"List pages in my-blog\"\n• \"What sites do I have?\"\n\n**👀 Previewing:**\n• \"Preview my site\"\n• \"Show me how my blog looks\"\n• \"View my portfolio site\"\n\n**🚀 Publishing:**\n• \"Publish my site\"\n• \"Put my blog online\"\n• \"Deploy to myblog.surge.sh\"\n\n**✏️ Editing:**\n• \"Edit the About page\"\n• \"Change the homepage\"\n• \"Update my contact information\"\n\nJust tell me what you want to do in plain English - I understand natural conversation!"

/-- The suggestion list of `getDefaultResponse` (line 2316). -/
def defaultSuggestions : List Str :=
  [str "Create a site called my-blog", str "Add a page called About",
   str "Show me all my sites", str "Preview my site", str "Publish my site"]

/-- The explanation text of `getDefaultResponse` (line 2315). -/
def defaultExplanationStr (input : Str) : Str :=
  str "I\x27m not sure exactly what you want to do with \"" ++
  (input) ++
  str "\". Here are some things you can try:\n\n" ++
  (List.intercalate (str "\n") (defaultSuggestions.map (fun s => str "• \"" ++ s ++ str "\""))) ++
  str "\n\nType \"help\" for more detailed examples, or just tell me what you\x27d like to do with your website!"

/-- `buildSystemPrompt` (line 2338). -/
def buildSystemPrompt (ctx : Context) : Str :=
  str "You are a helpful HAX website assistant running locally on the user\x27s computer. Convert user requests into HAX CLI commands and provide friendly explanations.\n\nCONTEXT:\n- Sites directory: " ++
  (ctx.sitesDir) ++
  str "\n- Available sites: " ++
  (if ctx.availableSites.isEmpty then str "none" else List.intercalate (str ", ") ctx.availableSites) ++
  str "\n- Current site: " ++
  (jsOrS ctx.currentSite (str "none selected")) ++
  str "\n- HAX CLI and Surge are installed and available\n\nAVAILABLE COMMANDS:\n1. CREATE SITE: hax site [name] --y\n2. ADD PAGE: hax site --path \"[sitepath]\" --node-op create --title \"[title]\" --content \"[content]\"\n3. PREVIEW: hax serve --path \"[sitepath]\" (starts local server at http://localhost:3000)\n4. PUBLISH: cd \"[sitepath]\" && npm run build && cd dist && surge . [domain]\n5. LIST PAGES: cat \"[sitepath]/site.json\" (to show site structure)\n\nRESPONSE FORMAT:\nAlways respond with:\n1. A friendly explanation of what you\x27ll do\n2. The exact CLI commands needed (in ```bash blocks)\n3. Any helpful next steps or tips\n\nIMPORTANT RULES:\n- Always use full paths with quotes: \"" ++
  (ctx.sitesDir) ++
  str "/[sitename]\"\n- Escape any quotes in content properly\n- If no site is specified and multiple exist, ask user to specify\n- For previews, mention the URL will be http://localhost:3000\n- For publishing, explain they\x27ll get a live web URL\n- Be encouraging and helpful - this is for non-technical users\n- If unsure about something, ask for clarification\n\nEXAMPLES:\n\nUser: \"Create a blog site called travel-adventures\"\nResponse: I\x27ll create a new HAX site called \"travel-adventures\" for you! This will set up all the necessary files and structure for your blog.\n\n```bash\nhax site travel-adventures --y\n```\n\nYour new site will be ready at: " ++
  (ctx.sitesDir) ++
  str "/travel-adventures\n\nNext, you might want to add some pages like \"About\" or \"Contact\"!\n\nUser: \"Add a page about my hobbies\"\nResponse: I\x27ll add a new page called \"About My Hobbies\" to your site with some starter content that you can customize.\n\n```bash\nhax site --path \"" ++
  (ctx.sitesDir) ++
  str "/" ++
  (jsOrS ctx.currentSite (str "[current-site]")) ++
  str "\" --node-op create --title \"About My Hobbies\" --content \"Welcome to my hobbies page! Here I share information about the activities and interests that bring me joy and help me grow as a person.\"\n```\n\nBe helpful, encouraging, and always explain what each command does in simple terms!"

/-- One entry of the slide list in `generateSlidedeckIndexContent` (line 2713). -/
def slideIndexEntryStr (idx : Nat) (titleS subtitleS : Str) : Str :=
  str "<p style=\"margin: 10px 0; padding: 15px; background: #f8f9fa; border-left: 4px solid #667eea; border-radius: 5px;\">\n        <strong>Slide " ++
  (natToStr (idx + 1)) ++
  str ": " ++
  (titleS) ++
  str "</strong><br>\n        <em style=\"color: #666;\">" ++
  (subtitleS) ++
  str "</em>\n      </p>"

/-- The page template of `generateSlidedeckIndexContent` (line 2720). -/
def slidedeckIndexStr (titleS : Str) (n : Nat) (slideList : Str) : Str :=
  str "<div style=\"padding: 30px; background: linear-gradient(135deg, #f8f9fa 0%, #e9ecef 100%); border-radius: 10px; font-family: Arial, sans-serif;\">\n<h1 style=\"color: #2c3e50; text-align: center; margin-bottom: 30px;\">" ++
  (titleS) ++
  str "</h1>\n\n<div style=\"background: white; padding: 25px; border-radius: 8px; margin: 20px 0; box-shadow: 0 2px 10px rgba(0,0,0,0.1);\">\n<h2 style=\"color: #667eea; margin-top: 0;\">📋 Presentation Overview</h2>\n<p style=\"font-size: 1.1em; line-height: 1.6;\">This comprehensive presentation covers key aspects of the topic with <strong>" ++
  (natToStr n) ++
  str " detailed slides</strong>. Navigate through each slide to explore the content designed for interactive learning.</p>\n</div>\n\n<h2 style=\"color: #2c3e50; margin: 30px 0 15px 0;\">🎯 Slide Contents</h2>\n" ++
  (slideList) ++
  str "\n\n<div style=\"background: #667eea; color: white; padding: 20px; border-radius: 8px; margin: 30px 0; text-align: center;\">\n<h3 style=\"margin: 0 0 10px 0;\">🧭 Navigation Instructions</h3>\n<p style=\"margin: 0;\">Each slide is available as a separate page in this site. Use the navigation arrows or click through the individual slides to explore the content in presentation format.</p>\n</div>\n\n<p style=\"text-align: center; color: #888; font-style: italic; margin: 20px 0 0 0;\">✨ Generated automatically using AI-powered content creation</p>\n</div>"

/-- The `a11y-carousel` case of `generateGenericComponentContent` (line 1827). -/
def carouselContentStr (contentPrompt : Str) : Str :=
  str "<h2>Image Carousel</h2>\n<a11y-carousel>\n  <div>\n    <h3>Slide 1</h3>\n    <p>First slide content about " ++
  (contentPrompt) ++
  str "</p>\n  </div>\n  <div>\n    <h3>Slide 2</h3>\n    <p>Second slide with more information</p>\n  </div>\n  <div>\n    <h3>Slide 3</h3>\n    <p>Final slide content</p>\n  </div>\n</a11y-carousel>"

/-- The `lrndesign-timeline` case of `generateGenericComponentContent`. -/
def timelineContentStr (contentPrompt : Str) : Str :=
  str "<h2>Timeline</h2>\n<lrndesign-timeline>\n  <div slot=\"event\">\n    <h4>Event 1</h4>\n    <p>Description of first event related to " ++
  (contentPrompt) ++
  str "</p>\n  </div>\n  <div slot=\"event\">\n    <h4>Event 2</h4>\n    <p>Second important event</p>\n  </div>\n  <div slot=\"event\">\n    <h4>Event 3</h4>\n    <p>Most recent event</p>\n  </div>\n</lrndesign-timeline>"

/-- The `code-sample` case of `generateGenericComponentContent`. -/
def codeSampleContentStr (contentPrompt : Str) : Str :=
  str "<h2>Code Sample</h2>\n<p>Here\x27s an example related to " ++
  (contentPrompt) ++
  str ":</p>\n<code-sample language=\"html\">\n  <template>\n    <h1>Example Code</h1>\n    <p>This is sample code about " ++
  (contentPrompt) ++
  str "</p>\n  </template>\n</code-sample>"

/-- The `media-quote` case of `generateGenericComponentContent`. -/
def mediaQuoteContentStr (contentPrompt : Str) : Str :=
  str "<h2>Featured Quote</h2>\n<media-quote author=\"Expert\" source=\"Educational Resource\">\n  This is an inspiring quote about " ++
  (contentPrompt) ++
  str " that provides valuable insight and perspective on the topic.\n</media-quote>"

/-- The default case of `generateGenericComponentContent`. -/
def genericDefaultContentStr (componentType contentPrompt : Str) : Str :=
  str "<h2>" ++
  (capFirst componentType) ++
  str "</h2>\n<p>This is a " ++
  (componentType) ++
  str " component about " ++
  (contentPrompt) ++
  str ". You can customize this content to fit your needs.</p>\n<" ++
  (componentType) ++
  str ">\n  <p>Component content goes here</p>\n</" ++
  (componentType) ++
  str ">"

/-- The `node -e` parent-update command template of `handleAddPage` and
`generateAIContentForChildPage` (lines 1366 and 1511), transcribed with its
literal indentation and newlines. -/
def updateParentCommandStr (parentPage : Option Str) (pageTitle : Str) : Str :=
  str "node -e \"\n        const fs = require(\x27fs\x27);\n        const siteData = JSON.parse(fs.readFileSync(\x27site.json\x27, \x27utf8\x27));\n        const parentPageItem = siteData.items.find(item => item.title.toLowerCase() === \x27" ++
  (optLowerOrEmpty parentPage) ++
  str "\x27 || item.slug === \x27" ++
  (optLowerOrEmpty parentPage) ++
  str "\x27);\n        const childPage = siteData.items.find(item => item.title === \x27" ++
  (pageTitle) ++
  str "\x27);\n        if (parentPageItem && childPage) \x7b\n          childPage.parent = parentPageItem.id;\n          childPage.indent = 1;\n          fs.writeFileSync(\x27site.json\x27, JSON.stringify(siteData, null, 2));\n          console.log(\x27Parent-child relationship set up successfully\x27);\n        \x7d else \x7b\n          console.log(\x27Could not find parent or child page for relationship setup\x27);\n        \x7d\n      \""

/-- The `node -e` slide-relationship command template of
`generateAISlidedeck` (line 2477). -/
def slideRelationCommandStr (parentPageTitle sanitizedTitle : Str) : Str :=
  str "node -e \"\n          const fs = require(\x27fs\x27);\n          const siteData = JSON.parse(fs.readFileSync(\x27site.json\x27, \x27utf8\x27));\n          const parentPage = siteData.items.find(item => item.title === \x27" ++
  (escapeQuotes parentPageTitle) ++
  str "\x27);\n          const childPage = siteData.items.find(item => item.title === \x27" ++
  (escapeQuotes sanitizedTitle) ++
  str "\x27);\n          if (parentPage && childPage) \x7b\n            childPage.parent = parentPage.id;\n            childPage.indent = 1;\n            fs.writeFileSync(\x27site.json\x27, JSON.stringify(siteData, null, 2));\n            console.log(\x27Slide relationship set up for: " ++
  (escapeQuotes sanitizedTitle) ++
  str "\x27);\n          \x7d\n        \""

/-- The `node -e` post-command template of `handleCustomization`
(line 890). -/
def customizePostCommandStr (sourcePageId newTitle : Str) : Str :=
  str "node -e \"\n              const fs = require(\x27fs\x27);\n              const siteData = JSON.parse(fs.readFileSync(\x27site.json\x27, \x27utf8\x27));\n              const parentPage = siteData.items.find(item => item.id === \x27" ++
  (sourcePageId) ++
  str "\x27);\n              const childPage = siteData.items.find(item => item.title === \x27" ++
  (newTitle) ++
  str "\x27);\n              if (parentPage && childPage) \x7b\n                childPage.parent = parentPage.id;\n                childPage.indent = (parentPage.indent || 0) + 1;\n                fs.writeFileSync(\x27site.json\x27, JSON.stringify(siteData, null, 2));\n                console.log(\x27Child relationship set up for: " ++
  (newTitle) ++
  str "\x27);\n              \x7d\n            \""


end HaxAI

namespace HaxAI

/-- The `try { readFile; JSON.parse } catch { ... }` prologue shared by
`addComponentToExistingPage` (line 410) and `generateQuizFromPageContent`
(line 1656): `none` signals that the catch branch ran. -/
def readSiteJson (w : World) (siteJsonPath : Str) : EM (Option Json) :=
  EM.catchE (do
      let c ← emRead w siteJsonPath
      match jsonParse c with
      | some j => pure (some j)
      | none => throwE (str "SyntaxError: Unexpected token in JSON"))
    (fun _ => pure none)

/-- The guarded page-file read (`try { readFile } catch`). -/
def readFileOpt (w : World) (path : Str) : EM (Option Str) :=
  EM.catchE (do
      let c ← emRead w path
      pure (some c))
    (fun _ => pure none)

/-- The two-stage page lookup shared by `addComponentToExistingPage` and
`generateQuizFromPageContent`: exact matches first, then `includes`. -/
def findPageItem (pageName : Str) (items : List Json) : EM (Option Json) := do
  let exact ← emFind (pageMatchExact pageName) items
  match exact with
  | some it => pure (some it)
  | none => emFind (pageMatchIncl pageName) items

/-- Model of `siteData.items.map(item => item.title).join(', ')` (line 434). -/
def availablePagesOf (items : List Json) : EM Str := do
  let titles ← emMapM (fun item =>
    if jAccessOk item then pure (jGet item (str "title"))
    else throwE (str "TypeError: Cannot read properties of null")) items
  pure (List.intercalate (str ", ") (titles.map joinElemDisp))

/-- Model of `addComponentToExistingPage` (lines 401-486).  Note: on success
this handler writes the page file itself and returns an empty command
list. -/
def addComponentToExistingPage (w : World) (siteName pageName componentContent componentType sitesDir : Str) : EM Plan :=
  EM.catchE (do
    let siteJsonPath := sitesDir ++ str "/" ++ siteName ++ str "/site.json"
    let siteData? ← readSiteJson w siteJsonPath
    match siteData? with
    | none =>
      pure { explanation := str "I couldn\x27t read the site.json file for " ++ siteName ++
               str ". The site might be corrupted.",
             commands := [], success := false, error := some (str "Site data not found") }
    | some siteData => do
      let items ← jItemsE siteData
      let pageItem? ← findPageItem pageName items
      match pageItem? with
      | none => do
        let availablePages ← availablePagesOf items
        pure { explanation := str "I couldn\x27t find a page named \"" ++ pageName ++
                 str "\" in your " ++ siteName ++ str " site. Available pages: " ++ availablePages,
               commands := [], success := false, error := some (str "Page not found"),
               suggestions := [str "List all pages to see available page names",
                 str "Try using one of these page names: " ++
                   List.intercalate (str ", ")
                     ((splitOnStr (availablePages.length + 1) (str ", ") availablePages).take 3)] }
      | some pageItem => do
        let pageFilePath := sitesDir ++ str "/" ++ siteName ++ str "/" ++
          jDisp (jGet pageItem (str "location"))
        let current? ← readFileOpt w pageFilePath
        match current? with
        | none =>
          pure { explanation := str "Found the page \"" ++ jDisp (jGet pageItem (str "title")) ++
                   str "\" but couldn\x27t read its content file.",
                 commands := [], success := false, error := some (str "File read error") }
        | some currentContent => do
          let updatedContent := trimS currentContent ++ str "\n\n" ++ componentContent
          emWrite pageFilePath updatedContent
          pure { explanation := str "✅ Successfully added the " ++ componentType ++
                   str " to your existing \"" ++ jDisp (jGet pageItem (str "title")) ++
                   str "\" page! The " ++ componentType ++
                   str " has been appended to the page content.",
                 commands := [], success := true,
                 action := some (str "add_" ++ componentType ++ str "_to_page"),
                 nextSteps := some (capFirst componentType ++ str " added to the \"" ++
                   jDisp (jGet pageItem (str "title")) ++
                   str "\" page! Preview your site to see the interactive " ++ componentType ++
                   str " in action."),
                 pageModified := some (jDisp (jGet pageItem (str "title"))),
                 filePath := some pageFilePath })
    (fun emsg =>
      pure { explanation := str "Sorry, I couldn\x27t add the " ++ componentType ++
               str " to the \"" ++ pageName ++
               str "\" page. There was an error accessing the file.",
             commands := [], success := false, error := some emsg })

/-- Model of `generateAIQuizFromTopic` (line 1766): one generative call,
falling back to the template quiz on provider failure. -/
def generateAIQuizFromTopic (env : Env) (topic : Str) : EM Str :=
  EM.catchE (emAI env (aiQuizTopicPrompt topic))
    (fun _ => pure (generateTemplateQuiz topic))

/-- Model of `generateAIQuizFromContent` (line 1714). -/
def generateAIQuizFromContent (env : Env) (pageContent pageSource : Str) : EM Str :=
  EM.catchE (emAI env (aiQuizContentPrompt pageContent pageSource))
    (fun _ => pure (generateTemplateQuiz pageSource))

/-- Model of `generateQuizFromPrompt` (line 1706). -/
def generateQuizFromPrompt (env : Env) (topic : Str) : EM Str :=
  if env.hasAPIKey then generateAIQuizFromTopic env topic
  else pure (generateTemplateQuiz topic)

/-- Model of `generateQuizFromPageContent` (lines 1649-1703). -/
def generateQuizFromPageContent (w : World) (env : Env) (siteName pageSource sitesDir : Str) (fallbackTopic : Option Str) : EM Str :=
  EM.catchE (do
    let siteJsonPath := sitesDir ++ str "/" ++ siteName ++ str "/site.json"
    let siteData? ← readSiteJson w siteJsonPath
    match siteData? with
    | none => generateQuizFromPrompt env (jsOrS fallbackTopic pageSource)
    | some siteData => do
      let items ← jItemsE siteData
      let pageItem? ← findPageItem pageSource items
      match pageItem? with
      | none => generateQuizFromPrompt env (jsOrS fallbackTopic pageSource)
      | some pageItem => do
        let pageFilePath := sitesDir ++ str "/" ++ siteName ++ str "/" ++
          jDisp (jGet pageItem (str "location"))
        let content? ← readFileOpt w pageFilePath
        match content? with
        | none => generateQuizFromPrompt env (jsOrS fallbackTopic pageSource)
        | some pageContent =>
          if env.hasAPIKey then
            generateAIQuizFromContent env pageContent (jDisp (jGet pageItem (str "title")))
          else pure (generateTemplateQuiz (jDisp (jGet pageItem (str "title")))))
    (fun _ => pure (generateTemplateQuiz (jsOrS fallbackTopic pageSource)))

/-- Model of `handleCreateQuiz` (lines 365-398). -/
def handleCreateQuiz (w : World) (env : Env) (ctx : Context) (siteName : Str) (pageSource contentPrompt : Option Str) : EM Plan :=
  if !jsSome pageSource then
    pure { explanation := str "To add a quiz, you need to specify which page to add it to. Quizzes are components that get added to existing pages, not standalone pages.",
           commands := [], success := false, error := some (str "Target page not specified"),
           suggestions := [str "Add a multiple choice quiz about sharks to the marine life page",
             str "Add a quiz about the content on the history page",
             str "Add a multiple choice quiz about biology to the science page"] }
  else do
    let quizContent ←
      if jsSome contentPrompt then generateQuizFromPrompt env (contentPrompt.getD [])
      else
        generateQuizFromPageContent w env siteName (pageSource.getD []) ctx.sitesDir
          (some (pageSource.getD []))
    addComponentToExistingPage w siteName (pageSource.getD []) quizContent (str "quiz")
      ctx.sitesDir

/-- The component display-name table of `handleCreateGeneralComponent`
(line 493). -/
def componentNameMap : List (Str × Str) :=
  [(str "a11y-carousel", str "image carousel"),
   (str "lrndesign-timeline", str "timeline"),
   (str "lrndesign-imagemap", str "interactive image map"),
   (str "lesson-overview", str "lesson overview"),
   (str "code-sample", str "code sample"),
   (str "media-quote", str "media quote"),
   (str "citation-element", str "citation")]

/-- Model of `generateGenericComponentContent` (lines 1825-1884). -/
def generateGenericComponentContent (componentType contentPrompt : Str) : Str :=
  if componentType == str "a11y-carousel" then carouselContentStr contentPrompt
  else if componentType == str "lrndesign-timeline" then timelineContentStr contentPrompt
  else if componentType == str "code-sample" then codeSampleContentStr contentPrompt
  else if componentType == str "media-quote" then mediaQuoteContentStr contentPrompt
  else genericDefaultContentStr componentType contentPrompt

/-- Model of `handleCreateGeneralComponent` (lines 489-527). -/
def handleCreateGeneralComponent (w : World) (ctx : Context) (siteName componentType : Str) (pageSource contentPrompt : Option Str) : EM Plan :=
  let componentName :=
    match componentNameMap.find? (fun kv => kv.1 == componentType) with
    | some kv => kv.2
    | none => componentType
  let componentContent := generateGenericComponentContent componentType
    (jsOrS contentPrompt (str "Example " ++ componentName ++ str " content"))
  if jsSome pageSource then
    addComponentToExistingPage w siteName (pageSource.getD []) componentContent componentName
      ctx.sitesDir
  else
    let pageTitle := capFirst componentName
    let command := str "hax site node:add --node-op create --title \"" ++ pageTitle ++
      str "\" --content \x27" ++ escapeQuotes componentContent ++ str "\x27 --y"
    pure { explanation := str "I\x27ll create a " ++ componentName ++ str " page called \"" ++
             pageTitle ++ str "\" in your " ++ siteName ++ str " site using the " ++
             componentType ++ str " web component.",
           commands := [str "cd " ++ ctx.sitesDir ++ str "/" ++ siteName, command],
           success := true, action := some (str "create_component"),
           nextSteps := some (str "Component created! You can preview your site and customize the " ++
             componentName ++ str " content as needed.") }

/-- Model of `handleAddWebComponent` (lines 1038-1081). -/
def handleAddWebComponent (w : World) (env : Env) (ctx : Context) (input : Str) : EM Plan :=
  let siteName? := jsOrOptS (extractSiteFromInput input ctx.availableSites) ctx.currentSite
  if !jsSome siteName? then
    pure (askForSiteSelection ctx.availableSites (str "add a web component to"))
  else
    let siteName := siteName?.getD []
    let componentType := extractComponentType input
    let pageSource := extractPageSource input
    let contentPrompt := extractContent input
    if !jsSome componentType then
      pure { explanation := str "I couldn\x27t determine what type of component you want to create. Try saying something like \x27add a multiple choice quiz\x27 or \x27create a timeline\x27.",
             commands := [], success := false, error := some (str "Unknown component type"),
             suggestions := [str "Add a multiple choice quiz about the content on page X",
               str "Create a timeline for the history page",
               str "Add a carousel to the gallery page",
               str "Make a flash card quiz about biology terms"] }
    else if componentType == some (str "quiz") || componentType == some (str "multiple-choice") then
      handleCreateQuiz w env ctx siteName pageSource contentPrompt
    else
      handleCreateGeneralComponent w ctx siteName (componentType.getD []) pageSource
        contentPrompt

end HaxAI

namespace HaxAI

/-- Model of `handleDeployment` (lines 722-796): a `surge whoami` probe
gates the build-and-deploy command plan. -/
def handleDeployment (w : World) (ctx : Context) (input : Str) : EM Plan :=
  let siteName? := jsOrOptS (extractSiteFromInput input ctx.availableSites) ctx.currentSite
  if !jsSome siteName? then
    pure (askForSiteSelection ctx.availableSites (str "deploy"))
  else
    let siteName := siteName?.getD []
    EM.catchE (do
      let out ← emSurgeWhoami w
      let surgeUser := trimS out
      let domain := jsOrS w.surgeDomainEnv
        (siteName ++ str "-" ++ natToStr w.nowMs ++ str ".surge.sh")
      let commands := [str "cd " ++ ctx.sitesDir ++ str "/" ++ siteName,
        str "echo \"🏗️  Building site for deployment...\"",
        str "hax site build",
        str "echo \"🚀 Deploying to " ++ domain ++ str "...\"",
        str "hax site site:surge --domain " ++ domain ++ str " --no-i"]
      pure { explanation := str "🚀 I\x27ll deploy your \"" ++ siteName ++
               str "\" site to Surge.sh using HAX\x27s built-in deployment system. You\x27re logged in as: " ++
               surgeUser,
             commands := commands, success := true,
             nextSteps := some (str "Once deployed, your site will be live at https://" ++ domain),
             action := some (str "deploy_site"), siteName := some siteName,
             domain := some domain, runFromSiteDir := none,
             deploymentUrl := some (str "https://" ++ domain) })
      (fun _ =>
        pure { explanation := str "❌ Surge.sh authentication required. You need to login to Surge first:",
               commands := [], success := false,
               nextSteps := some (str "To deploy sites to the web, you need to setup Surge.sh (it\x27s free!)"),
               examples := [str "🌐 Setup Steps:",
                 str "1. Create account at https://surge.sh",
                 str "2. Run: surge login",
                 str "3. Enter your Surge credentials",
                 str "4. Then try deploying again!"] })

/-- Model of `generateCustomizedContent` (lines 2803-2851). -/
def generateCustomizedContent (env : Env) (originalTitle originalContent customization : Str) : EM Str :=
  EM.catchE (do
      let response ← emAI env (customizedContentPrompt originalTitle originalContent customization)
      pure (trimS response))
    (fun emsg =>
      pure (str "<p>Error generating customized content: " ++ emsg ++
        str ". Please try again.</p>"))

/-- `replace(/<[^>]*>/g, ' ')` from `handleCustomization` (line 854). -/
def stripTags (s : Str) : Str :=
  reReplaceAll (s.length + 2) false
    (rseq [rch '<', .star true (.cls true [.ch '>']), rch '>']) (str " ") s

/-- The page find of `handleCustomization` (line 832): `includes` on title
or slug, short-circuiting as `||` does. -/
def customPageMatch (pageName : Str) (item : Json) : EM Bool := do
  let t ← jStrME item (str "title")
  if includesS (toLowerS t) (toLowerS pageName) then pure true
  else do
    let sl ← jStrME item (str "slug")
    pure (includesS (toLowerS sl) (toLowerS pageName))

/-- Interpolating `item.title` into a template, which throws only when the
item itself is `null` or `undefined`. -/
def emTitleDisp (item : Json) : EM Str :=
  if jAccessOk item then pure (jDisp (jGet item (str "title")))
  else throwE (str "TypeError: Cannot read properties of null")

/-- Model of `handleCustomization` (lines 798-914).  The unused
`sanitizedTitle` binding of the source (line 869) is omitted; the commands
embed the raw `newTitle`, as the source does. -/
def handleCustomization (w : World) (env : Env) (ctx : Context) (input : Str) : EM Plan :=
  let siteName? := jsOrOptS (extractSiteFromInput input ctx.availableSites) ctx.currentSite
  if !jsSome siteName? then
    pure (askForSiteSelection ctx.availableSites (str "customize content in"))
  else
    let siteName := siteName?.getD []
    match extractCustomizationDetails input with
    | none =>
      pure { explanation := str "❌ I couldn\x27t understand which page to customize. Please specify the page name and what you want to customize it for.",
             commands := [], success := false,
             examples := [str "🎯 Try these formats:",
               str "• customize the dogs page and make it about border collies",
               str "• customize aboutus page for small businesses",
               str "• adapt the marketing page for restaurants",
               str "• modify the home page to be about consulting"] }
    | some (pageName, customization) =>
      EM.catchE (do
        let siteJsonPath := ctx.sitesDir ++ str "/" ++ siteName ++ str "/site.json"
        let content ← emRead w siteJsonPath
        let siteData ←
          match jsonParse content with
          | some j => pure j
          | none => throwE (str "SyntaxError: Unexpected token in JSON")
        let items ← jItemsE siteData
        let sourcePage? ← emFind (customPageMatch pageName) items
        match sourcePage? with
        | none => do
          let shown ← emMapM emTitleDisp (items.take 5)
          pure { explanation := str "❌ I couldn\x27t find a page with \"" ++ pageName ++
                   str "\" in the site. Please check the page name.",
                 commands := [], success := false,
                 examples := str "📄 Available pages:" ::
                   shown.map (fun t => str "• " ++ t) }
        | some sourcePage => do
          let sourcePagePath := ctx.sitesDir ++ str "/" ++ siteName ++ str "/" ++
            jDisp (jGet sourcePage (str "location"))
          let sourceContent ← emRead w sourcePagePath
          let textContent := trimS (collapseWs (stripTags sourceContent))
          let titleS ← jStrME sourcePage (str "title")
          let customizedContent ← generateCustomizedContent env titleS textContent customization
          let newTitle := generateCustomizedTitle titleS customization
          let commands := [str "cd " ++ ctx.sitesDir ++ str "/" ++ siteName,
            str "echo \"🎨 Customizing \x27" ++ titleS ++ str "\x27 for " ++ customization ++
              str "...\"",
            str "hax site node:add --node-op create --title \"" ++ newTitle ++
              str "\" --content \"" ++ customizedContent ++ str "\" --y"]
          pure { explanation := str "🎨 I\x27ll customize the \"" ++ titleS ++
                   str "\" page for " ++ customization ++
                   str " and create it as a child page with AI-generated content.",
                 commands := commands, success := true,
                 nextSteps := some (str "Your customized page \"" ++ newTitle ++
                   str "\" will be created as a child of \"" ++ titleS ++ str "\""),
                 action := some (str "customize_page"),
                 sourcePage := some titleS,
                 customizationF := some customization,
                 newTitle := some newTitle,
                 runFromSiteDir := some (ctx.sitesDir ++ str "/" ++ siteName),
                 parentId := some (jDisp (jGet sourcePage (str "id"))),
                 postCommands := [(customizePostCommandStr
                     (jDisp (jGet sourcePage (str "id"))) newTitle,
                   str "Setting up parent-child relationship for customized page")] })
        (fun emsg =>
          pure { explanation := str "❌ Error accessing page content: " ++ emsg,
                 commands := [], success := false })

/-- Model of `handleSiteCloning` (lines 917-985); its `try` body is total
in the model (the `URL` constructor fallback lives inside
`generateSiteNameFromUrl`), so the catch is omitted. -/
def handleSiteCloning (w : World) (ctx : Context) (input : Str) : EM Plan :=
  match extractCloneInfo input with
  | none =>
    pure { explanation := str "❌ I couldn\x27t understand the clone request. Please specify the source URL and optionally a new site name.",
           commands := [], success := false,
           examples := [str "🌐 Try these formats:",
             str "• create a new site copying from https://mysite.surge.sh",
             str "• copy the site from https://example.surge.sh as newsite",
             str "• clone https://mysite.surge.sh into mynewsite",
             str "• create a local copy of https://example.surge.sh"] }
  | some (sourceUrl, newSiteName) =>
    let siteName := jsOrS newSiteName (generateSiteNameFromUrl w sourceUrl)
    if ctx.availableSites.contains siteName then
      pure { explanation := str "❌ A site named \"" ++ siteName ++
               str "\" already exists. Please choose a different name.",
             commands := [], success := false,
             examples := [str "💡 Try adding a suffix:",
               str "• clone " ++ sourceUrl ++ str " as " ++ siteName ++ str "-copy",
               str "• clone " ++ sourceUrl ++ str " as " ++ siteName ++ str "-v2"] }
    else
      pure { explanation := str "🌐 I\x27ll create a new site \"" ++ siteName ++
               str "\" and import all content from " ++ sourceUrl ++
               str " using HAX\x27s built-in site import functionality.",
             commands := [str "cd " ++ ctx.sitesDir,
               str "echo \"🌐 Cloning site from " ++ sourceUrl ++ str " using HAX import...\"",
               str "hax site create --name \"" ++ siteName ++ str "\" --import-site \"" ++
                 sourceUrl ++ str "\" --import-structure haxcmsToSite --auto"],
             success := true,
             nextSteps := some (str "Your cloned site \"" ++ siteName ++
               str "\" will contain all pages and content from the source site"),
             action := some (str "clone_site"), siteName := some siteName,
             sourceUrl := some sourceUrl,
             runFromSiteDir := some ctx.sitesDir }

end HaxAI

namespace HaxAI

/-- Reading `slideStructure.slides` and using it as an array (`.length` in
an eagerly evaluated log argument, `.map` in the index content, indexing in
the slide loop): only a JSON array reaches a returned plan, every other
shape throws a `TypeError` before any plan is produced, which the model
raises here. -/
def emSlidesArr (st : Json) : EM (List Json) :=
  if jAccessOk st then
    match jGet st (str "slides") with
    | .jarr l => pure l
    | _ => throwE (str "TypeError: slideStructure.slides is not an array")
  else throwE (str "TypeError: Cannot read properties of null")

/-- Model of `generateSlidedeckIndexContent` (lines 2711-2742). -/
def generateSlidedeckIndexContent (st : Json) (slides : List Json) : EM Str := do
  let entries ← emMapIdx (fun i slide =>
    if jAccessOk slide then
      pure (slideIndexEntryStr i (jDisp (jGet slide (str "title")))
        (jDisp (jGet slide (str "subtitle"))))
    else throwE (str "TypeError: Cannot read properties of null")) slides
  pure (slidedeckIndexStr (jDisp (jGet st (str "title"))) slides.length
    (List.intercalate [] entries))

/-- Model of `generateSlideStructure` (lines 2525-2577): one generative
call, fence stripping, `JSON.parse`, fallback outline on parse failure. -/
def generateSlideStructure (env : Env) (topic : Str) : EM Json := do
  let aiResponse ← emAI env (slideStructurePrompt topic)
  let aiR := trimS aiResponse
  let c1 := reReplaceFirst false (rseq [rstr "```json", ropt (rch '\n')]) [] aiR
  let c2 := reReplaceFirst false (rseq [rstr "```", ropt (rch '\n'), .eos]) [] c1
  match jsonParse c2 with
  | some j => pure j
  | none => pure (getFallbackSlideStructure topic)

/-- Model of `generateSlideContent` (lines 2580-2629). -/
def generateSlideContent (env : Env) (slide : Json) (topic : Str) (slideNumber totalSlides : Nat) : EM Str := do
  if jAccessOk slide then do
    let keyPts ←
      match jGet slide (str "key_points") with
      | .jarr l => pure (List.intercalate (str ", ") (l.map joinElemDisp))
      | _ => throwE (str "TypeError: slide.key_points.join is not a function")
    let aiResponse ← emAI env (slideContentPrompt topic (jDisp (jGet slide (str "title")))
      (jDisp (jGet slide (str "subtitle"))) keyPts slideNumber totalSlides)
    let cleanContent := cleanAIResponse (trimS aiResponse)
    pure (formatSlideContent cleanContent (jDisp (jGet slide (str "title"))) slideNumber
      totalSlides)
  else throwE (str "TypeError: Cannot read properties of null")

/-- Model of `generateAISlidedeck` (lines 2451-2509); its catch only logs
and rethrows, so it is omitted. -/
def generateAISlidedeck (env : Env) (topic siteName sitesDir : Str) : EM Plan := do
  let st ← generateSlideStructure env topic
  let slides ← emSlidesArr st
  let tRaw ← jStrME st (str "title")
  let parentPageTitle := sanitizeSlideTitle tRaw
  let indexContent ← generateSlidedeckIndexContent st slides
  let parentCommand := str "hax site node:add --node-op create --title \"" ++ parentPageTitle ++
    str "\" --content \x27" ++ escapeQuotes indexContent ++ str "\x27 --y"
  let slideCommands ← emMapIdx (fun i slide => do
    let slideContent ← generateSlideContent env slide topic (i + 1) slides.length
    let t2 ← jStrME slide (str "title")
    let sanitizedTitle := sanitizeSlideTitle t2
    pure (str "hax site node:add --node-op create --title \"" ++ sanitizedTitle ++
      str "\" --content \x27" ++ escapeQuotes slideContent ++ str "\x27 --y")) slides
  let relationshipCommands ← emMapM (fun slide => do
    let t2 ← jStrME slide (str "title")
    pure (slideRelationCommandStr parentPageTitle (sanitizeSlideTitle t2))) slides
  let allCommands := parentCommand :: (slideCommands ++ relationshipCommands)
  pure { explanation := str "🎯 I\x27ll create a comprehensive slidedeck about \"" ++ topic ++
           str "\" with " ++ natToStr slides.length ++
           str " slides. This includes a main page and individual slide pages with AI-generated content in presentation format.",
         commands := allCommands, success := true,
         nextSteps := some (str "Slidedeck created! You can preview your site by saying \"preview " ++
           siteName ++ str "\" to see the presentation structure."),
         action := some (str "create_slidedeck"), siteName := some siteName,
         slidedeckTitle := some parentPageTitle, slideCount := some slides.length,
         runFromSiteDir := some (sitesDir ++ str "/" ++ siteName), aiGenerated := true }

/-- Model of `handleCreateSlidedeck` (lines 988-1036). -/
def handleCreateSlidedeck (w : World) (env : Env) (ctx : Context) (input : Str) : EM Plan :=
  let topic := extractSlidedeckTopic input
  let siteName? := jsOrOptS (extractSiteFromInput input ctx.availableSites) ctx.currentSite
  if !jsSome siteName? then
    pure (askForSiteSelection ctx.availableSites (str "add a slidedeck to"))
  else if !jsSome topic then
    pure { explanation := str "I\x27d love to create a slidedeck for you! What topic would you like it to cover?",
           commands := [], success := true,
           examples := [str "Make a slidedeck about eagles",
             str "Create a presentation about climate change",
             str "Build slides about artificial intelligence",
             str "Generate a slidedeck about entrepreneurship"] }
  else if !env.hasAPIKey then
    pure { explanation := str "I need AI capabilities to generate comprehensive slidedecks. Please set up an AI API key first.",
           commands := [], success := false,
           suggestion := some (str "Try adding individual pages manually or set up an Anthropic API key for AI-powered slidedeck generation.") }
  else
    EM.catchE (generateAISlidedeck env (topic.getD []) (siteName?.getD []) ctx.sitesDir)
      (fun emsg =>
        pure { explanation := str "Failed to generate slidedeck about " ++ topic.getD [] ++
                 str ". You can try creating individual slides manually.",
               commands := [], success := false, error := some emsg })

end HaxAI

namespace HaxAI

/-- One command of the `generateMultipleAIPages` loop (lines 1164-1210). -/
def buildMultiAICommand (env : Env) (contentMap : List (Str × Str)) (pageTitle : Str) : EM Str := do
  let contentPrompt := mapGetLast contentMap (toLowerS pageTitle)
  let base := str "hax site node:add --node-op create --title \"" ++ pageTitle ++ str "\""
  let cmd ←
    if jsSome contentPrompt && env.hasAPIKey then
      EM.catchE (do
          let aiResponse ← emAI env (threeParaPrompt pageTitle (contentPrompt.getD []))
          pure (base ++ str " --content \x27" ++ escapeQuotes (trimS aiResponse) ++ str "\x27"))
        (fun _ =>
          pure (base ++ str " --content \"" ++
            generateThreeParagraphsContent pageTitle (contentPrompt.getD []) ++ str "\""))
    else if jsSome contentPrompt then
      pure (base ++ str " --content \"" ++
        generateThreeParagraphsContent pageTitle (contentPrompt.getD []) ++ str "\"")
    else pure base
  pure (cmd ++ str " --y")

/-- Model of `generateMultipleAIPages` (lines 1153-1225). -/
def generateMultipleAIPages (env : Env) (pageTitles : List Str) (pageContents : List (Str × Str)) (siteName sitesDir : Str) : EM Plan := do
  let contentMap := pageContents.map (fun pc => (toLowerS pc.1, pc.2))
  let commands ← emMapM (buildMultiAICommand env contentMap) pageTitles
  let pageList := List.intercalate (str ", ") pageTitles
  let pluralPages := if pageTitles.length > 1 then str "pages" else str "page"
  let hasAIContent := !pageContents.isEmpty && env.hasAPIKey
  pure { explanation := str "I\x27ll add " ++ natToStr pageTitles.length ++ str " new " ++
           pluralPages ++ str " to your " ++ siteName ++ str " site with " ++
           (if hasAIContent then str "AI-generated" else str "custom") ++ str " content: " ++
           pageList,
         commands := commands, success := true,
         nextSteps := some (str "Pages created with content! You can preview your site by saying \"preview " ++
           siteName ++ str "\""),
         action := some (str "add_multiple_pages_with_content"),
         siteName := some siteName, pageTitles := pageTitles,
         runFromSiteDir := some (sitesDir ++ str "/" ++ siteName),
         aiGenerated := hasAIContent }

/-- Model of `generateMultiplePagesWithFallbackContent` (lines 1228-1263). -/
def generateMultiplePagesWithFallbackContent (pageTitles : List Str) (pageContents : List (Str × Str)) (siteName sitesDir : Str) : EM Plan := do
  let contentMap := pageContents.map (fun pc => (toLowerS pc.1, pc.2))
  let commands := pageTitles.map (fun pageTitle =>
    let contentPrompt := mapGetLast contentMap (toLowerS pageTitle)
    let base := str "hax site node:add --node-op create --title \"" ++ pageTitle ++ str "\""
    let cmd :=
      if jsSome contentPrompt then
        base ++ str " --content \"" ++
          generateThreeParagraphsContent pageTitle (contentPrompt.getD []) ++ str "\""
      else base
    cmd ++ str " --y")
  let pageList := List.intercalate (str ", ") pageTitles
  let pluralPages := if pageTitles.length > 1 then str "pages" else str "page"
  pure { explanation := str "I\x27ll add " ++ natToStr pageTitles.length ++ str " new " ++
           pluralPages ++ str " to your " ++ siteName ++ str " site with custom content: " ++
           pageList,
         commands := commands, success := true,
         nextSteps := some (str "Pages created with content! You can preview your site by saying \"preview " ++
           siteName ++ str "\""),
         action := some (str "add_multiple_pages_with_content"),
         siteName := some siteName, pageTitles := pageTitles,
         runFromSiteDir := some (sitesDir ++ str "/" ++ siteName) }

/-- Model of `handleAddMultiplePages` (lines 1084-1150). -/
def handleAddMultiplePages (w : World) (env : Env) (ctx : Context) (input : Str) : EM Plan :=
  let pageTitles := extractMultiplePageTitles input
  let pageContents := extractMultiplePageContents input
  let siteName? := jsOrOptS (extractSiteFromInput input ctx.availableSites) ctx.currentSite
  if !jsSome siteName? then
    pure (askForSiteSelection ctx.availableSites (str "add pages to"))
  else if pageTitles.isEmpty then
    pure { explanation := str "I can see you want to add multiple pages! Can you tell me what you\x27d like to call them?",
           commands := [], success := true,
           examples := [str "Add a contact page and about page",
             str "Create services and portfolio pages",
             str "Add contact and forsale pages",
             str "Add a contact page about our company and a services page about web development"] }
  else do
    let siteName := siteName?.getD []
    emForUnit (fun pageTitle => validateNames (some siteName) (some pageTitle)) pageTitles
    let hasContentPrompts := !pageContents.isEmpty
    let shouldUseAI := hasContentPrompts && env.hasAPIKey && includesS input (str "about")
    if shouldUseAI then
      generateMultipleAIPages env pageTitles pageContents siteName ctx.sitesDir
    else if hasContentPrompts then
      generateMultiplePagesWithFallbackContent pageTitles pageContents siteName ctx.sitesDir
    else
      let commands := pageTitles.map (fun pageTitle =>
        str "hax site node:add --node-op create --title \"" ++ pageTitle ++ str "\" --y")
      let pageList := List.intercalate (str ", ") pageTitles
      let pluralPages := if pageTitles.length > 1 then str "pages" else str "page"
      pure { explanation := str "I\x27ll add " ++ natToStr pageTitles.length ++ str " new " ++
               pluralPages ++ str " to your " ++ siteName ++ str " site: " ++ pageList,
             commands := commands, success := true,
             nextSteps := some (str "Pages created! You can preview your site by saying \"preview " ++
               siteName ++ str "\" or add content to any page."),
             action := some (str "add_multiple_pages"),
             siteName := some siteName, pageTitles := pageTitles,
             runFromSiteDir := some (ctx.sitesDir ++ str "/" ++ siteName) }

/-- Model of `handleCreateSite` (lines 1266-1297). -/
def handleCreateSite (input : Str) (sitesDir : Str) : EM Plan :=
  let siteName? := extractSiteName input
  if !jsSome siteName? then
    pure { explanation := str "I\x27d be happy to create a site for you! What would you like to call it?",
           commands := [], success := true,
           examples := [str "Create a site called my-blog",
             str "Make a portfolio site called john-portfolio",
             str "Create a business site called my-bakery"] }
  else do
    let siteName := siteName?.getD []
    validateNames (some siteName) none
    let commands0 := [str "hax site start --name " ++ siteName ++ str " --y"]
    let explanation0 := str "I\x27ll create a new HAX site called \"" ++ siteName ++
      str "\". This will set up all the files and structure you need to start building your website."
    let nextSteps := str "Great! Once created, you can add pages by saying: \"Add a page called About to " ++
      siteName ++ str "\""
    let pennState := includesS (toLowerS input) (str "penn state site")
    let commands := if pennState then
        commands0 ++ [str "hax site site:theme --theme \"polaris-flex-theme\""]
      else commands0
    let explanation := if pennState then
        explanation0 ++ str "\nApplying Penn State theme."
      else explanation0
    pure { explanation := explanation, commands := commands, success := true,
           nextSteps := some nextSteps, action := some (str "create-site"),
           siteName := some siteName }

/-- Model of `generateAIContentForChildPage` (lines 1505-1634): builds the
page command (with generative or fallback content) and always pairs it with
the parent-update command, even when `parentPage` is null. -/
def generateAIContentForChildPage (env : Env) (pageTitle siteName contentPrompt sitesDir command workflowType : Str) (parentPage : Option Str) : EM Plan :=
  if !env.hasAPIKey then
    let cmd := command ++ str " --content \"" ++
      generateThreeParagraphsContent pageTitle contentPrompt ++ str "\" --y"
    pure { explanation := str "I\x27ll add a new child page called \"" ++ pageTitle ++
             str "\" under the \"" ++ optDisp parentPage ++ str "\" page in your " ++
             siteName ++ str " site with content about " ++ contentPrompt ++ str ".",
           commands := [cmd, updateParentCommandStr parentPage pageTitle],
           success := true,
           nextSteps := some (str "Child page created with content! You can preview your site by saying \"preview " ++
             siteName ++ str "\""),
           action := some workflowType, siteName := some siteName,
           pageTitle := some pageTitle,
           runFromSiteDir := some (sitesDir ++ str "/" ++ siteName) }
  else
    EM.catchE (do
        let aiResponse ← emAI env (threeParaPrompt pageTitle contentPrompt)
        let cmd := command ++ str " --content \x27" ++ escapeQuotes (trimS aiResponse) ++
          str "\x27 --y"
        pure { explanation := str "I\x27ll add a new child page called \"" ++ pageTitle ++
                 str "\" under the \"" ++ optDisp parentPage ++ str "\" page in your " ++
                 siteName ++ str " site with AI-generated content about " ++ contentPrompt ++
                 str ".",
               commands := [cmd, updateParentCommandStr parentPage pageTitle],
               success := true,
               nextSteps := some (str "Child page created with AI content! You can preview your site by saying \"preview " ++
                 siteName ++ str "\""),
               action := some workflowType, siteName := some siteName,
               pageTitle := some pageTitle,
               runFromSiteDir := some (sitesDir ++ str "/" ++ siteName),
               aiGenerated := true })
      (fun _ =>
        let cmd := command ++ str " --content \"" ++
          generateThreeParagraphsContent pageTitle contentPrompt ++ str "\" --y"
        pure { explanation := str "I\x27ll add a new child page called \"" ++ pageTitle ++
                 str "\" under the \"" ++ optDisp parentPage ++ str "\" page in your " ++
                 siteName ++ str " site with content about " ++ contentPrompt ++ str ".",
               commands := [cmd, updateParentCommandStr parentPage pageTitle],
               success := true,
               nextSteps := some (str "Child page created with content! You can preview your site by saying \"preview " ++
                 siteName ++ str "\""),
               action := some workflowType, siteName := some siteName,
               pageTitle := some pageTitle,
               runFromSiteDir := some (sitesDir ++ str "/" ++ siteName) })

/-- Model of `handleAddPage` (lines 1299-1421). -/
def handleAddPage (w : World) (env : Env) (ctx : Context) (input : Str) : EM Plan :=
  let pageTitle? := extractPageTitle input
  let siteName? := jsOrOptS (extractSiteFromInput input ctx.availableSites) ctx.currentSite
  if !jsSome siteName? then
    pure (askForSiteSelection ctx.availableSites (str "add a page to"))
  else if !jsSome pageTitle? then
    pure { explanation := str "What would you like to call the new page?",
           commands := [], success := true,
           examples := [str "Add a page called About to " ++ (siteName?.getD []),
             str "Create a contact page in " ++ (siteName?.getD []),
             str "Add a blog post called My First Post"] }
  else do
    let siteName := siteName?.getD []
    let pageTitle := pageTitle?.getD []
    validateNames (some siteName) (some pageTitle)
    let parentPage := extractParentPage input
    let contentPrompt := extractContent input
    let parentTruthy := jsSome parentPage && !(trimS (parentPage.getD [])).isEmpty
    let workflowType0 := if parentTruthy then str "add_child_page" else str "add_page"
    let command0 := str "hax site node:add --node-op create --title \"" ++ pageTitle ++ str "\""
    if jsSome contentPrompt && env.hasAPIKey &&
        (includesS input (str "with content") || includesS input (str "about")) then
      generateAIContentForChildPage env pageTitle siteName (contentPrompt.getD [])
        ctx.sitesDir command0
        (if jsSome parentPage then str "add_child_page_with_content"
         else str "add_page_with_content")
        parentPage
    else
      let withContent := jsSome contentPrompt
      let command1 :=
        if withContent then
          command0 ++ str " --content \"" ++
            generateThreeParagraphsContent pageTitle (contentPrompt.getD []) ++ str "\""
        else command0
      let workflowType :=
        if withContent then
          if jsSome parentPage then str "add_child_page_with_content"
          else str "add_page_with_content"
        else workflowType0
      if parentTruthy then
        let command := command1 ++ str " --y"
        let expl0 := str "I\x27ll add a new child page called \"" ++ pageTitle ++
          str "\" under the \"" ++ optDisp parentPage ++ str "\" page in your " ++
          siteName ++ str " site."
        let expl1 := if withContent then
            expl0 ++ str " The page will include " ++
              (if env.hasAPIKey then str "AI-generated" else str "custom") ++
              str " content about " ++ contentPrompt.getD [] ++ str "."
          else expl0
        let expl := expl1 ++ str " The parent-child relationship will be set up automatically."
        pure { explanation := expl,
               commands := [command, updateParentCommandStr parentPage pageTitle],
               success := true,
               nextSteps := some (str "Child page created! You can preview your site by saying \"preview " ++
                 siteName ++ str "\""),
               action := some workflowType, siteName := some siteName,
               pageTitle := some pageTitle,
               runFromSiteDir := some (ctx.sitesDir ++ str "/" ++ siteName),
               aiGenerated := withContent && env.hasAPIKey }
      else
        let command := command1 ++ str " --y"
        let expl0 := str "I\x27ll add a new page called \"" ++ pageTitle ++
          str "\" to your " ++ siteName ++ str " site."
        let expl := if withContent then
            expl0 ++ str " The page will include " ++
              (if env.hasAPIKey then str "AI-generated" else str "custom") ++
              str " content about " ++ contentPrompt.getD [] ++ str "."
          else expl0
        pure { explanation := expl, commands := [command], success := true,
               nextSteps := some (str "Page added! You can preview your site by saying \"preview " ++
                 siteName ++ str "\""),
               action := some workflowType, siteName := some siteName,
               pageTitle := some pageTitle,
               runFromSiteDir := some (ctx.sitesDir ++ str "/" ++ siteName),
               aiGenerated := withContent && env.hasAPIKey }

end HaxAI

namespace HaxAI

/-- Model of `getDefaultResponse` (lines 2315-2336). -/
def getDefaultResponse (input : Str) : Plan :=
  { explanation := defaultExplanationStr input, commands := [], success := true,
    suggestions := defaultSuggestions }

/-- Model of `handleListContent` (lines 1886-1924). -/
def handleListContent (input : Str) (ctx : Context) : Plan :=
  if includesS input (str "site") then
    if ctx.availableSites.isEmpty then
      { explanation := str "You don\x27t have any sites yet! Let\x27s create your first one.",
        commands := [], success := true,
        suggestion := some (str "Try: \"Create a site called my-first-site\"") }
    else
      { explanation := str "You have " ++ natToStr ctx.availableSites.length ++
          str " site(s): " ++ List.intercalate (str ", ") ctx.availableSites,
        commands := [], success := true, dataSites := ctx.availableSites,
        action := some (str "list-sites") }
  else if includesS input (str "page") then
    let siteName? := extractSiteFromInput input ctx.availableSites
    if !jsSome siteName? then askForSiteSelection ctx.availableSites (str "list pages from")
    else
      { explanation := str "I\x27ll show you all the pages in " ++ siteName?.getD [] ++ str ".",
        commands := [str "cat \"" ++ ctx.sitesDir ++ str "/" ++ siteName?.getD [] ++
          str "/site.json\""],
        success := true, action := some (str "list-pages"), siteName := siteName? }
  else getDefaultResponse input

/-- Model of `handlePreview` (lines 1926-1942). -/
def handlePreview (input : Str) (ctx : Context) : Plan :=
  let siteName? := jsOrOptS (extractSiteFromInput input ctx.availableSites) ctx.currentSite
  if !jsSome siteName? then askForSiteSelection ctx.availableSites (str "preview")
  else
    { explanation := str "I\x27ll start a preview server for " ++ siteName?.getD [] ++
        str ". You\x27ll be able to see your site at http://localhost:3000",
      commands := [str "hax serve --path \"" ++ ctx.sitesDir ++ str "/" ++ siteName?.getD [] ++
        str "\""],
      success := true, action := some (str "serve"), siteName := siteName?,
      nextSteps := some (str "The preview will open in a new browser tab. Make changes to see them update live!") }

/-- Model of `handlePublish` (lines 1944-1968). -/
def handlePublish (w : World) (input : Str) (ctx : Context) : Plan :=
  let siteName? := jsOrOptS (extractSiteFromInput input ctx.availableSites) ctx.currentSite
  if !jsSome siteName? then askForSiteSelection ctx.availableSites (str "publish")
  else
    let siteName := siteName?.getD []
    let domain := jsOrS (extractDomain input)
      (siteName ++ str "-" ++ natToStr w.nowMs ++ str ".surge.sh")
    { explanation := str "I\x27ll publish your " ++ siteName ++
        str " site to the web using Surge. This will make it accessible to anyone on the internet!",
      commands := [str "cd \"" ++ ctx.sitesDir ++ str "/" ++ siteName ++
          str "\" && npm run build",
        str "cd \"" ++ ctx.sitesDir ++ str "/" ++ siteName ++ str "/dist\" && surge . " ++
          domain],
      success := true, action := some (str "deploy"), siteName := some siteName,
      domain := some domain,
      nextSteps := some (str "Once published, your site will be live at https://" ++ domain) }

/-- Model of `handleEdit` (lines 1970-1999). -/
def handleEdit (input : Str) (ctx : Context) : Plan :=
  let siteName? := jsOrOptS (extractSiteFromInput input ctx.availableSites) ctx.currentSite
  let pageTitle? := extractPageTitle input
  if !jsSome siteName? then askForSiteSelection ctx.availableSites (str "edit content in")
  else if !jsSome pageTitle? then
    { explanation := str "Which page would you like to edit?",
      commands := [], success := true,
      examples := [str "Edit the About page in " ++ siteName?.getD [],
        str "Change the homepage content",
        str "Update the contact page"] }
  else
    { explanation := str "I\x27ll help you edit the " ++ pageTitle?.getD [] ++ str " page in " ++
        siteName?.getD [] ++ str ". Let me find that page first.",
      commands := [str "cat \"" ++ ctx.sitesDir ++ str "/" ++ siteName?.getD [] ++
        str "/site.json\""],
      success := true, action := some (str "edit-page"), siteName := siteName?,
      pageTitle := pageTitle? }

/-- Model of `getHelpResponse` (lines 2268-2312). -/
def getHelpResponse : Plan :=
  { explanation := helpExplanationStr, commands := [], success := true, isHelp := true }

/-- Model of `parseAIResponse` of the ORIG engine (lines 2393-2410): the
```bash block scanner.  It always returns `success: true`. -/
def parseAIResponse (response : Str) (isAIGenerated : Bool) : Plan :=
  let pat := rseq [rstr "```bash\n", .grp 1 (.star false .anyc), rstr "\n```"]
  let blocks := reExecAll (response.length + 2) false pat response
  let commands := blocks.map (fun caps => trimS ((getCap caps 1).getD []))
  let explanation := trimS (reReplaceAll (response.length + 2) false pat [] response)
  { explanation := explanation, commands := commands, success := true,
    aiProcessed := isAIGenerated,
    rawResponse := if isAIGenerated then some response else none }

/-- Model of `processWithPatterns` (lines 173-255): the dispatch chain over
the pattern matchers, in source order. -/
def processWithPatterns (w : World) (env : Env) (ctx : Context) (userInput : Str) : EM Plan :=
  if userInput.isEmpty then
    pure { explanation := str "Please provide a valid command. Try \x27help\x27 for available commands.",
           commands := [], success := false, error := some (str "Invalid input") }
  else
    let input := trimS (toLowerS userInput)
    if matchesDeployment input then handleDeployment w ctx input
    else if matchesSlidedeck input then handleCreateSlidedeck w env ctx input
    else if matchesCustomization input then handleCustomization w env ctx input
    else if matchesSiteCloning input then handleSiteCloning w ctx input
    else if matchesMultiplePages input then handleAddMultiplePages w env ctx input
    else if matchesWebComponent input then handleAddWebComponent w env ctx input
    else if matchesPattern input [str "add", str "create", str "new"]
        [str "page", str "post", str "article"] then
      handleAddPage w env ctx input
    else if matchesPattern input [str "create", str "make", str "new"]
          [str "site", str "website", str "blog", str "portfolio"] &&
        !matchesPattern input [str "add", str "create", str "new"]
          [str "page", str "post", str "article"] then
      handleCreateSite input ctx.sitesDir
    else if matchesPattern input [str "show", str "list", str "what", str "display"]
        [str "site", str "page"] then
      pure (handleListContent input ctx)
    else if matchesPattern input [str "preview", str "view", str "see", str "open"]
        [str "site", str "website"] then
      pure (handlePreview input ctx)
    else if matchesPattern input [str "publish", str "deploy", str "online", str "web", str "live"]
        [] then
      pure (handlePublish w input ctx)
    else if matchesPattern input [str "edit", str "change", str "update", str "modify"]
        [str "page", str "content"] then
      pure (handleEdit input ctx)
    else if matchesPattern input [str "help", str "what can", str "how do", str "commands"]
        [] then
      pure getHelpResponse
    else pure (getDefaultResponse input)

/-- Model of `processWithAI` (lines 122-171): one generative round trip
whose message payload (system prompt, history, user turn) is modelled as the
concatenation of the system prompt and the user input; provider failure
falls back to the pattern engine.  The conversation-history bookkeeping has
no effect on the returned plan and is omitted. -/
def processWithAI (w : World) (env : Env) (ctx : Context) (userInput : Str) : EM Plan :=
  EM.catchE (do
      let response ← emAI env (buildSystemPrompt ctx ++ userInput)
      pure (parseAIResponse response true))
    (fun _ => processWithPatterns w env ctx userInput)

/-- Model of `process` (lines 95-121): patterns first, then the generative
path when patterns fail and a key is configured, with a catch-all error
plan. -/
def process (w : World) (env : Env) (ctx : Context) (userInput : Str) : EM Plan :=
  EM.catchE (do
      let patternResult ← processWithPatterns w env ctx userInput
      if patternResult.success || !env.hasAPIKey then pure patternResult
      else processWithAI w env ctx userInput)
    (fun emsg =>
      pure { explanation := str "Sorry, I encountered an error: " ++ emsg,
             commands := [], success := false, error := some emsg })

end HaxAI

namespace HaxAI


def PlanInv (p : Plan) : Prop := p.success = false → p.commands = []

theorem planInv_nil {p : Plan} (h : p.commands = []) : PlanInv p := fun _ => h

theorem planInv_true {p : Plan} (h : p.success = true) : PlanInv p := by
  intro hf
  rw [h] at hf
  cases hf

def EMInv {α : Type} (P : α → Prop) (x : EM α) : Prop :=
  ∀ a, x.1 = .ok a → P a

theorem em_pure_fst {α : Type} (a : α) : (pure a : EM α).1 = .ok a := rfl

theorem em_bind_fst {α β : Type} (x : EM α) (f : α → EM β) :
    (x >>= f).1 = match x.1 with
      | .error e => .error e
      | .ok a => (f a).1 := by
  rcases x with ⟨x1, x2⟩
  cases x1 <;> rfl

theorem em_catch_fst {α : Type} (x : EM α) (h : Str → EM α) :
    (EM.catchE x h).1 = match x.1 with
      | .ok a => .ok a
      | .error e => (h e).1 := by
  rcases x with ⟨x1, x2⟩
  cases x1 <;> rfl

theorem emInv_pure {α : Type} {P : α → Prop} (a : α) (h : P a) : EMInv P (pure a) := by
  intro b hb
  rw [em_pure_fst] at hb
  cases hb
  exact h

theorem emInv_throw {α : Type} {P : α → Prop} (m : Str) : EMInv P (throwE m : EM α) :=
  fun _ hb => Except.noConfusion hb

theorem emInv_bind {α β : Type} {P : β → Prop} {x : EM α} {f : α → EM β}
    (hf : ∀ a, EMInv P (f a)) : EMInv P (x >>= f) := by
  intro b hb
  rw [em_bind_fst] at hb
  split at hb
  · cases hb
  · exact hf _ _ hb

theorem emInv_bind_strong {α β : Type} {P : β → Prop} {Q : α → Prop} {x : EM α}
    {f : α → EM β} (hx : EMInv Q x) (hf : ∀ a, Q a → EMInv P (f a)) :
    EMInv P (x >>= f) := by
  intro b hb
  rw [em_bind_fst] at hb
  split at hb
  · cases hb
  · next heq => exact hf _ (hx _ heq) _ hb

theorem emInv_catch {α : Type} {P : α → Prop} {x : EM α} {h : Str → EM α}
    (hx : EMInv P x) (hh : ∀ e, EMInv P (h e)) : EMInv P (EM.catchE x h) := by
  intro b hb
  rw [em_catch_fst] at hb
  split at hb
  next heq => exact hx _ (heq.trans hb)
  next heq => exact hh _ _ hb

theorem planInv_ask (sites : List Str) (action : Str) :
    PlanInv (askForSiteSelection sites action) := by
  unfold askForSiteSelection
  repeat first
    | exact planInv_nil rfl
    | split

theorem pinv_addComponent (w : World) (s p cc ct sd : Str) :
    EMInv PlanInv (addComponentToExistingPage w s p cc ct sd) := by
  unfold addComponentToExistingPage
  apply emInv_catch
  · apply emInv_bind
    intro a
    split
    · exact emInv_pure _ (planInv_nil rfl)
    · apply emInv_bind
      intro items
      apply emInv_bind
      intro pi
      split
      · apply emInv_bind
        intro ap
        exact emInv_pure _ (planInv_nil rfl)
      · apply emInv_bind
        intro c
        split
        · exact emInv_pure _ (planInv_nil rfl)
        · apply emInv_bind
          intro u
          exact emInv_pure _ (planInv_true rfl)
  · intro e
    exact emInv_pure _ (planInv_nil rfl)

theorem emInv_error {α : Type} {P : α → Prop} {x : EM α} (e : Str) (h : x.1 = .error e) :
    EMInv P x :=
  fun _ hb => Except.noConfusion (h.symm.trans hb)

theorem pinv_handleCreateQuiz (w : World) (env : Env) (ctx : Context) (siteName : Str)
    (pageSource contentPrompt : Option Str) :
    EMInv PlanInv (handleCreateQuiz w env ctx siteName pageSource contentPrompt) := by
  unfold handleCreateQuiz
  split
  · exact emInv_pure _ (planInv_nil rfl)
  · dsimp only
    split
    · apply emInv_bind
      intro qc
      exact pinv_addComponent _ _ _ _ _ _
    · apply emInv_bind
      intro qc
      exact pinv_addComponent _ _ _ _ _ _

theorem pinv_handleCreateGeneralComponent (w : World) (ctx : Context)
    (siteName componentType : Str) (pageSource contentPrompt : Option Str) :
    EMInv PlanInv (handleCreateGeneralComponent w ctx siteName componentType pageSource
      contentPrompt) := by
  unfold handleCreateGeneralComponent
  dsimp only
  split
  · exact pinv_addComponent _ _ _ _ _ _
  · exact emInv_pure _ (planInv_true rfl)

theorem pinv_handleAddWebComponent (w : World) (env : Env) (ctx : Context) (input : Str) :
    EMInv PlanInv (handleAddWebComponent w env ctx input) := by
  unfold handleAddWebComponent
  dsimp only
  split
  · exact emInv_pure _ (planInv_ask _ _)
  · split
    · exact emInv_pure _ (planInv_nil rfl)
    · split
      · exact pinv_handleCreateQuiz _ _ _ _ _ _
      · exact pinv_handleCreateGeneralComponent _ _ _ _ _ _

theorem pinv_handleDeployment (w : World) (ctx : Context) (input : Str) :
    EMInv PlanInv (handleDeployment w ctx input) := by
  unfold handleDeployment
  dsimp only
  split
  · exact emInv_pure _ (planInv_ask _ _)
  · apply emInv_catch
    · apply emInv_bind
      intro u
      exact emInv_pure _ (planInv_true rfl)
    · intro e
      exact emInv_pure _ (planInv_nil rfl)

theorem pinv_handleCustomization (w : World) (env : Env) (ctx : Context) (input : Str) :
    EMInv PlanInv (handleCustomization w env ctx input) := by
  unfold handleCustomization
  dsimp only
  split
  · exact emInv_pure _ (planInv_ask _ _)
  · split
    · exact emInv_pure _ (planInv_nil rfl)
    · apply emInv_catch
      · apply emInv_bind
        intro c
        dsimp only
        split
        · apply emInv_bind
          intro sd
          apply emInv_bind
          intro items
          apply emInv_bind
          intro sp
          split
          · apply emInv_bind
            intro shown
            exact emInv_pure _ (planInv_nil rfl)
          · apply emInv_bind
            intro x1
            apply emInv_bind
            intro x2
            apply emInv_bind
            intro x3
            exact emInv_pure _ (planInv_true rfl)
        · apply emInv_bind
          intro sd
          apply emInv_bind
          intro items
          apply emInv_bind
          intro sp
          split
          · apply emInv_bind
            intro shown
            exact emInv_pure _ (planInv_nil rfl)
          · apply emInv_bind
            intro x1
            apply emInv_bind
            intro x2
            apply emInv_bind
            intro x3
            exact emInv_pure _ (planInv_true rfl)
      · intro e
        exact emInv_pure _ (planInv_nil rfl)

theorem pinv_handleSiteCloning (w : World) (ctx : Context) (input : Str) :
    EMInv PlanInv (handleSiteCloning w ctx input) := by
  unfold handleSiteCloning
  split
  · exact emInv_pure _ (planInv_nil rfl)
  · dsimp only
    split
    · exact emInv_pure _ (planInv_nil rfl)
    · exact emInv_pure _ (planInv_true rfl)

theorem pinv_generateAISlidedeck (env : Env) (topic siteName sitesDir : Str) :
    EMInv PlanInv (generateAISlidedeck env topic siteName sitesDir) := by
  unfold generateAISlidedeck
  apply emInv_bind
  intro st
  apply emInv_bind
  intro slides
  apply emInv_bind
  intro tRaw
  apply emInv_bind
  intro idx
  apply emInv_bind
  intro sc
  apply emInv_bind
  intro rc
  exact emInv_pure _ (planInv_true rfl)

theorem pinv_handleCreateSlidedeck (w : World) (env : Env) (ctx : Context) (input : Str) :
    EMInv PlanInv (handleCreateSlidedeck w env ctx input) := by
  unfold handleCreateSlidedeck
  dsimp only
  split
  · exact emInv_pure _ (planInv_ask _ _)
  · split
    · exact emInv_pure _ (planInv_true rfl)
    · split
      · exact emInv_pure _ (planInv_nil rfl)
      · apply emInv_catch
        · exact pinv_generateAISlidedeck _ _ _ _
        · intro e
          exact emInv_pure _ (planInv_nil rfl)

theorem pinv_generateMultipleAIPages (env : Env) (pageTitles : List Str)
    (pageContents : List (Str × Str)) (siteName sitesDir : Str) :
    EMInv PlanInv (generateMultipleAIPages env pageTitles pageContents siteName sitesDir) := by
  unfold generateMultipleAIPages
  apply emInv_bind
  intro cmds
  exact emInv_pure _ (planInv_true rfl)

theorem pinv_generateMultiplePagesWithFallbackContent (pageTitles : List Str)
    (pageContents : List (Str × Str)) (siteName sitesDir : Str) :
    EMInv PlanInv (generateMultiplePagesWithFallbackContent pageTitles pageContents siteName
      sitesDir) := by
  unfold generateMultiplePagesWithFallbackContent
  exact emInv_pure _ (planInv_true rfl)

theorem pinv_handleAddMultiplePages (w : World) (env : Env) (ctx : Context) (input : Str) :
    EMInv PlanInv (handleAddMultiplePages w env ctx input) := by
  unfold handleAddMultiplePages
  dsimp only
  split
  · exact emInv_pure _ (planInv_ask _ _)
  · split
    · exact emInv_pure _ (planInv_true rfl)
    · apply emInv_bind
      intro u
      dsimp only
      split
      · exact pinv_generateMultipleAIPages _ _ _ _ _
      · split
        · exact pinv_generateMultiplePagesWithFallbackContent _ _ _ _
        · exact emInv_pure _ (planInv_true rfl)

theorem pinv_handleCreateSite (input sitesDir : Str) :
    EMInv PlanInv (handleCreateSite input sitesDir) := by
  unfold handleCreateSite
  dsimp only
  split
  · exact emInv_pure _ (planInv_true rfl)
  · apply emInv_bind
    intro u
    exact emInv_pure _ (planInv_true rfl)

theorem pinv_generateAIContentForChildPage (env : Env)
    (pageTitle siteName contentPrompt sitesDir command workflowType : Str)
    (parentPage : Option Str) :
    EMInv PlanInv (generateAIContentForChildPage env pageTitle siteName contentPrompt sitesDir
      command workflowType parentPage) := by
  unfold generateAIContentForChildPage
  split
  · exact emInv_pure _ (planInv_true rfl)
  · apply emInv_catch
    · apply emInv_bind
      intro r
      exact emInv_pure _ (planInv_true rfl)
    · intro e
      exact emInv_pure _ (planInv_true rfl)

theorem pinv_handleAddPage (w : World) (env : Env) (ctx : Context) (input : Str) :
    EMInv PlanInv (handleAddPage w env ctx input) := by
  unfold handleAddPage
  dsimp only
  split
  · exact emInv_pure _ (planInv_ask _ _)
  · split
    · exact emInv_pure _ (planInv_true rfl)
    · apply emInv_bind
      intro u
      dsimp only
      split
      · exact pinv_generateAIContentForChildPage _ _ _ _ _ _ _ _
      · split
        · exact emInv_pure _ (planInv_true rfl)
        · exact emInv_pure _ (planInv_true rfl)

theorem planInv_getDefault (input : Str) : PlanInv (getDefaultResponse input) :=
  planInv_true rfl

theorem planInv_getHelp : PlanInv getHelpResponse :=
  planInv_true rfl

theorem planInv_handleListContent (input : Str) (ctx : Context) :
    PlanInv (handleListContent input ctx) := by
  unfold handleListContent
  dsimp only
  split
  · split
    · exact planInv_true rfl
    · exact planInv_true rfl
  · split
    · split
      · exact planInv_ask _ _
      · exact planInv_true rfl
    · exact planInv_getDefault _

theorem planInv_handlePreview (input : Str) (ctx : Context) :
    PlanInv (handlePreview input ctx) := by
  unfold handlePreview
  dsimp only
  split
  · exact planInv_ask _ _
  · exact planInv_true rfl

theorem planInv_handlePublish (w : World) (input : Str) (ctx : Context) :
    PlanInv (handlePublish w input ctx) := by
  unfold handlePublish
  dsimp only
  split
  · exact planInv_ask _ _
  · exact planInv_true rfl

theorem planInv_handleEdit (input : Str) (ctx : Context) :
    PlanInv (handleEdit input ctx) := by
  unfold handleEdit
  dsimp only
  split
  · exact planInv_ask _ _
  · split
    · exact planInv_true rfl
    · exact planInv_true rfl

theorem planInv_parse (response : Str) (b : Bool) :
    PlanInv (parseAIResponse response b) :=
  planInv_true rfl

theorem pinv_patternDispatch (w : World) (env : Env) (ctx : Context) (input : Str) :
    EMInv PlanInv (
      if matchesDeployment input then handleDeployment w ctx input
      else if matchesSlidedeck input then handleCreateSlidedeck w env ctx input
      else if matchesCustomization input then handleCustomization w env ctx input
      else if matchesSiteCloning input then handleSiteCloning w ctx input
      else if matchesMultiplePages input then handleAddMultiplePages w env ctx input
      else if matchesWebComponent input then handleAddWebComponent w env ctx input
      else if matchesPattern input [str "add", str "create", str "new"]
          [str "page", str "post", str "article"] then
        handleAddPage w env ctx input
      else if matchesPattern input [str "create", str "make", str "new"]
            [str "site", str "website", str "blog", str "portfolio"] &&
          !matchesPattern input [str "add", str "create", str "new"]
            [str "page", str "post", str "article"] then
        handleCreateSite input ctx.sitesDir
      else if matchesPattern input [str "show", str "list", str "what", str "display"]
          [str "site", str "page"] then
        pure (handleListContent input ctx)
      else if matchesPattern input [str "preview", str "view", str "see", str "open"]
          [str "site", str "website"] then
        pure (handlePreview input ctx)
      else if matchesPattern input [str "publish", str "deploy", str "online", str "web", str "live"]
          [] then
        pure (handlePublish w input ctx)
      else if matchesPattern input [str "edit", str "change", str "update", str "modify"]
          [str "page", str "content"] then
        pure (handleEdit input ctx)
      else if matchesPattern input [str "help", str "what can", str "how do", str "commands"]
          [] then
        pure getHelpResponse
      else pure (getDefaultResponse input)) := by
  by_cases h1 : matchesDeployment input = true
  · rw [if_pos h1]
    exact pinv_handleDeployment _ _ _
  rw [if_neg h1]
  by_cases h2 : matchesSlidedeck input = true
  · rw [if_pos h2]
    exact pinv_handleCreateSlidedeck _ _ _ _
  rw [if_neg h2]
  by_cases h3 : matchesCustomization input = true
  · rw [if_pos h3]
    exact pinv_handleCustomization _ _ _ _
  rw [if_neg h3]
  by_cases h4 : matchesSiteCloning input = true
  · rw [if_pos h4]
    exact pinv_handleSiteCloning _ _ _
  rw [if_neg h4]
  by_cases h5 : matchesMultiplePages input = true
  · rw [if_pos h5]
    exact pinv_handleAddMultiplePages _ _ _ _
  rw [if_neg h5]
  by_cases h6 : matchesWebComponent input = true
  · rw [if_pos h6]
    exact pinv_handleAddWebComponent _ _ _ _
  rw [if_neg h6]
  by_cases h7 : matchesPattern input [str "add", str "create", str "new"]
      [str "page", str "post", str "article"] = true
  · rw [if_pos h7]
    exact pinv_handleAddPage _ _ _ _
  rw [if_neg h7]
  by_cases h8 : (matchesPattern input [str "create", str "make", str "new"]
        [str "site", str "website", str "blog", str "portfolio"] &&
      !matchesPattern input [str "add", str "create", str "new"]
        [str "page", str "post", str "article"]) = true
  · rw [if_pos h8]
    exact pinv_handleCreateSite _ _
  rw [if_neg h8]
  by_cases h9 : matchesPattern input [str "show", str "list", str "what", str "display"]
      [str "site", str "page"] = true
  · rw [if_pos h9]
    exact emInv_pure _ (planInv_handleListContent _ _)
  rw [if_neg h9]
  by_cases h10 : matchesPattern input [str "preview", str "view", str "see", str "open"]
      [str "site", str "website"] = true
  · rw [if_pos h10]
    exact emInv_pure _ (planInv_handlePreview _ _)
  rw [if_neg h10]
  by_cases h11 : matchesPattern input
      [str "publish", str "deploy", str "online", str "web", str "live"] [] = true
  · rw [if_pos h11]
    exact emInv_pure _ (planInv_handlePublish _ _ _)
  rw [if_neg h11]
  by_cases h12 : matchesPattern input [str "edit", str "change", str "update", str "modify"]
      [str "page", str "content"] = true
  · rw [if_pos h12]
    exact emInv_pure _ (planInv_handleEdit _ _)
  rw [if_neg h12]
  by_cases h13 : matchesPattern input [str "help", str "what can", str "how do", str "commands"]
      [] = true
  · rw [if_pos h13]
    exact emInv_pure _ planInv_getHelp
  rw [if_neg h13]
  exact emInv_pure _ (planInv_getDefault _)

theorem pinv_processWithPatterns (w : World) (env : Env) (ctx : Context) (userInput : Str) :
    EMInv PlanInv (processWithPatterns w env ctx userInput) := by
  unfold processWithPatterns
  by_cases h0 : userInput.isEmpty = true
  · rw [if_pos h0]
    exact emInv_pure _ (planInv_nil rfl)
  · rw [if_neg h0]
    exact pinv_patternDispatch w env ctx (trimS (toLowerS userInput))

theorem pinv_processWithAI (w : World) (env : Env) (ctx : Context) (userInput : Str) :
    EMInv PlanInv (processWithAI w env ctx userInput) := by
  unfold processWithAI
  apply emInv_catch
  · apply emInv_bind
    intro r
    exact emInv_pure _ (planInv_parse _ _)
  · intro e
    exact pinv_processWithPatterns _ _ _ _

theorem pinv_process (w : World) (env : Env) (ctx : Context) (userInput : Str) :
    EMInv PlanInv (process w env ctx userInput) := by
  unfold process
  apply emInv_catch
  · intro b hb
    rw [em_bind_fst] at hb
    split at hb
    · cases hb
    · next a heq =>
      have ha := pinv_processWithPatterns w env ctx userInput a heq
      split at hb
      · rw [em_pure_fst] at hb
        cases hb
        exact ha
      · exact pinv_processWithAI w env ctx userInput _ hb
  · intro e
    exact emInv_pure _ (planInv_nil rfl)

end HaxAI

namespace HaxAI


/-- Effects that modify persisted state or run external programs. -/
def isMutation : Effect → Bool
  | .fileWrite _ _ => true
  | .spawn _ _ => true
  | .fileRead _ => false

/-- The computation's effect trace contains no mutation. -/
def EMEff {α : Type} (x : EM α) : Prop := ∀ e ∈ x.2, isMutation e = false

theorem em_bind_snd {α β : Type} (x : EM α) (f : α → EM β) :
    (x >>= f).2 = match x.1 with
      | .error _ => x.2
      | .ok a => x.2 ++ (f a).2 := by
  rcases x with ⟨x1, x2⟩
  cases x1 <;> rfl

theorem em_catch_snd {α : Type} (x : EM α) (h : Str → EM α) :
    (EM.catchE x h).2 = match x.1 with
      | .ok _ => x.2
      | .error e => x.2 ++ (h e).2 := by
  rcases x with ⟨x1, x2⟩
  cases x1 <;> rfl

theorem emEff_pure {α : Type} (a : α) : EMEff (pure a : EM α) := by
  intro e he
  cases he

theorem emEff_throw {α : Type} (m : Str) : EMEff (throwE m : EM α) := by
  intro e he
  cases he

theorem emEff_bind {α β : Type} {x : EM α} {f : α → EM β}
    (hx : EMEff x) (hf : ∀ a, EMEff (f a)) : EMEff (x >>= f) := by
  intro e he
  rw [em_bind_snd] at he
  split at he
  · exact hx e he
  · rw [List.mem_append] at he
    rcases he with he | he
    · exact hx e he
    · exact hf _ e he

theorem emEff_catch {α : Type} {x : EM α} {h : Str → EM α}
    (hx : EMEff x) (hh : ∀ er, EMEff (h er)) : EMEff (EM.catchE x h) := by
  intro e he
  rw [em_catch_snd] at he
  split at he
  · exact hx e he
  · rw [List.mem_append] at he
    rcases he with he | he
    · exact hx e he
    · exact hh _ e he

theorem emEff_ite {α : Type} {c : Prop} [Decidable c] {x y : EM α}
    (hx : EMEff x) (hy : EMEff y) : EMEff (if c then x else y) := by
  split
  · exact hx
  · exact hy

theorem emEff_read (w : World) (path : Str) : EMEff (emRead w path) := by
  unfold emRead
  split <;>
    · intro e he
      rw [List.mem_singleton] at he
      subst he
      rfl

theorem emEff_ai (env : Env) (prompt : Str) : EMEff (emAI env prompt) := by
  unfold emAI
  split
  · intro e he
    cases he
  · split <;>
      · intro e he
        cases he

theorem emEff_mapM {α β : Type} (f : α → EM β) (hf : ∀ a, EMEff (f a)) :
    ∀ l : List α, EMEff (emMapM f l)
  | [] => by
    unfold emMapM
    exact emEff_pure _
  | x :: rest => by
    unfold emMapM
    exact emEff_bind (hf x) (fun y => emEff_bind (emEff_mapM f hf rest)
      (fun ys => emEff_pure _))

theorem emEff_mapIdxFrom {α β : Type} (f : Nat → α → EM β) (hf : ∀ i a, EMEff (f i a)) :
    ∀ (i : Nat) (l : List α), EMEff (emMapIdxFrom f i l)
  | _, [] => by
    unfold emMapIdxFrom
    exact emEff_pure _
  | i, x :: rest => by
    unfold emMapIdxFrom
    exact emEff_bind (hf i x) (fun y => emEff_bind (emEff_mapIdxFrom f hf (i + 1) rest)
      (fun ys => emEff_pure _))

theorem emEff_mapIdx {α β : Type} (f : Nat → α → EM β) (hf : ∀ i a, EMEff (f i a))
    (l : List α) : EMEff (emMapIdx f l) :=
  emEff_mapIdxFrom f hf 0 l

theorem emEff_forUnit {α : Type} (f : α → EM Unit) (hf : ∀ a, EMEff (f a)) :
    ∀ l : List α, EMEff (emForUnit f l)
  | [] => by
    unfold emForUnit
    exact emEff_pure _
  | x :: rest => by
    unfold emForUnit
    exact emEff_bind (hf x) (fun _ => emEff_forUnit f hf rest)

theorem emEff_find {α : Type} (p : α → EM Bool) (hp : ∀ a, EMEff (p a)) :
    ∀ l : List α, EMEff (emFind p l)
  | [] => by
    unfold emFind
    exact emEff_pure _
  | x :: rest => by
    unfold emFind
    exact emEff_bind (hp x) (fun b => emEff_ite (emEff_pure _) (emEff_find p hp rest))

theorem emEff_jItemsE (j : Json) : EMEff (jItemsE j) := by
  unfold jItemsE
  split
  · split
    · exact emEff_pure _
    · exact emEff_throw _
  · exact emEff_throw _

theorem emEff_jStrME (j : Json) (k : Str) : EMEff (jStrME j k) := by
  unfold jStrME
  split
  · split
    · exact emEff_pure _
    · exact emEff_throw _
  · exact emEff_throw _

theorem emEff_validateNames (siteName pageTitle : Option Str) :
    EMEff (validateNames siteName pageTitle) := by
  unfold validateNames
  split
  · exact emEff_throw _
  · split
    · exact emEff_throw _
    · exact emEff_pure _

end HaxAI

namespace HaxAI

theorem emEff_generateCustomizedContent (env : Env) (t c cu : Str) :
    EMEff (generateCustomizedContent env t c cu) := by
  unfold generateCustomizedContent
  apply emEff_catch
  · exact emEff_bind (emEff_ai _ _) (fun r => emEff_pure _)
  · intro er
    exact emEff_pure _

theorem emEff_customPageMatch (pageName : Str) (item : Json) :
    EMEff (customPageMatch pageName item) := by
  unfold customPageMatch
  apply emEff_bind (emEff_jStrME _ _)
  intro t
  apply emEff_ite
  · exact emEff_pure _
  · exact emEff_bind (emEff_jStrME _ _) (fun sl => emEff_pure _)

theorem emEff_emTitleDisp (item : Json) : EMEff (emTitleDisp item) := by
  unfold emTitleDisp
  split
  · exact emEff_pure _
  · exact emEff_throw _

theorem emEff_handleCustomization (w : World) (env : Env) (ctx : Context) (input : Str) :
    EMEff (handleCustomization w env ctx input) := by
  unfold handleCustomization
  dsimp only
  split
  · exact emEff_pure _
  · split
    · exact emEff_pure _
    · apply emEff_catch
      · apply emEff_bind (emEff_read _ _)
        intro c
        dsimp only
        split
        · apply emEff_bind (emEff_pure _)
          intro sd
          apply emEff_bind (emEff_jItemsE _)
          intro items
          apply emEff_bind (emEff_find _ (emEff_customPageMatch _) _)
          intro sp
          split
          · apply emEff_bind (emEff_mapM _ emEff_emTitleDisp _)
            intro shown
            exact emEff_pure _
          · apply emEff_bind (emEff_read _ _)
            intro x1
            apply emEff_bind (emEff_jStrME _ _)
            intro x2
            apply emEff_bind (emEff_generateCustomizedContent _ _ _ _)
            intro x3
            exact emEff_pure _
        · apply emEff_bind (emEff_throw _)
          intro sd
          apply emEff_bind (emEff_jItemsE _)
          intro items
          apply emEff_bind (emEff_find _ (emEff_customPageMatch _) _)
          intro sp
          split
          · apply emEff_bind (emEff_mapM _ emEff_emTitleDisp _)
            intro shown
            exact emEff_pure _
          · apply emEff_bind (emEff_read _ _)
            intro x1
            apply emEff_bind (emEff_jStrME _ _)
            intro x2
            apply emEff_bind (emEff_generateCustomizedContent _ _ _ _)
            intro x3
            exact emEff_pure _
      · intro er
        exact emEff_pure _

theorem emEff_handleSiteCloning (w : World) (ctx : Context) (input : Str) :
    EMEff (handleSiteCloning w ctx input) := by
  unfold handleSiteCloning
  split
  · exact emEff_pure _
  · dsimp only
    split
    · exact emEff_pure _
    · exact emEff_pure _

theorem emEff_generateSlideStructure (env : Env) (topic : Str) :
    EMEff (generateSlideStructure env topic) := by
  unfold generateSlideStructure
  apply emEff_bind (emEff_ai _ _)
  intro r
  dsimp only
  split
  · exact emEff_pure _
  · exact emEff_pure _

theorem emEff_emSlidesArr (st : Json) : EMEff (emSlidesArr st) := by
  unfold emSlidesArr
  split
  · split
    · exact emEff_pure _
    · exact emEff_throw _
  · exact emEff_throw _

theorem emEff_generateSlidedeckIndexContent (st : Json) (slides : List Json) :
    EMEff (generateSlidedeckIndexContent st slides) := by
  unfold generateSlidedeckIndexContent
  apply emEff_bind
  · apply emEff_mapIdx
    intro i slide
    split
    · exact emEff_pure _
    · exact emEff_throw _
  · intro entries
    exact emEff_pure _

theorem emEff_generateSlideContent (env : Env) (slide : Json) (topic : Str)
    (slideNumber totalSlides : Nat) :
    EMEff (generateSlideContent env slide topic slideNumber totalSlides) := by
  unfold generateSlideContent
  split
  · dsimp only
    split
    · apply emEff_bind (emEff_pure _)
      intro k
      exact emEff_bind (emEff_ai _ _) (fun r => emEff_pure _)
    · apply emEff_bind (emEff_throw _)
      intro k
      exact emEff_bind (emEff_ai _ _) (fun r => emEff_pure _)
  · exact emEff_throw _

theorem emEff_generateAISlidedeck (env : Env) (topic siteName sitesDir : Str) :
    EMEff (generateAISlidedeck env topic siteName sitesDir) := by
  unfold generateAISlidedeck
  apply emEff_bind (emEff_generateSlideStructure _ _)
  intro st
  apply emEff_bind (emEff_emSlidesArr _)
  intro slides
  apply emEff_bind (emEff_jStrME _ _)
  intro tRaw
  apply emEff_bind (emEff_generateSlidedeckIndexContent _ _)
  intro idx
  apply emEff_bind
  · apply emEff_mapIdx
    intro i slide
    apply emEff_bind (emEff_generateSlideContent _ _ _ _ _)
    intro sc
    exact emEff_bind (emEff_jStrME _ _) (fun t2 => emEff_pure _)
  · intro sc
    apply emEff_bind
    · apply emEff_mapM
      intro slide
      exact emEff_bind (emEff_jStrME _ _) (fun t2 => emEff_pure _)
    · intro rc
      exact emEff_pure _

theorem emEff_handleCreateSlidedeck (w : World) (env : Env) (ctx : Context) (input : Str) :
    EMEff (handleCreateSlidedeck w env ctx input) := by
  unfold handleCreateSlidedeck
  dsimp only
  split
  · exact emEff_pure _
  · split
    · exact emEff_pure _
    · split
      · exact emEff_pure _
      · apply emEff_catch
        · exact emEff_generateAISlidedeck _ _ _ _
        · intro er
          exact emEff_pure _

theorem emEff_buildMultiAICommand (env : Env) (contentMap : List (Str × Str))
    (pageTitle : Str) : EMEff (buildMultiAICommand env contentMap pageTitle) := by
  unfold buildMultiAICommand
  dsimp only
  split
  · apply emEff_bind
    · apply emEff_catch
      · exact emEff_bind (emEff_ai _ _) (fun r => emEff_pure _)
      · intro er
        exact emEff_pure _
    · intro cmd
      exact emEff_pure _
  · split
    · exact emEff_bind (emEff_pure _) (fun cmd => emEff_pure _)
    · exact emEff_bind (emEff_pure _) (fun cmd => emEff_pure _)

theorem emEff_generateMultipleAIPages (env : Env) (pageTitles : List Str)
    (pageContents : List (Str × Str)) (siteName sitesDir : Str) :
    EMEff (generateMultipleAIPages env pageTitles pageContents siteName sitesDir) := by
  unfold generateMultipleAIPages
  apply emEff_bind (emEff_mapM _ (emEff_buildMultiAICommand _ _) _)
  intro cmds
  exact emEff_pure _

theorem emEff_generateMultiplePagesWithFallbackContent (pageTitles : List Str)
    (pageContents : List (Str × Str)) (siteName sitesDir : Str) :
    EMEff (generateMultiplePagesWithFallbackContent pageTitles pageContents siteName
      sitesDir) := by
  unfold generateMultiplePagesWithFallbackContent
  exact emEff_pure _

theorem emEff_handleAddMultiplePages (w : World) (env : Env) (ctx : Context) (input : Str) :
    EMEff (handleAddMultiplePages w env ctx input) := by
  unfold handleAddMultiplePages
  dsimp only
  split
  · exact emEff_pure _
  · split
    · exact emEff_pure _
    · apply emEff_bind (emEff_forUnit _ (fun t => emEff_validateNames _ _) _)
      intro u
      dsimp only
      split
      · exact emEff_generateMultipleAIPages _ _ _ _ _
      · split
        · exact emEff_generateMultiplePagesWithFallbackContent _ _ _ _
        · exact emEff_pure _

theorem emEff_handleCreateSite (input sitesDir : Str) :
    EMEff (handleCreateSite input sitesDir) := by
  unfold handleCreateSite
  dsimp only
  split
  · exact emEff_pure _
  · apply emEff_bind (emEff_validateNames _ _)
    intro u
    exact emEff_pure _

theorem emEff_generateAIContentForChildPage (env : Env)
    (pageTitle siteName contentPrompt sitesDir command workflowType : Str)
    (parentPage : Option Str) :
    EMEff (generateAIContentForChildPage env pageTitle siteName contentPrompt sitesDir
      command workflowType parentPage) := by
  unfold generateAIContentForChildPage
  split
  · exact emEff_pure _
  · apply emEff_catch
    · exact emEff_bind (emEff_ai _ _) (fun r => emEff_pure _)
    · intro er
      exact emEff_pure _

theorem emEff_handleAddPage (w : World) (env : Env) (ctx : Context) (input : Str) :
    EMEff (handleAddPage w env ctx input) := by
  unfold handleAddPage
  dsimp only
  split
  · exact emEff_pure _
  · split
    · exact emEff_pure _
    · apply emEff_bind (emEff_validateNames _ _)
      intro u
      dsimp only
      split
      · exact emEff_generateAIContentForChildPage _ _ _ _ _ _ _ _
      · split
        · exact emEff_pure _
        · exact emEff_pure _

end HaxAI

namespace HaxAI

theorem emEff_patternDispatch (w : World) (env : Env) (ctx : Context) (input : Str)
    (h1 : matchesWebComponent input = false) (h2 : matchesDeployment input = false) :
    EMEff (
      if matchesDeployment input then handleDeployment w ctx input
      else if matchesSlidedeck input then handleCreateSlidedeck w env ctx input
      else if matchesCustomization input then handleCustomization w env ctx input
      else if matchesSiteCloning input then handleSiteCloning w ctx input
      else if matchesMultiplePages input then handleAddMultiplePages w env ctx input
      else if matchesWebComponent input then handleAddWebComponent w env ctx input
      else if matchesPattern input [str "add", str "create", str "new"]
          [str "page", str "post", str "article"] then
        handleAddPage w env ctx input
      else if matchesPattern input [str "create", str "make", str "new"]
            [str "site", str "website", str "blog", str "portfolio"] &&
          !matchesPattern input [str "add", str "create", str "new"]
            [str "page", str "post", str "article"] then
        handleCreateSite input ctx.sitesDir
      else if matchesPattern input [str "show", str "list", str "what", str "display"]
          [str "site", str "page"] then
        pure (handleListContent input ctx)
      else if matchesPattern input [str "preview", str "view", str "see", str "open"]
          [str "site", str "website"] then
        pure (handlePreview input ctx)
      else if matchesPattern input [str "publish", str "deploy", str "online", str "web", str "live"]
          [] then
        pure (handlePublish w input ctx)
      else if matchesPattern input [str "edit", str "change", str "update", str "modify"]
          [str "page", str "content"] then
        pure (handleEdit input ctx)
      else if matchesPattern input [str "help", str "what can", str "how do", str "commands"]
          [] then
        pure getHelpResponse
      else pure (getDefaultResponse input)) := by
  rw [if_neg (by rw [h2]; exact Bool.false_ne_true)]
  by_cases hb2 : matchesSlidedeck input = true
  · rw [if_pos hb2]
    exact emEff_handleCreateSlidedeck _ _ _ _
  rw [if_neg hb2]
  by_cases hb3 : matchesCustomization input = true
  · rw [if_pos hb3]
    exact emEff_handleCustomization _ _ _ _
  rw [if_neg hb3]
  by_cases hb4 : matchesSiteCloning input = true
  · rw [if_pos hb4]
    exact emEff_handleSiteCloning _ _ _
  rw [if_neg hb4]
  by_cases hb5 : matchesMultiplePages input = true
  · rw [if_pos hb5]
    exact emEff_handleAddMultiplePages _ _ _ _
  rw [if_neg hb5]
  rw [if_neg (by rw [h1]; exact Bool.false_ne_true)]
  by_cases hb7 : matchesPattern input [str "add", str "create", str "new"]
      [str "page", str "post", str "article"] = true
  · rw [if_pos hb7]
    exact emEff_handleAddPage _ _ _ _
  rw [if_neg hb7]
  by_cases hb8 : (matchesPattern input [str "create", str "make", str "new"]
        [str "site", str "website", str "blog", str "portfolio"] &&
      !matchesPattern input [str "add", str "create", str "new"]
        [str "page", str "post", str "article"]) = true
  · rw [if_pos hb8]
    exact emEff_handleCreateSite _ _
  rw [if_neg hb8]
  by_cases hb9 : matchesPattern input [str "show", str "list", str "what", str "display"]
      [str "site", str "page"] = true
  · rw [if_pos hb9]
    exact emEff_pure _
  rw [if_neg hb9]
  by_cases hb10 : matchesPattern input [str "preview", str "view", str "see", str "open"]
      [str "site", str "website"] = true
  · rw [if_pos hb10]
    exact emEff_pure _
  rw [if_neg hb10]
  by_cases hb11 : matchesPattern input
      [str "publish", str "deploy", str "online", str "web", str "live"] [] = true
  · rw [if_pos hb11]
    exact emEff_pure _
  rw [if_neg hb11]
  by_cases hb12 : matchesPattern input [str "edit", str "change", str "update", str "modify"]
      [str "page", str "content"] = true
  · rw [if_pos hb12]
    exact emEff_pure _
  rw [if_neg hb12]
  by_cases hb13 : matchesPattern input [str "help", str "what can", str "how do", str "commands"]
      [] = true
  · rw [if_pos hb13]
    exact emEff_pure _
  rw [if_neg hb13]
  exact emEff_pure _

theorem emEff_processWithPatterns (w : World) (env : Env) (ctx : Context) (userInput : Str)
    (h1 : matchesWebComponent (trimS (toLowerS userInput)) = false)
    (h2 : matchesDeployment (trimS (toLowerS userInput)) = false) :
    EMEff (processWithPatterns w env ctx userInput) := by
  unfold processWithPatterns
  by_cases h0 : userInput.isEmpty = true
  · rw [if_pos h0]
    exact emEff_pure _
  · rw [if_neg h0]
    exact emEff_patternDispatch w env ctx (trimS (toLowerS userInput)) h1 h2

theorem emEff_processWithAI (w : World) (env : Env) (ctx : Context) (userInput : Str)
    (h1 : matchesWebComponent (trimS (toLowerS userInput)) = false)
    (h2 : matchesDeployment (trimS (toLowerS userInput)) = false) :
    EMEff (processWithAI w env ctx userInput) := by
  unfold processWithAI
  apply emEff_catch
  · exact emEff_bind (emEff_ai _ _) (fun r => emEff_pure _)
  · intro er
    exact emEff_processWithPatterns w env ctx userInput h1 h2

theorem emEff_process (w : World) (env : Env) (ctx : Context) (userInput : Str)
    (h1 : matchesWebComponent (trimS (toLowerS userInput)) = false)
    (h2 : matchesDeployment (trimS (toLowerS userInput)) = false) :
    EMEff (process w env ctx userInput) := by
  unfold process
  apply emEff_catch
  · apply emEff_bind (emEff_processWithPatterns w env ctx userInput h1 h2)
    intro p
    apply emEff_ite
    · exact emEff_pure _
    · exact emEff_processWithAI w env ctx userInput h1 h2
  · intro er
    exact emEff_pure _

theorem emEff_all {α : Type} {x : EM α} (h : EMEff x) :
    (x.2.all (fun e => !isMutation e)) = true := by
  rw [List.all_eq_true]
  intro e he
  rw [Bool.not_eq_true']
  exact h e he

end HaxAI


namespace HaxAI

/-- The plan invariant as a boolean observation on a finished computation:
a returned plan is either successful or carries no commands (a thrown
error trivially satisfies it, the catch in `process` turning it into a
commandless failure plan). -/
def planInvB (x : EM Plan) : Bool :=
  match x.1 with
  | .ok p => p.success || p.commands.isEmpty
  | .error _ => true

theorem planInvB_of {x : EM Plan} (h : EMInv PlanInv x) : planInvB x = true := by
  unfold planInvB
  split
  · next p heq =>
    cases hs : p.success
    · have hc := h p heq hs
      simp [hc]
    · simp
  · rfl

/-- C1 (amended): in the ORIG pattern engine the invariant holds for every
input, context, world and generative oracle — for `process` itself, for the
pattern dispatcher, and for the quiz workflow handler the claim cites.  (The
enhanced variant's `parseAIResponse` violates it, see the counterexample.) -/
theorem c1_fail_implies_no_commands (w : World) (env : Env) (ctx : Context)
    (userInput siteName : Str) (pageSource contentPrompt : Option Str) :
    planInvB (process w env ctx userInput) = true ∧
    planInvB (processWithPatterns w env ctx userInput) = true ∧
    planInvB (handleCreateQuiz w env ctx siteName pageSource contentPrompt) = true :=
  ⟨planInvB_of (pinv_process w env ctx userInput),
   planInvB_of (pinv_processWithPatterns w env ctx userInput),
   planInvB_of (pinv_handleCreateQuiz w env ctx siteName pageSource contentPrompt)⟩

/-- C1 counterexample: the enhanced variant's `parseAIResponse`
(src/unnamed/part_001 lines 374-424) copies `success` and `commands`
verbatim from the parsed model response, so a response with
`success: false` and a non-empty command list is returned as-is, violating
the invariant. -/
theorem c1_cex_enhanced_parse_copies_failure :
    (parseAIRespV2 (str "\x7b\"explanation\":\"x\",\"commands\":[\"hax site build\"],\"success\":false\x7d")).success =
      Json.jbool false ∧
    (parseAIRespV2 (str "\x7b\"explanation\":\"x\",\"commands\":[\"hax site build\"],\"success\":false\x7d")).commands =
      Json.jarr [Json.jstr (str "hax site build")] :=
  ⟨rfl, rfl⟩

/-- C2 (amended): for every input that does not match the web-component
patterns (whose handlers append to page files directly) and does not match
the deployment patterns (whose handler spawns `surge whoami`), a `process`
call performs no file write and spawns no program — its effect trace
contains file reads at most. -/
theorem c2_no_mutations_outside_component_and_deploy (w : World) (env : Env)
    (ctx : Context) (userInput : Str)
    (h1 : matchesWebComponent (trimS (toLowerS userInput)) = false)
    (h2 : matchesDeployment (trimS (toLowerS userInput)) = false) :
    ((process w env ctx userInput).2.all (fun e => !isMutation e)) = true :=
  emEff_all (emEff_process w env ctx userInput h1 h2)

theorem c2_no_mutations_witness :
    (matchesWebComponent (trimS (toLowerS (str "help"))) = false) ∧
    (matchesDeployment (trimS (toLowerS (str "help"))) = false) ∧
    ((process {} {} {} (str "help")).2.all (fun e => !isMutation e) = true) :=
  ⟨by decide, by decide,
   c2_no_mutations_outside_component_and_deploy {} {} {} (str "help") (by decide) (by decide)⟩

/-- The site layout of the C2 counterexample: one site `science` holding an
`Intro` page. -/
def c2CexWorld : World :=
  { files := [(str "/s/science/site.json",
      str "\x7b\"items\":[\x7b\"title\":\"Intro\",\"slug\":\"intro\",\"location\":\"pages/intro/index.html\",\"id\":\"item-1\"\x7d]\x7d"),
      (str "/s/science/pages/intro/index.html", str "<p>Welcome to the intro page.</p>")],
    surgeWhoami := none, surgeDomainEnv := none, nowMs := 0 }

def c2CexCtx : Context :=
  { availableSites := [str "science"], currentSite := some (str "science"),
    sitesDir := str "/s" }

/-- C2 counterexample: on a quiz request, `process` itself writes the page
file (the `addComponentToExistingPage` path), so its effect trace contains
a file write even though the returned plan's command list is empty. -/
theorem c2_cex_quiz_page_write :
    ((process c2CexWorld {} c2CexCtx (str "add a quiz about biology to the intro page")).2.any
      (fun e => match e with | .fileWrite _ _ => true | _ => false)) = true ∧
    planInvB (process c2CexWorld {} c2CexCtx
      (str "add a quiz about biology to the intro page")) = true := by
  constructor
  · decide
  · decide

/-- Reduction of a bind over a pure action. -/
theorem em_pure_bind_fst {α β : Type} (a : α) (f : α → EM β) :
    ((pure a : EM α) >>= f).1 = (f a).1 := rfl

theorem em_bind_error {α β : Type} {x : EM α} {e : Str} (f : α → EM β)
    (h : x.1 = .error e) : (x >>= f).1 = .error e := by
  rw [em_bind_fst, h]

theorem em_catch_error {α : Type} {x : EM α} {e : Str} (h : Str → EM α)
    (hx : x.1 = .error e) : (EM.catchE x h).1 = (h e).1 := by
  rw [em_catch_fst, hx]

/-- C8: a deployment request with a resolved site but a failing
`surge whoami` probe yields the fixed informational plan: failure, no
commands, and the Surge setup instructions. -/
theorem c8_deploy_auth_failure (w : World) (ctx : Context) (input : Str)
    (hs : jsSome (jsOrOptS (extractSiteFromInput input ctx.availableSites)
      ctx.currentSite) = true)
    (hw : w.surgeWhoami = none) :
    ∃ p, (handleDeployment w ctx input).1 = .ok p ∧ p.success = false ∧ p.commands = [] ∧
      p.explanation = str "❌ Surge.sh authentication required. You need to login to Surge first:" ∧
      p.examples.contains (str "2. Run: surge login") = true := by
  unfold handleDeployment
  dsimp only
  rw [if_neg (by rw [hs]; decide)]
  have hprobe : (emSurgeWhoami w).1 = .error (str "Not logged in") := by
    unfold emSurgeWhoami
    rw [hw]
  rw [em_catch_error _ (em_bind_error _ hprobe)]
  exact ⟨_, rfl, rfl, rfl, rfl, by decide⟩

theorem c8_deploy_auth_failure_witness :
    (jsSome (jsOrOptS (extractSiteFromInput (str "deploy mysite") [str "mysite"]) none) = true) ∧
    ∃ p, (handleDeployment {}
        { availableSites := [str "mysite"], currentSite := none, sitesDir := str "/s" }
        (str "deploy mysite")).1 = .ok p ∧ p.success = false ∧ p.commands = [] ∧
      p.explanation = str "❌ Surge.sh authentication required. You need to login to Surge first:" ∧
      p.examples.contains (str "2. Run: surge login") = true :=
  ⟨by decide, c8_deploy_auth_failure {}
    { availableSites := [str "mysite"], currentSite := none, sitesDir := str "/s" }
    (str "deploy mysite") (by decide) rfl⟩

/-- C10: with exactly one available site, `askForSiteSelection` silently
auto-selects it (success, no commands, `autoSelect` set), and a handler
that needs a site — `handleAddPage` with no site in the input and no
current site — returns exactly that plan. -/
theorem c10_single_site_auto_select (sites : List Str) (action s : Str) (w : World)
    (env : Env) (ctx : Context) (input : Str)
    (hs : sites = [s])
    (hctx : ctx.availableSites = sites) (hcur : ctx.currentSite = none)
    (hext : extractSiteFromInput input sites = none) :
    (askForSiteSelection sites action).success = true ∧
    (askForSiteSelection sites action).commands = [] ∧
    (askForSiteSelection sites action).autoSelect = some s ∧
    (handleAddPage w env ctx input).1 = .ok (askForSiteSelection sites (str "add a page to")) := by
  subst hs
  refine ⟨?_, ?_, ?_, ?_⟩
  · unfold askForSiteSelection
    rw [if_neg (by simp), if_pos (by simp)]
  · unfold askForSiteSelection
    rw [if_neg (by simp), if_pos (by simp)]
  · unfold askForSiteSelection
    rw [if_neg (by simp), if_pos (by simp)]
    rfl
  · unfold handleAddPage
    dsimp only
    rw [hctx, hcur, hext]
    rw [if_pos (by decide)]
    rfl

theorem c10_single_site_auto_select_witness :
    (extractSiteFromInput (str "add a page called team") [str "portfolio"] = none) ∧
    (askForSiteSelection [str "portfolio"] (str "deploy")).success = true ∧
    (askForSiteSelection [str "portfolio"] (str "deploy")).commands = [] ∧
    (askForSiteSelection [str "portfolio"] (str "deploy")).autoSelect = some (str "portfolio") ∧
    (handleAddPage {} {}
      { availableSites := [str "portfolio"], currentSite := none, sitesDir := str "/s" }
      (str "add a page called team")).1 =
        .ok (askForSiteSelection [str "portfolio"] (str "add a page to")) := by
  have h := c10_single_site_auto_select [str "portfolio"] (str "deploy") (str "portfolio")
    {} {} { availableSites := [str "portfolio"], currentSite := none, sitesDir := str "/s" }
    (str "add a page called team") rfl rfl rfl (by decide)
  exact ⟨by decide, h.1, h.2.1, h.2.2.1, h.2.2.2⟩

end HaxAI

namespace HaxAI

/-- C9 (amended): the allow-list of `validateNames` is letters, digits and
underscore only — hyphen is NOT allowed.  Every extracted name inside that
class is accepted (success plan starting with the `hax site start` command);
every extracted name outside it makes the handler throw the specific
`Invalid site name` error, which the `process` boundary catches into a
`success=false` plan (see the counterexample for the surfaced form). -/
theorem c9_site_name_validation (input sitesDir siteName : Str)
    (hx : extractSiteName input = some siteName)
    (hne : siteName.isEmpty = false) :
    (siteName.all (fun c => isAlnumC c || c == '_') = true →
      ∃ p, (handleCreateSite input sitesDir).1 = .ok p ∧ p.success = true ∧
        p.commands.headD [] = str "hax site start --name " ++ siteName ++ str " --y") ∧
    (siteName.all (fun c => isAlnumC c || c == '_') = false →
      (handleCreateSite input sitesDir).1 =
        .error (str "Invalid site name. Use only letters, numbers, and underscores.")) := by
  constructor
  · intro hall
    have hv : validateNames (some siteName) none = pure () := by
      unfold validateNames
      rw [if_neg (by simp [jsSome, hne, testSiteNameRe, hall]),
        if_neg (by simp [jsSome])]
    unfold handleCreateSite
    dsimp only
    rw [hx]
    simp only [Option.getD_some]
    rw [if_neg (by simp [jsSome, hne])]
    rw [hv, em_pure_bind_fst]
    refine ⟨_, rfl, rfl, ?_⟩
    split <;> rfl
  · intro hall
    have hv1 : (validateNames (some siteName) none).1 =
        .error (str "Invalid site name. Use only letters, numbers, and underscores.") := by
      unfold validateNames
      rw [if_pos (by simp [jsSome, hne, testSiteNameRe, hall])]
      rfl
    unfold handleCreateSite
    dsimp only
    rw [hx]
    simp only [Option.getD_some]
    rw [if_neg (by simp [jsSome, hne])]
    exact em_bind_error _ hv1

theorem c9_site_name_validation_witness :
    (extractSiteName (str "create a site called myblog") = some (str "myblog")) ∧
    ((str "myblog").all (fun c => isAlnumC c || c == '_') = true) ∧
    ∃ p, (handleCreateSite (str "create a site called myblog") (str "/s")).1 = .ok p ∧
      p.success = true ∧
      p.commands.headD [] = str "hax site start --name " ++ str "myblog" ++ str " --y" :=
  ⟨by decide, by decide,
   (c9_site_name_validation (str "create a site called myblog") (str "/s") (str "myblog")
     (by decide) (by decide)).1 (by decide)⟩

/-- C9 counterexample: `my-blog` uses only letters, digits and hyphen — the
claimed allow-list — yet the engine rejects it: `process` returns a failure
plan whose explanation names the narrower letters/numbers/underscores
rule. -/
theorem c9_cex_hyphen_rejected :
    ((str "my-blog").all (fun c => isAlnumC c || c == '-') = true) ∧
    ∃ p, (process {} {}
        { availableSites := [], currentSite := none, sitesDir := str "/s" }
        (str "create a site called my-blog")).1 = .ok p ∧
      p.success = false ∧ p.commands = [] ∧
      hasSub p.explanation (str "Invalid site name. Use only letters, numbers, and underscores.") = true :=
  ⟨by decide, ⟨_, rfl, rfl, rfl, by decide⟩⟩

end HaxAI

namespace HaxAI

/-- The command list of a finished computation's plan (empty on a thrown
error). -/
def okCommands (x : EM Plan) : List Str :=
  match x.1 with
  | .ok p => p.commands
  | .error _ => []

theorem okCommands_pure_bind (a : Unit) (f : Unit → EM Plan) :
    okCommands ((pure a : EM Unit) >>= f) = okCommands (f a) := by
  unfold okCommands
  rw [em_pure_bind_fst]

theorem infix_cons_left {m r : Str} (l : Str) (h : m <:+: r) : m <:+: l ++ r :=
  h.trans (List.suffix_append l r).isInfix

theorem infix_of_right_assoc {m : Str} (pre rest : Str) : m <:+: pre ++ (m ++ rest) :=
  ⟨pre, rest, List.append_assoc pre m rest⟩

/-- The parent-update command embeds the lower-cased parent name verbatim. -/
theorem okCommands_eq {x : EM Plan} {p : Plan} (h : x.1 = .ok p) :
    okCommands x = p.commands := by
  unfold okCommands
  rw [h]

theorem em_catch_ok {α : Type} {x : EM α} {a : α} (h2 : Str → EM α) (hx : x.1 = .ok a) :
    (EM.catchE x h2).1 = .ok a := by
  rw [em_catch_fst, hx]

theorem updateParent_hasSub_parent (pp t : Str) (h : pp.isEmpty = false) :
    hasSub (updateParentCommandStr (some pp) t) (toLowerS pp) = true := by
  apply hasSub_of_infx
  unfold updateParentCommandStr optLowerOrEmpty
  dsimp only
  rw [if_neg (by rw [h]; exact Bool.false_ne_true)]
  simp only [List.append_assoc]
  exact infix_of_right_assoc _ _

/-- The parent-update command embeds the raw child title verbatim. -/
theorem updateParent_hasSub_title (pp : Option Str) (t : Str) :
    hasSub (updateParentCommandStr pp t) t = true := by
  apply hasSub_of_infx
  unfold updateParentCommandStr
  simp only [List.append_assoc]
  exact infix_cons_left _ (infix_cons_left _ (infix_cons_left _ (infix_cons_left _
    (infix_of_right_assoc _ _))))

/-- Both content paths of the child-page generator return exactly two
commands ending in the parent-update command. -/
theorem childCmds_shape (env : Env) (t s c d cmd wt : Str) (pp : Option Str) :
    (okCommands (generateAIContentForChildPage env t s c d cmd wt pp)).length = 2 ∧
    (okCommands (generateAIContentForChildPage env t s c d cmd wt pp)).getLast? =
      some (updateParentCommandStr pp t) := by
  unfold generateAIContentForChildPage
  split
  · rw [okCommands_eq (em_pure_fst _)]
    exact ⟨rfl, rfl⟩
  · rcases hai : (emAI env (threeParaPrompt t c)).1 with e | r
    · rw [okCommands_eq ((em_catch_error _ (em_bind_error _ hai)).trans rfl)]
      exact ⟨rfl, rfl⟩
    · rw [okCommands_eq (em_catch_ok _ (by rw [em_bind_fst, hai]; rfl))]
      exact ⟨rfl, rfl⟩

/-- C3 (amended): with a resolvable site, page title and parent reference
that pass validation, `handleAddPage` returns exactly two commands, the
second being the parent-update `node -e` script; that script references the
LOWER-CASED parent title and the VERBATIM child title — not their sanitized
forms (see the counterexample). -/
theorem c3_child_page_two_commands (w : World) (env : Env) (ctx : Context)
    (input siteName pageTitle parentPage : Str)
    (hsite : jsOrOptS (extractSiteFromInput input ctx.availableSites) ctx.currentSite =
      some siteName)
    (hsne : siteName.isEmpty = false)
    (htitle : extractPageTitle input = some pageTitle)
    (htne : pageTitle.isEmpty = false)
    (hparent : extractParentPage input = some parentPage)
    (hpne : parentPage.isEmpty = false)
    (hptr : (trimS parentPage).isEmpty = false)
    (hvs : testSiteNameRe siteName = true)
    (hvt : testPageTitleRe pageTitle = true) :
    (okCommands (handleAddPage w env ctx input)).length = 2 ∧
    (okCommands (handleAddPage w env ctx input)).getLast? =
      some (updateParentCommandStr (some parentPage) pageTitle) ∧
    hasSub (updateParentCommandStr (some parentPage) pageTitle) (toLowerS parentPage) = true ∧
    hasSub (updateParentCommandStr (some parentPage) pageTitle) pageTitle = true := by
  have hv : validateNames (some siteName) (some pageTitle) = pure () := by
    unfold validateNames
    rw [if_neg (by simp [hvs]), if_neg (by simp [hvt])]
  have hmain : (okCommands (handleAddPage w env ctx input)).length = 2 ∧
      (okCommands (handleAddPage w env ctx input)).getLast? =
        some (updateParentCommandStr (some parentPage) pageTitle) := by
    unfold handleAddPage
    dsimp only
    rw [hsite, htitle]
    simp only [Option.getD_some]
    rw [if_neg (by simp [jsSome, hsne]), if_neg (by simp [jsSome, htne])]
    rw [hparent]
    simp only [Option.getD_some]
    rw [hv, okCommands_pure_bind]
    by_cases hAI : (jsSome (extractContent input) && env.hasAPIKey &&
        (includesS input (str "with content") || includesS input (str "about"))) = true
    · rw [if_pos hAI]
      exact childCmds_shape _ _ _ _ _ _ _ _
    · rw [if_neg hAI]
      rw [if_pos (by simp [jsSome, hpne, hptr])]
      exact ⟨rfl, rfl⟩
  exact ⟨hmain.1, hmain.2, updateParent_hasSub_parent _ _ hpne,
    updateParent_hasSub_title _ _⟩

end HaxAI

namespace HaxAI

theorem c3_child_page_two_commands_witness :
    (jsOrOptS (extractSiteFromInput (str "add a page called team under the home page")
        [str "mysite"]) (some (str "mysite")) = some (str "mysite")) ∧
    (extractPageTitle (str "add a page called team under the home page") =
      some (str "team")) ∧
    (extractParentPage (str "add a page called team under the home page") =
      some (str "home")) ∧
    ((okCommands (handleAddPage {} {}
        { availableSites := [str "mysite"], currentSite := some (str "mysite"),
          sitesDir := str "/s" }
        (str "add a page called team under the home page"))).length = 2 ∧
      (okCommands (handleAddPage {} {}
        { availableSites := [str "mysite"], currentSite := some (str "mysite"),
          sitesDir := str "/s" }
        (str "add a page called team under the home page"))).getLast? =
          some (updateParentCommandStr (some (str "home")) (str "team")) ∧
      hasSub (updateParentCommandStr (some (str "home")) (str "team"))
        (toLowerS (str "home")) = true ∧
      hasSub (updateParentCommandStr (some (str "home")) (str "team")) (str "team") = true) :=
  ⟨by decide, by decide, by decide,
   c3_child_page_two_commands {} {}
     { availableSites := [str "mysite"], currentSite := some (str "mysite"),
       sitesDir := str "/s" }
     (str "add a page called team under the home page") (str "mysite") (str "team")
     (str "home") (by decide) (by decide) (by decide) (by decide) (by decide) (by decide)
     (by decide) (by decide) (by decide)⟩

/-- C3 counterexample: for the child title `my_team` (valid per
`validateNames`) the second command embeds the title verbatim; the
sanitized form `myteam` appears nowhere in it, so the command does not
reference the sanitized titles. -/
theorem c3_cex_child_title_not_sanitized :
    sanitizeSlideTitle (str "my_team") = str "myteam" ∧
    (okCommands (handleAddPage {} {}
      { availableSites := [str "mysite"], currentSite := some (str "mysite"),
        sitesDir := str "/s" }
      (str "add a page called my_team under the home page"))).length = 2 ∧
    hasSub ((okCommands (handleAddPage {} {}
      { availableSites := [str "mysite"], currentSite := some (str "mysite"),
        sitesDir := str "/s" }
      (str "add a page called my_team under the home page"))).getLast?.getD [])
      (str "my_team") = true ∧
    hasSub ((okCommands (handleAddPage {} {}
      { availableSites := [str "mysite"], currentSite := some (str "mysite"),
        sitesDir := str "/s" }
      (str "add a page called my_team under the home page"))).getLast?.getD [])
      (str "myteam") = false :=
  ⟨by decide, by decide, by decide, by decide⟩

end HaxAI
